import Mathlib

/-!
# Soundux: playback coordination (`src/ui/ui.cpp`)

A shallow embedding of the `Window` playback operations.  The process-wide globals
(`Globals::gSettings`, `Globals::gData`, `Globals::gAudio`, `Globals::gAudioBackend`,
`Globals::gHotKeys`, `Window::groupedSounds`) are the fields of one `State` record that every
operation receives and returns.  The answers of the driver and of the audio backend are not
decided by this code; they are read from an `Oracle`, a function of the call and of the number
of calls made so far, so that every sequence of successes and failures is covered.

Logging through `Fancy::fancy` has no effect on the state and is left out.
-/

namespace Soundux

/-! ## Data model -/

/-- The error codes passed to `onError`. -/
inductive ErrorCode
  | SoundNotFound | FailedToPlay | FailedToPause | FailedToResume | FailedToSeek
  | FailedToRepeat | FailedToMute | FailedToMoveToSink | FailedToMoveBack
  | FailedToMoveBackPassthrough | FailedToStartPassthrough | FailedToRevertDefaultSource
  | FailedToSetDefaultSource | FailedToSetCustomVolume | TabDoesNotExist | FolderDoesNotExist
  | FailedToSetHotkey | FailedToDelete
  deriving DecidableEq, Repr

/-- The two build variants selected by `#if defined(__linux__)` / `#elif defined(_WIN32)`. -/
inductive Platform
  | linux | windows
  deriving DecidableEq, Repr

/-- A clip of the catalog (`Objects::Sound`). -/
structure Sound where
  id : Nat
  name : String
  path : String
  modifiedDate : Nat
  hotkeys : List Int
  isFavorite : Bool
  localVolume : Option Int
  remoteVolume : Option Int
  deriving DecidableEq, Repr

/-- An output device of the engine (`Objects::AudioDevice`). -/
structure AudioDevice where
  name : String
  isDefault : Bool
  deriving DecidableEq, Repr

/-- A playing instance (`Objects::PlayingSound`).  `masterVolumeFactor` stands for
`raw.device->masterVolumeFactor`, a `float`; the field holds the rational number that the
`float` denotes. -/
structure PlayingSound where
  id : Nat
  sound : Sound
  playbackDevice : AudioDevice
  paused : Bool
  shouldRepeat : Bool
  masterVolumeFactor : ℚ
  deriving DecidableEq, Repr

/-- A stream of the backend (`RecordingApp` or `PlaybackApp`).  `pid` is the process id of a
stream whose dynamic type is the PulseAudio or the PipeWire one, the two types that the
`dynamic_pointer_cast`s of `getOutputs` and `getPlayback` recognise. -/
structure StreamApp where
  name : String
  application : String
  pid : Option Nat
  deriving DecidableEq, Repr

/-- An entry of the lists returned by `getOutputs` and `getPlayback` (`IconRecordingApp` or
`IconPlaybackApp`): the constructors (ui.cpp 1098-1107) copy `name` and `application`. -/
structure IconApp where
  name : String
  application : String
  appIcon : Option String
  deriving DecidableEq, Repr

/-- The fields of `Objects::Settings` that `ui.cpp` reads. -/
structure Settings where
  allowOverlapping : Bool
  muteDuringPlayback : Bool
  pushToTalkKeys : List Int
  outputs : List String
  useAsDefaultDevice : Bool
  allowMultipleOutputs : Bool
  localVolume : Int
  remoteVolume : Int
  audioBackend : Nat
  deriving DecidableEq, Repr

/-- The calls that `ui.cpp` makes on its collaborators: the engine `Globals::gAudio`, the task
queue `Globals::gQueue`, the backend `Globals::gAudioBackend`, the Windows microphone
`Globals::gWinSound->getMic()` and the hotkey collaborator `Globals::gHotKeys`.  Every call is
appended to `State.calls` in the order in which it is made. -/
inductive Call
  | play (soundId : Nat) (device : Option AudioDevice)
  | stop (id : Nat)
  | stopAll
  | queueStopAll
  | pause (id : Nat)
  | resume (id : Nat)
  | seek (id : Nat) (seekTo : Nat)
  | setRepeat (id : Nat) (shouldRepeat : Bool)
  | setup
  | muteInput (state : Bool)
  | inputSoundTo (app : String)
  | stopSoundInput
  | passthroughFrom (name : String)
  | stopPassthrough (name : String)
  | stopAllPassthrough
  | useAsDefault
  | revertDefault
  | destroy
  | createInstance (selector : Nat)
  | micMute (state : Bool)
  | pressKeys (keys : List Int)
  | releaseKeys (keys : List Int)
  deriving DecidableEq, Repr

/-- The answer (success or failure) of the driver or backend to a fallible call, given the call
and the number of calls made before it. -/
abbrev Oracle := Call → Nat → Bool

/-! ## The registry `groupedSounds` -/

/-- The type of `Window::groupedSounds`: a map from the id of a local instance to the id of its
remote instance.  A map holds one value per key. -/
abbrev Registry := AList (fun _ : Nat => Nat)

/-- The lookup `scoped->find(id)` followed by `scoped->at(id)`. -/
def findRemote (id : Nat) (m : Registry) : Option Nat :=
  m.lookup id

/-- The insertion `groupedSounds->insert`: as for the `insert` of a standard map, an existing
key keeps its value. -/
def insertGroup (l r : Nat) (m : Registry) : Registry :=
  if l ∈ m then m else m.insert l r

/-- The removal `groupedSounds->erase(id)`. -/
def eraseGroup (id : Nat) (m : Registry) : Registry :=
  m.erase id

/-- The globals that the playback operations read and write. -/
structure State where
  /-- The catalog behind `Globals::gData.getSound`. -/
  sounds : List Sound
  /-- The value of `Globals::gSettings`. -/
  settings : Settings
  /-- The devices known to `Globals::gAudio.getAudioDevice`. -/
  devices : List AudioDevice
  /-- The device on which `Globals::gAudio.play(sound)` plays. -/
  defaultDevice : AudioDevice
  /-- The value of `Globals::gAudio.nullSink`. -/
  nullSink : AudioDevice
  /-- The list returned by `Globals::gAudio.getPlayingSounds()`. -/
  playing : List PlayingSound
  /-- The id counter of the engine. -/
  counter : Nat
  /-- Whether the task pushed by `gQueue.push_unique(0, ...)` is waiting to run. -/
  pendingStopAll : Bool
  /-- The map `Window::groupedSounds`, local id to remote id. -/
  groupedSounds : Registry
  /-- Whether `Globals::gAudioBackend` is non-null. -/
  backend : Bool
  /-- Whether `Globals::gWinSound && Globals::gWinSound->getMic()` holds. -/
  winMic : Bool
  /-- Whether the capture source is muted. -/
  muted : Bool
  /-- The keys held down by the hotkey collaborator. -/
  pressedKeys : List Int
  /-- The value of `currentlyPassedThrough()`. -/
  passedThrough : List String
  /-- The error codes passed to `onError`, oldest first. -/
  errors : List ErrorCode
  /-- The calls made so far, oldest first. -/
  calls : List Call
  deriving DecidableEq

/-! ## Collaborators -/

/-- The error signal `onError(code)`. -/
def State.onError (e : ErrorCode) (s : State) : State :=
  { s with errors := s.errors ++ [e] }

/-- The statement `groupedSounds->insert({local, remote})`. -/
def State.insertGrouped (l r : Nat) (s : State) : State :=
  { s with groupedSounds := insertGroup l r s.groupedSounds }

/-- The statement `groupedSounds->erase(id)`. -/
def State.eraseGrouped (id : Nat) (s : State) : State :=
  { s with groupedSounds := eraseGroup id s.groupedSounds }

/-- The statement `groupedSounds->clear()`. -/
def State.clearGrouped (s : State) : State :=
  { s with groupedSounds := ∅ }

/-- Modelled from the spec: the audio backend and the Windows microphone are not part of the
sources.  What a successful call changes is taken from the capability list of the spec:
`muteInput` mutes or unmutes the capture source, `passthroughFrom` adds a stream to the streams
passed through, `stopPassthrough` removes one and `stopAllPassthrough` removes all.  The other
calls change nothing that `ui.cpp` reads back. -/
def State.effect (c : Call) (s : State) : State :=
  match c with
  | Call.muteInput b => { s with muted := b }
  | Call.micMute b => { s with muted := b }
  | Call.passthroughFrom n =>
      { s with passedThrough := if n ∈ s.passedThrough then s.passedThrough
                                else s.passedThrough ++ [n] }
  | Call.stopPassthrough n => { s with passedThrough := s.passedThrough.filter (fun x => x != n) }
  | Call.stopAllPassthrough => { s with passedThrough := [] }
  | _ => s

/-- One fallible call on the backend: the call is recorded, the oracle gives its answer, and a
successful call takes effect. -/
def State.invoke (o : Oracle) (c : Call) (s : State) : Bool × State :=
  let ok := o c s.calls.length
  let s1 := { s with calls := s.calls ++ [c] }
  (ok, if ok then s1.effect c else s1)

/-- The pattern `if (!backend->call()) { onError(code); }`. -/
def State.guarded (o : Oracle) (c : Call) (e : ErrorCode) (s : State) : State :=
  let r := s.invoke o c
  if r.1 then r.2 else r.2.onError e

/-- Modelled from the spec: `Globals::gHotKeys.pressKeys(keys)` holds the keys down. -/
def State.pressKeys (keys : List Int) (s : State) : State :=
  { s with calls := s.calls ++ [Call.pressKeys keys],
           pressedKeys := s.pressedKeys ++ keys.filter (fun k => k ∉ s.pressedKeys) }

/-- Modelled from the spec: `Globals::gHotKeys.releaseKeys(keys)` releases the keys. -/
def State.releaseKeys (keys : List Int) (s : State) : State :=
  { s with calls := s.calls ++ [Call.releaseKeys keys],
           pressedKeys := s.pressedKeys.filter (fun k => k ∉ keys) }

/-- Modelled from the spec: `Globals::gData.getSound(id)`, the sound of the catalog with this
id. -/
def getSound (id : Nat) (s : State) : Option Sound :=
  s.sounds.find? (fun x => x.id == id)

/-! ## The engine `Globals::gAudio` -/

namespace Audio

/-- Modelled from the spec: the instance that a successful `Globals::gAudio.play(sound, device)`
creates.  It gets the next value of a single increasing counter, targets the given device or
else the default device, and starts unpaused with the volume of its sound or else the global
default. -/
def newInstance (snd : Sound) (dev : Option AudioDevice) (s : State) : PlayingSound :=
  let target := dev.getD s.defaultDevice
  let vol : Int := if target.isDefault then snd.localVolume.getD s.settings.localVolume
                   else snd.remoteVolume.getD s.settings.remoteVolume
  { id := s.counter + 1, sound := snd, playbackDevice := target, paused := false,
    shouldRepeat := false, masterVolumeFactor := (vol : ℚ) / 100 }

/-- Modelled from the spec: `Globals::gAudio.play(sound, device)` is not part of the sources.
The driver may fail (the oracle answers); on success the new instance joins the playing list
and the counter advances. -/
def play (o : Oracle) (snd : Sound) (dev : Option AudioDevice) (s : State) :
    Option PlayingSound × State :=
  let c := Call.play snd.id dev
  let ok := o c s.calls.length
  let s1 := { s with calls := s.calls ++ [c] }
  if ok then
    let p := newInstance snd dev s
    (some p, { s1 with playing := s.playing ++ [p], counter := s.counter + 1 })
  else (none, s1)

/-- Modelled from the spec: `Globals::gAudio.stop(id)` destroys the instance with this id and
reports whether there was one. -/
def stop (id : Nat) (s : State) : Bool × State :=
  let s1 := { s with calls := s.calls ++ [Call.stop id] }
  if s.playing.any (fun p => p.id == id) then
    (true, { s1 with playing := s.playing.filter (fun p => p.id != id) })
  else (false, s1)

/-- Modelled from the spec: `Globals::gAudio.stopAll()` destroys every playing instance. -/
def stopAll (s : State) : State :=
  { s with calls := s.calls ++ [Call.stopAll], playing := [] }

/-- Modelled from the spec: `Globals::gAudio.pause(id)` marks the instance with this id as
paused and returns it; it fails when there is no such instance. -/
def pause (id : Nat) (s : State) : Option PlayingSound × State :=
  let s1 := { s with calls := s.calls ++ [Call.pause id] }
  match s.playing.find? (fun p => p.id == id) with
  | some p =>
      (some { p with paused := true },
       { s1 with playing := s.playing.map
                   (fun q => if q.id == id then { q with paused := true } else q) })
  | none => (none, s1)

/-- Modelled from the spec: `Globals::gAudio.resume(id)` marks the instance with this id as
not paused and returns it; it fails when there is no such instance. -/
def resume (id : Nat) (s : State) : Option PlayingSound × State :=
  let s1 := { s with calls := s.calls ++ [Call.resume id] }
  match s.playing.find? (fun p => p.id == id) with
  | some p =>
      (some { p with paused := false },
       { s1 with playing := s.playing.map
                   (fun q => if q.id == id then { q with paused := false } else q) })
  | none => (none, s1)

/-- Modelled from the spec: `Globals::gAudio.seek(id, seekTo)` moves the instance with this id
to the given position and returns it; it fails when there is no such instance.  The position
is not among the fields of a playing instance that the spec lists, so the instance returned is
the one found. -/
def seek (id : Nat) (seekTo : Nat) (s : State) : Option PlayingSound × State :=
  let s1 := { s with calls := s.calls ++ [Call.seek id seekTo] }
  match s.playing.find? (fun p => p.id == id) with
  | some p => (some p, s1)
  | none => (none, s1)

/-- Modelled from the spec: `Globals::gAudio.repeat(id, shouldRepeat)` sets the repeat flag of
the instance with this id and returns it; it fails when there is no such instance.  (The name
`repeat` is reserved in Lean.) -/
def setRepeat (id : Nat) (shouldRepeat : Bool) (s : State) : Option PlayingSound × State :=
  let s1 := { s with calls := s.calls ++ [Call.setRepeat id shouldRepeat] }
  match s.playing.find? (fun p => p.id == id) with
  | some p =>
      (some { p with shouldRepeat := shouldRepeat },
       { s1 with playing := s.playing.map
                   (fun q => if q.id == id then { q with shouldRepeat := shouldRepeat } else q) })
  | none => (none, s1)

/-- Modelled from the spec: `Globals::gAudio.getAudioDevice(name)`, the device with this
name. -/
def getAudioDevice (name : String) (s : State) : Option AudioDevice :=
  s.devices.find? (fun d => d.name == name)

end Audio

/-! ## `Window` -/

namespace Window

/-- The condition `!Globals::gSettings.outputs.empty() && !Globals::gSettings.useAsDefaultDevice`
under which `stopSound`, `pauseSound` and `resumeSound` consult the registry. -/
def dualOutput (st : Settings) : Bool :=
  !st.outputs.isEmpty && !st.useAsDefaultDevice

/-- The method `Window::onAllSoundsFinished` (ui.cpp 1004-1041). -/
def onAllSoundsFinished (p : Platform) (o : Oracle) (s : State) : State :=
  let s1 := if !s.settings.pushToTalkKeys.isEmpty then s.releaseKeys s.settings.pushToTalkKeys
            else s
  match p with
  | Platform.linux =>
      if s1.backend then
        let s2 := if s1.settings.muteDuringPlayback then
                    s1.guarded o (Call.muteInput false) ErrorCode.FailedToMute
                  else s1
        if s2.passedThrough.isEmpty then
          s2.guarded o Call.stopSoundInput ErrorCode.FailedToMoveBack
        else s2
      else s1
  | Platform.windows =>
      if s1.settings.muteDuringPlayback then
        if s1.winMic then s1.guarded o (Call.micMute false) ErrorCode.FailedToMute else s1
      else s1

/-- The method `Window::stopSound` (ui.cpp 531-559). -/
def stopSound (p : Platform) (o : Oracle) (id : Nat) (s : State) : Bool × State :=
  if dualOutput s.settings && (findRemote id s.groupedSounds).isNone then (false, s)
  else
    let remoteSoundId : Option Nat :=
      if dualOutput s.settings then findRemote id s.groupedSounds else none
    let r := Audio.stop id s
    let s2 := match remoteSoundId with
      | some remote =>
          let r2 := Audio.stop remote r.2
          r2.2.eraseGrouped id
      | none => r.2
    let s3 := if s2.playing.isEmpty then onAllSoundsFinished p o s2 else s2
    (r.1, s3)

/-- The method `Window::stopSounds` (ui.cpp 560-587).  With `sync = false` the stop of the
engine is only pushed on the queue; it has not run when the method returns. -/
def stopSounds (p : Platform) (o : Oracle) (sync : Bool) (s : State) : State :=
  let s1 := if !sync then
              { s with calls := s.calls ++ [Call.queueStopAll], pendingStopAll := true }
            else Audio.stopAll s
  let s2 := onAllSoundsFinished p o s1
  let s3 := s2.clearGrouped
  match p with
  | Platform.linux =>
      if s3.backend then
        let s4 := s3.guarded o Call.stopSoundInput ErrorCode.FailedToMoveBack
        s4.guarded o Call.stopAllPassthrough ErrorCode.FailedToMoveBackPassthrough
      else s3
  | Platform.windows => s3

/-- The loop of the Linux `playSound` over `Globals::gSettings.outputs` (ui.cpp 260-267): every
output application is redirected, `moveSuccess` tells whether one redirection succeeded. -/
def moveOutputs (o : Oracle) (outputs : List String) (moveSuccess : Bool) (s : State) :
    Bool × State :=
  match outputs with
  | [] => (moveSuccess, s)
  | outputApp :: rest =>
      let r := s.invoke o (Call.inputSoundTo outputApp)
      moveOutputs o rest (if r.1 then true else moveSuccess) r.2

/-- The steps of `playSound` before the starts (ui.cpp 229-246 on Linux, 301-318 otherwise):
the stop of all sounds when overlapping is not allowed, the mute of the capture source and the
press of the push-to-talk keys.  On Linux the stop is `stopSounds(true)` and the mute goes to
the backend; otherwise the stop is `stopSounds()` and the mute goes to the microphone of
`gWinSound`. -/
def preparePlay (p : Platform) (defaultSync : Bool) (o : Oracle) (s : State) : State :=
  let s1 := if !s.settings.allowOverlapping then
              match p with
              | Platform.linux => stopSounds Platform.linux o true s
              | Platform.windows => stopSounds Platform.windows o defaultSync s
            else s
  let s2 := if s1.settings.muteDuringPlayback then
              match p with
              | Platform.linux =>
                  if s1.backend then s1.guarded o (Call.muteInput true) ErrorCode.FailedToMute
                  else s1
              | Platform.windows =>
                  if s1.winMic then s1.guarded o (Call.micMute true) ErrorCode.FailedToMute
                  else s1
            else s1
  if !s2.settings.pushToTalkKeys.isEmpty then s2.pressKeys s2.settings.pushToTalkKeys else s2

/-- The starts of the Linux `playSound` and what follows them (ui.cpp 248-282, and 291-293 for
the paths that fall through to `FailedToPlay`). -/
def startLinux (o : Oracle) (sound : Sound) (s3 : State) : Option PlayingSound × State :=
  let r1 := Audio.play o sound none s3
  let r2 := Audio.play o sound (some r1.2.nullSink) r1.2
  match r1.1, r2.1 with
  | some playingSound, some remotePlayingSound =>
      let s4 := r2.2.insertGrouped playingSound.id remotePlayingSound.id
      if s4.settings.outputs.isEmpty then (some playingSound, s4)
      else if s4.backend then
        let m := moveOutputs o s4.settings.outputs false s4
        if !m.1 then
          let s5 := (stopSound Platform.linux o playingSound.id m.2).2
          let s6 := (stopSound Platform.linux o remotePlayingSound.id s5).2
          (none, s6.onError ErrorCode.FailedToMoveToSink)
        else (some playingSound, m.2)
      else (none, s4.onError ErrorCode.FailedToPlay)
  | _, _ => (none, r2.2.onError ErrorCode.FailedToPlay)

/-- The Linux variant of `Window::playSound` (ui.cpp 224-294). -/
def playSoundLinux (o : Oracle) (id : Nat) (s : State) : Option PlayingSound × State :=
  match getSound id s with
  | none => (none, s.onError ErrorCode.SoundNotFound)
  | some sound => startLinux o sound (preparePlay Platform.linux true o s)

/-- The starts of the non-Linux `playSound` (ui.cpp 320-348).  Two places of the source have no
defined behaviour: `outputs.front()` on an empty list (line 326) and `*playingSound` on an
empty optional (line 348).  `startOtherDefined` tells whether a call stays clear of both; where
it does not, the value given here (a failed lookup, an empty result) stands for no behaviour of
the source, and the theorems on this variant leave such calls out. -/
def startOther (o : Oracle) (sound : Sound) (s3 : State) : Option PlayingSound × State :=
  if s3.settings.outputs.isEmpty && !s3.settings.useAsDefaultDevice then
    Audio.play o sound none s3
  else
    let r1 := Audio.play o sound none s3
    let playbackDevice : Option AudioDevice :=
      match r1.2.settings.outputs.head? with
      | some front => Audio.getAudioDevice front r1.2
      | none => none
    match playbackDevice with
    | some device =>
        if !device.isDefault then
          let r2 := Audio.play o sound (some device) r1.2
          match r1.1, r2.1 with
          | some playingSound, some remotePlayingSound =>
              (some playingSound, r2.2.insertGrouped playingSound.id remotePlayingSound.id)
          | _, _ =>
              let s5 := match r1.1 with
                | some playingSound => (stopSound Platform.windows o playingSound.id r2.2).2
                | none => r2.2
              let s6 := match r2.1 with
                | some remotePlayingSound =>
                    (stopSound Platform.windows o remotePlayingSound.id s5).2
                | none => s5
              (none, s6.onError ErrorCode.FailedToPlay)
        else (r1.1, r1.2)
    | none => (r1.1, r1.2)

/-- Whether the starts of the non-Linux `playSound` have defined behaviour: `outputs.front()`
(ui.cpp 326) is read with `outputs` not empty, and `*playingSound` (ui.cpp 348) is read with
the local start succeeded. -/
def startOtherDefined (o : Oracle) (sound : Sound) (s3 : State) : Bool :=
  if s3.settings.outputs.isEmpty && !s3.settings.useAsDefaultDevice then true
  else
    let r1 := Audio.play o sound none s3
    match r1.2.settings.outputs.head? with
    | none => false
    | some front =>
        match Audio.getAudioDevice front r1.2 with
        | some device => if !device.isDefault then true else r1.1.isSome
        | none => r1.1.isSome

/-- The non-Linux variant of `Window::playSound` (ui.cpp 296-354).  `defaultSync` is the default
argument of `stopSounds`, declared in `ui.hpp`, which is not part of the sources. -/
def playSoundOther (defaultSync : Bool) (o : Oracle) (id : Nat) (s : State) :
    Option PlayingSound × State :=
  match getSound id s with
  | none => (none, s.onError ErrorCode.SoundNotFound)
  | some sound => startOther o sound (preparePlay Platform.windows defaultSync o s)

/-- The method `Window::playSound` of the variant that is built. -/
def playSound (p : Platform) (defaultSync : Bool) (o : Oracle) (id : Nat) (s : State) :
    Option PlayingSound × State :=
  match p with
  | Platform.linux => playSoundLinux o id s
  | Platform.windows => playSoundOther defaultSync o id s

/-- Whether the call `playSound(id)` has defined behaviour in the source: always on Linux, and
on the other variant when the starts stay clear of the two places named at `startOther`. -/
def playSoundDefined (p : Platform) (defaultSync : Bool) (o : Oracle) (id : Nat) (s : State) :
    Bool :=
  match p with
  | Platform.linux => true
  | Platform.windows =>
      match getSound id s with
      | none => true
      | some sound => startOtherDefined o sound (preparePlay Platform.windows defaultSync o s)

/-- The method `Window::pauseSound` (ui.cpp 356-388). -/
def pauseSound (id : Nat) (s : State) : Option PlayingSound × State :=
  let remoteSoundId : Option Nat :=
    if dualOutput s.settings then findRemote id s.groupedSounds else none
  let r := Audio.pause id s
  let s2 := match remoteSoundId with
    | some remote => (Audio.pause remote r.2).2
    | none => r.2
  match r.1 with
  | some playingSound => (some playingSound, s2)
  | none => (none, s2.onError ErrorCode.FailedToPause)

/-- The method `Window::resumeSound` (ui.cpp 389-421). -/
def resumeSound (id : Nat) (s : State) : Option PlayingSound × State :=
  let remoteSoundId : Option Nat :=
    if dualOutput s.settings then findRemote id s.groupedSounds else none
  let r := Audio.resume id s
  let s2 := match remoteSoundId with
    | some remote => (Audio.resume remote r.2).2
    | none => r.2
  match r.1 with
  | some playingSound => (some playingSound, s2)
  | none => (none, s2.onError ErrorCode.FailedToResume)

/-- The method `Window::seekSound` (ui.cpp 422-454). -/
def seekSound (id : Nat) (seekTo : Nat) (s : State) : Option PlayingSound × State :=
  let remoteSoundId : Option Nat :=
    if dualOutput s.settings then findRemote id s.groupedSounds else none
  let r := Audio.seek id seekTo s
  let s2 := match remoteSoundId with
    | some remote => (Audio.seek remote seekTo r.2).2
    | none => r.2
  match r.1 with
  | some playingSound => (some playingSound, s2)
  | none => (none, s2.onError ErrorCode.FailedToSeek)

/-- The method `Window::repeatSound` (ui.cpp 455-488). -/
def repeatSound (id : Nat) (shouldRepeat : Bool) (s : State) : Option PlayingSound × State :=
  let remoteSoundId : Option Nat :=
    if dualOutput s.settings then findRemote id s.groupedSounds else none
  let r := Audio.setRepeat id shouldRepeat s
  let s2 := match remoteSoundId with
    | some remote => (Audio.setRepeat remote shouldRepeat r.2).2
    | none => r.2
  match r.1 with
  | some playingSound => (some playingSound, s2)
  | none => (none, s2.onError ErrorCode.FailedToRepeat)

/-- The quotient `n / d` rounded to the nearest integer, a tie going to the even one. -/
def roundHalfEven (n d : Nat) : Nat :=
  let q := n / d
  let r := n % d
  if 2 * r < d then q else if d < 2 * r then q + 1 else if q % 2 = 0 then q else q + 1

/-- The loop behind `log2`: the number of halvings that bring `n` below 2. -/
def log2Loop : Nat → Nat → Nat
  | 0, _ => 0
  | fuel + 1, n => if n < 2 then 0 else log2Loop fuel (n / 2) + 1

/-- The exponent of the highest power of two that is at most `n`, for `n ≥ 1`. -/
def log2 (n : Nat) : Nat :=
  log2Loop n n

/-- The conversion `static_cast<float>(n)` of a natural number: a number below `2 ^ 24` is kept,
a larger one is rounded to 24 significant bits, a tie going to the even significand
(IEEE 754 binary32, round to nearest). -/
def floatOfNat (n : Nat) : Nat :=
  if n < 2 ^ 24 then n
  else
    let down := log2 n - 23
    roundHalfEven n (2 ^ down) * 2 ^ down

/-- The division `num / den` of two `float`s whose values are natural numbers, `den` not zero:
the quotient rounded to 24 significant bits, a tie going to the even significand (IEEE 754
binary32, round to nearest; the quotients of `ui.cpp` are zero or in the normal range).  `e`
is the exponent of the quotient: `2 ^ e ≤ num / den < 2 ^ (e + 1)`. -/
def floatDiv (num den : Nat) : ℚ :=
  if num = 0 then 0
  else
    let e : Int :=
      if num * 2 ^ log2 den < den * 2 ^ log2 num then (log2 num : Int) - (log2 den : Int) - 1
      else (log2 num : Int) - (log2 den : Int)
    let up := (23 - e).toNat
    let down := (e - 23).toNat
    mkRat (roundHalfEven (num * 2 ^ up) (den * 2 ^ down) * 2 ^ down) (2 ^ up)

/-- The expression `static_cast<float>(v) / 100.f` (ui.cpp 600, 624 and 658), for the values
of an `int`. -/
def volumeFactor (v : Int) : ℚ :=
  if v < 0 then - floatDiv (floatOfNat v.natAbs) 100 else floatDiv (floatOfNat v.natAbs) 100

/-- The write through the reference returned by `Globals::gData.getSound(id)`: the first sound
of the catalog with this id is replaced. -/
def modifySound (id : Nat) (f : Sound → Sound) : List Sound → List Sound
  | [] => []
  | x :: rest => if x.id == id then f x :: rest else x :: modifySound id f rest

/-- The method `Window::setCustomRemoteVolume` (ui.cpp 612-635). -/
def setCustomRemoteVolume (id : Nat) (remoteVolume : Option Int) (s : State) :
    Option Sound × State :=
  match getSound id s with
  | some sound =>
      let sound1 := { sound with remoteVolume := remoteVolume }
      let s1 := { s with sounds := modifySound id (fun x => { x with remoteVolume := remoteVolume })
                                     s.sounds }
      (some sound1,
       { s1 with playing := s1.playing.map (fun playingSound =>
           if playingSound.sound.id == sound1.id && !playingSound.playbackDevice.isDefault then
             { playingSound with
               masterVolumeFactor := volumeFactor (remoteVolume.getD s1.settings.remoteVolume) }
           else playingSound) })
  | none => (none, s.onError ErrorCode.FailedToSetCustomVolume)

/-- The volume that `changeSettings` applies again to a playing instance (ui.cpp 646-656). -/
def newVolume (st : Settings) (playingSound : PlayingSound) : Int :=
  if playingSound.playbackDevice.isDefault then
    playingSound.sound.localVolume.getD st.localVolume
  else playingSound.sound.remoteVolume.getD st.remoteVolume

/-- The loop of `changeSettings` over the outputs (ui.cpp 729-738). -/
def redirectOutputs (o : Oracle) (outputs : List String) (rest : List String) (s : State) :
    State :=
  match rest with
  | [] => s
  | outputApp :: more =>
      let s1 := if !outputs.isEmpty && !s.playing.isEmpty then
                  s.guarded o (Call.inputSoundTo outputApp) ErrorCode.FailedToMoveToSink
                else s
      redirectOutputs o outputs more s1

/-- The volumes applied again by `changeSettings` (ui.cpp 641-660). -/
def applyVolumes (oldSettings settings : Settings) (s : State) : State :=
  if (settings.localVolume ≠ oldSettings.localVolume ∨
      settings.remoteVolume ≠ oldSettings.remoteVolume) ∧ ¬ s.playing.isEmpty then
    { s with playing := s.playing.map (fun playingSound =>
        { playingSound with
          masterVolumeFactor := volumeFactor (newVolume s.settings playingSound) }) }
  else s

/-- The swap of the backend by `changeSettings` (ui.cpp 663-674).  A backend that has just been
constructed passes no stream through. -/
def swapBackend (o : Oracle) (oldSettings settings : Settings) (s : State) : State :=
  if settings.audioBackend ≠ oldSettings.audioBackend then
    let a := stopSounds Platform.linux o true s
    let b := if a.backend then { a with calls := a.calls ++ [Call.destroy] } else a
    let c := b.invoke o (Call.createInstance settings.audioBackend)
    let d := { c.2 with backend := c.1, passedThrough := [] }
    { d with calls := d.calls ++ [Call.setup] }
  else s

/-- The mute reconciled by the Linux `changeSettings` (ui.cpp 677-693). -/
def reconcileMute (o : Oracle) (oldSettings settings : Settings) (s : State) : State :=
  if !s.playing.isEmpty then
    if settings.muteDuringPlayback && !oldSettings.muteDuringPlayback then
      s.guarded o (Call.muteInput true) ErrorCode.FailedToMute
    else if !settings.muteDuringPlayback && oldSettings.muteDuringPlayback then
      s.guarded o (Call.muteInput false) ErrorCode.FailedToMute
    else s
  else s

/-- The default device reconciled by the Linux `changeSettings` (ui.cpp 694-712). -/
def reconcileDefault (o : Oracle) (oldSettings settings : Settings) (s : State) : State :=
  if !settings.useAsDefaultDevice && oldSettings.useAsDefaultDevice then
    s.guarded o Call.revertDefault ErrorCode.FailedToRevertDefaultSource
  else if settings.useAsDefaultDevice && !oldSettings.useAsDefaultDevice then
    let a := { s with settings := { s.settings with outputs := [] } }
    let b := a.guarded o Call.stopSoundInput ErrorCode.FailedToMoveBack
    b.guarded o Call.useAsDefault ErrorCode.FailedToSetDefaultSource
  else s

/-- The outputs reconciled by the Linux `changeSettings` (ui.cpp 713-739).  The parameter
`settings` of `changeSettings` is a local copy: line 721 shortens the outputs of that copy, here
the list `outputs`, and not those of `Globals::gSettings`. -/
def reconcileOutputs (o : Oracle) (oldSettings settings : Settings) (s : State) : State :=
  if settings.outputs ≠ oldSettings.outputs then
    let outputs : List String :=
      if !settings.allowMultipleOutputs && decide (settings.outputs.length > 1) then
        settings.outputs.take 1
      else settings.outputs
    let a := s.guarded o Call.stopSoundInput ErrorCode.FailedToMoveBack
    redirectOutputs o outputs outputs a
  else s

/-- The mute reconciled by the Windows `changeSettings` (ui.cpp 742-767). -/
def reconcileMic (o : Oracle) (oldSettings settings : Settings) (s : State) : State :=
  if s.winMic then
    if !s.playing.isEmpty then
      if settings.muteDuringPlayback && !oldSettings.muteDuringPlayback then
        s.guarded o (Call.micMute true) ErrorCode.FailedToMute
      else if !settings.muteDuringPlayback && oldSettings.muteDuringPlayback then
        s.guarded o (Call.micMute false) ErrorCode.FailedToMute
      else s
    else s
  else s

/-- The method `Window::changeSettings` (ui.cpp 636-770).  It returns `Globals::gSettings`
(line 769). -/
def changeSettings (p : Platform) (o : Oracle) (settings : Settings) (s : State) :
    Settings × State :=
  let oldSettings := s.settings
  let s1 := applyVolumes oldSettings settings { s with settings := settings }
  match p with
  | Platform.linux =>
      let s2 := swapBackend o oldSettings settings s1
      if s2.backend then
        let s3 := reconcileMute o oldSettings settings s2
        let s4 := reconcileDefault o oldSettings settings s3
        let s5 := reconcileOutputs o oldSettings settings s4
        (s5.settings, s5)
      else (s2.settings, s2)
  | Platform.windows =>
      let s2 := reconcileMic o oldSettings settings s1
      (s2.settings, s2)

/-- The test `stream->application.find("soundux") != std::string::npos` of `getOutputs` and
`getPlayback`: the application label contains the word. -/
def isOwnStream (application : String) : Bool :=
  decide ("soundux".toList <:+: application.toList)

/-- The icon of a stream (ui.cpp 859-878 and 908-926): `icons` is the lookup
`Globals::gIcons->getIcon`, absent when `Globals::gIcons` is null; only a stream with a process
id is looked up. -/
def iconOf (icons : Option (Nat → Option String)) (stream : StreamApp) : Option String :=
  match icons, stream.pid with
  | some getIcon, some pid => getIcon pid
  | _, _ => none

/-- The loop of `getOutputs` (ui.cpp 847-882) and of `getPlayback` (ui.cpp 895-930) over the
streams of the backend, none of them null: a stream of the engine itself is skipped, and so is
a stream whose name is already in `uniqueStreams`. -/
def collectStreams (icons : Option (Nat → Option String)) (streams : List StreamApp)
    (uniqueStreams : List IconApp) : List IconApp :=
  match streams with
  | [] => uniqueStreams
  | stream :: rest =>
      if isOwnStream stream.application then collectStreams icons rest uniqueStreams
      else if (uniqueStreams.find? (fun x => stream.name == x.name)).isNone then
        collectStreams icons rest
          (uniqueStreams ++
            [{ name := stream.name, application := stream.application,
               appIcon := iconOf icons stream }])
      else collectStreams icons rest uniqueStreams

/-- The Linux method `Window::getOutputs` (ui.cpp 836-886); `streams` is the answer of
`Globals::gAudioBackend->getRecordingApps()`. -/
def getOutputs (icons : Option (Nat → Option String)) (streams : List StreamApp) (s : State) :
    List IconApp :=
  if s.backend then collectStreams icons streams [] else []

/-- The Linux method `Window::getPlayback` (ui.cpp 887-934); `streams` is the answer of
`Globals::gAudioBackend->getPlaybackApps()`. -/
def getPlayback (icons : Option (Nat → Option String)) (streams : List StreamApp) (s : State) :
    List IconApp :=
  if s.backend then collectStreams icons streams [] else []

/-- The loop of `startPassthrough` over `Globals::gSettings.outputs` (ui.cpp 940-947): every
output application is redirected, a failed redirection is signalled and clears `success`. -/
def passthroughMoves (o : Oracle) (outputs : List String) (success : Bool) (s : State) :
    Bool × State :=
  match outputs with
  | [] => (success, s)
  | outputApp :: rest =>
      let r := s.invoke o (Call.inputSoundTo outputApp)
      if r.1 then passthroughMoves o rest success r.2
      else passthroughMoves o rest false (r.2.onError ErrorCode.FailedToMoveToSink)

/-- The Linux method `Window::startPassthrough` (ui.cpp 935-964). -/
def startPassthrough (o : Oracle) (name : String) (s : State) : Bool × State :=
  if s.backend && !s.settings.outputs.isEmpty then
    let m := passthroughMoves o s.settings.outputs true s
    let r := if m.1 then m.2.invoke o (Call.passthroughFrom name) else (false, m.2)
    if !r.1 then (false, r.2.onError ErrorCode.FailedToStartPassthrough) else (true, r.2)
  else (true, s)

/-- The Linux method `Window::stopPassthrough` (ui.cpp 965-983). -/
def stopPassthrough (o : Oracle) (name : String) (s : State) : State :=
  if s.backend then
    let s1 := if s.playing.isEmpty && s.passedThrough.length == 1 then
                s.guarded o Call.stopSoundInput ErrorCode.FailedToMoveBack
              else s
    s1.guarded o (Call.stopPassthrough name) ErrorCode.FailedToMoveBackPassthrough
  else s

/-- The method `Window::onSoundFinished` (ui.cpp 990-1003). -/
def onSoundFinished (p : Platform) (o : Oracle) (sound : PlayingSound) (s : State) : State :=
  let s1 := if (findRemote sound.id s.groupedSounds).isSome then s.eraseGrouped sound.id
            else s
  if s1.playing.length == 1 then onAllSoundsFinished p o s1 else s1

/-- The loop of `toggleSoundPlayback` over the copy of the registry (ui.cpp 1083-1093). -/
def toggleLoop (shouldPause : Bool) (soundsCopy : List (Sigma fun _ : Nat => Nat)) (s : State) :
    State :=
  match soundsCopy with
  | [] => s
  | entry :: rest =>
      toggleLoop shouldPause rest
        (if shouldPause then (pauseSound entry.1 s).2 else (resumeSound entry.1 s).2)

/-- The method `Window::toggleSoundPlayback` (ui.cpp 1070-1096). -/
def toggleSoundPlayback (s : State) : Bool × State :=
  let shouldPause := !s.playing.any (fun sound => sound.paused)
  (shouldPause, toggleLoop shouldPause s.groupedSounds.entries s)

end Window

/-! ## The playback driver (`src/playback/impl.cpp`) -/

namespace Playback

/-- An entry of `internal::currentlyPlayingDevices`: the id, and the file and the device for
which the decoder and the device of the entry were opened. -/
structure PlayingDevice where
  id : Nat
  file : String
  device : String
  finished : Bool
  deriving DecidableEq, Repr

/-- The state of the driver: the static `counter` of `playAudio`, the volumes
`internal::usedDevices` and the list `internal::currentlyPlayingDevices`. -/
structure Driver where
  counter : Nat
  usedDevices : List (String × ℚ)
  currentlyPlayingDevices : List PlayingDevice
  deriving DecidableEq

/-- What miniaudio answers to the three fallible steps of `playAudio`. -/
inductive Outcome
  | decoderFailed | deviceInitFailed | deviceStartFailed | started
  deriving DecidableEq, Repr

/-- The function `Playback::playAudio` (impl.cpp 46-87).  The counter is a `std::uint64_t`,
incremented modulo `2 ^ 64`.  A failed call returns `-1` in the source, here `none`. -/
def playAudio (outcome : Outcome) (file : String) (deviceName : String) (s : Driver) :
    Option Nat × Driver :=
  let s1 := if (s.usedDevices.find? (fun e => e.1 == deviceName)).isNone then
              { s with usedDevices := s.usedDevices ++ [(deviceName, 1)] }
            else s
  match outcome with
  | Outcome.started =>
      let counter := (s1.counter + 1) % 2 ^ 64
      (some counter,
       { s1 with counter := counter,
                 currentlyPlayingDevices := s1.currentlyPlayingDevices ++
                   [{ id := counter, file := file, device := deviceName, finished := false }] })
  | _ => (none, s1)

/-- The loop of `Playback::stop` (impl.cpp 90-106) from the index where it stands: the first
entry with the id is erased and the loop ends. -/
def stopLoop (deviceId : Nat) : List PlayingDevice → List PlayingDevice
  | [] => []
  | device :: rest => if device.id == deviceId then rest else device :: stopLoop deviceId rest

/-- The function `Playback::stop` (impl.cpp 88-107). -/
def stop (deviceId : Nat) (s : Driver) : Driver :=
  { s with currentlyPlayingDevices := stopLoop deviceId s.currentlyPlayingDevices }

/-- The function `Playback::stopAllAudio` (impl.cpp 108-120). -/
def stopAllAudio (s : Driver) : Driver :=
  { s with currentlyPlayingDevices := [] }

/-- A call on the driver. -/
inductive DriverOp
  | playAudio (outcome : Outcome) (file : String) (deviceName : String)
  | stop (deviceId : Nat)
  | stopAllAudio
  deriving DecidableEq, Repr

/-- The driver after a sequence of calls together with the ids that the successful `playAudio`
calls returned, the first call of the list first. -/
def runDriver : List DriverOp → Driver → List Nat × Driver
  | [], s => ([], s)
  | DriverOp.playAudio outcome file deviceName :: rest, s =>
      let r := playAudio outcome file deviceName s
      let t := runDriver rest r.2
      (r.1.toList ++ t.1, t.2)
  | DriverOp.stop deviceId :: rest, s => runDriver rest (stop deviceId s)
  | DriverOp.stopAllAudio :: rest, s => runDriver rest (stopAllAudio s)

/-- The driver when the program starts. -/
def initial : Driver :=
  { counter := 0, usedDevices := [], currentlyPlayingDevices := [] }

end Playback

/-! ## Sequences of calls -/

/-- The invariant kept while `outputs` is non-empty and `useAsDefaultDevice` is off: every key
of the registry is the id of a playing instance, keys and values are ids already given out, and
no value is a key. -/
def Inv (s : State) : Prop :=
  Window.dualOutput s.settings = true ∧
  (∀ k ∈ s.groupedSounds, k ∈ s.playing.map PlayingSound.id ∧ k ≤ s.counter) ∧
  (∀ k v, s.groupedSounds.lookup k = some v → v ≤ s.counter ∧ v ∉ s.groupedSounds)

/-- The instance `q` after the pairs of `l` have been paused (`b = true`) or resumed
(`b = false`): the flag is set when the id of `q` is the local or the remote id of a pair. -/
def markPaused (b : Bool) (l : List (Sigma fun _ : Nat => Nat)) (q : PlayingSound) :
    PlayingSound :=
  if l.any (fun e => q.id == e.1 || q.id == e.2) then { q with paused := b } else q

/-- The record of calls of `t` continues the record of calls of `s`. -/
def Grows (s t : State) : Prop :=
  ∃ post, t.calls = s.calls ++ post

/-- The answers of the backend to the redirections of the output applications `outputs`, the
first of them asked when `time` calls have been made. -/
def moveAnswers (o : Oracle) (outputs : List String) (time : Nat) : List Bool :=
  match outputs with
  | [] => []
  | outputApp :: rest => o (Call.inputSoundTo outputApp) time :: moveAnswers o rest (time + 1)

/-- The state of `stopSounds(sync)` when it reaches line 572: the stop of the engine has been
made or queued (ui.cpp 562-569) and the all-finished sequence has run (line 571). -/
def afterAllFinished (p : Platform) (o : Oracle) (sync : Bool) (s : State) : State :=
  Window.onAllSoundsFinished p o
    (if sync then Audio.stopAll s
     else { s with calls := s.calls ++ [Call.queueStopAll], pendingStopAll := true })

/-- The entry that `getOutputs` and `getPlayback` make of a stream. -/
def toIconApp (icons : Option (Nat → Option String)) (stream : StreamApp) : IconApp :=
  { name := stream.name, application := stream.application, appIcon := Window.iconOf icons stream }

/-- The streams of which the loop of `getOutputs` and `getPlayback` makes an entry, when the
names `seen` are already taken. -/
def keptStreams : List StreamApp → List String → List StreamApp
  | [], _ => []
  | stream :: rest, seen =>
      if Window.isOwnStream stream.application then keptStreams rest seen
      else if stream.name ∈ seen then keptStreams rest seen
      else stream :: keptStreams rest (seen ++ [stream.name])

/-- The entries of the driver carry pairwise distinct ids, none above the counter. -/
def Playback.Driver.WF (s : Playback.Driver) : Prop :=
  (∀ e ∈ s.currentlyPlayingDevices, e.id ≤ s.counter) ∧
  (s.currentlyPlayingDevices.map (fun e => e.id)).Nodup

/-- The calls and the error codes that `t` has beyond those of `s`, every call allowed by `P`
and every error code allowed by `Q`. -/
def Adds (P : Call → Prop) (Q : ErrorCode → Prop) (s t : State) : Prop :=
  ∃ pc pe, t.calls = s.calls ++ pc ∧ t.errors = s.errors ++ pe ∧
    (∀ c ∈ pc, P c) ∧ (∀ e ∈ pe, Q e)

/-- The predicates `P` and `Q` allow the calls and the error codes of the clean-up after the
last sound and of the routing of the capture input. -/
def Routine (P : Call → Prop) (Q : ErrorCode → Prop) : Prop :=
  (∀ k, P (Call.releaseKeys k)) ∧ (∀ b, P (Call.muteInput b)) ∧ (∀ b, P (Call.micMute b)) ∧
  P Call.stopSoundInput ∧ P Call.stopAllPassthrough ∧ (∀ a, P (Call.inputSoundTo a)) ∧
  Q ErrorCode.FailedToMute ∧ Q ErrorCode.FailedToMoveBack ∧
  Q ErrorCode.FailedToMoveBackPassthrough ∧ Q ErrorCode.FailedToMoveToSink

/-- The call is neither `useAsDefault()` nor `revertDefault()`. -/
def NoDefaultCall (c : Call) : Prop :=
  c ≠ Call.useAsDefault ∧ c ≠ Call.revertDefault

/-- The error code is neither `FailedToSetDefaultSource` nor `FailedToRevertDefaultSource`. -/
def NoDefaultError (e : ErrorCode) : Prop :=
  e ≠ ErrorCode.FailedToSetDefaultSource ∧ e ≠ ErrorCode.FailedToRevertDefaultSource

/-- The call is none of `stopAll`, `destroy`, `createInstance` and `setup`. -/
def NoSwapCall (c : Call) : Prop :=
  c ≠ Call.stopAll ∧ c ≠ Call.destroy ∧ c ≠ Call.setup ∧ ∀ n, c ≠ Call.createInstance n

/-- The state in which the Linux `changeSettings` reaches the test of the backend
(ui.cpp 675): the new settings are in force, the volumes are applied and the backend is
swapped if the selector changed. -/
def afterSwap (o : Oracle) (settings : Settings) (s : State) : State :=
  Window.swapBackend o s.settings settings
    (Window.applyVolumes s.settings settings { s with settings := settings })

/-- Two runs that differ at most in the mute of the capture source and in the error codes
emitted: the errors of `x` are `E1` followed by some codes, and `y` is `x` but for the flag
`muted` and for its errors, which are `E2` followed by the same codes. -/
def Sim (E1 E2 : List ErrorCode) (x y : State) : Prop :=
  ∃ suf m, x.errors = E1 ++ suf ∧ y = { x with muted := m, errors := E2 ++ suf }

/-- The number of calls made when the Linux `playSound` reaches the mute of the capture source
(ui.cpp 233): those made before, and those of `stopSounds(true)` when overlapping is not
allowed. -/
def muteTime (o : Oracle) (s : State) : Nat :=
  (if !s.settings.allowOverlapping then Window.stopSounds Platform.linux o true s
   else s).calls.length

/-- The error code that the mute step of the Linux `playSound(id)` emits: `FailedToMute` when
the sound exists, a backend is present and `muteInput(true)` fails, nothing otherwise.  The
setting `muteDuringPlayback` is taken to be on. -/
def muteError (o oAt : Oracle) (id : Nat) (s : State) : List ErrorCode :=
  if (getSound id s).isSome && s.backend && !o (Call.muteInput true) (muteTime oAt s) then
    [ErrorCode.FailedToMute]
  else []

/-- An oracle under which only `muteInput(true)` fails. -/
def muteFails : Oracle := fun c _ => decide (c ≠ Call.muteInput true)

/-! ## The content of a tab (`Window::getTabContent`) -/

/-- The values of `Enums::SortMode` that `getTabContent` distinguishes (ui.cpp 116-133).  The
declaration of the enumeration is not part of the sources. -/
inductive SortMode
  | ModifiedDate_Descending | ModifiedDate_Ascending | Alphabetical_Descending
  | Alphabetical_Ascending
  deriving DecidableEq, Repr

/-- The fields of `Objects::Tab` that `ui.cpp` reads.  The declaration of the structure is
not part of the sources. -/
structure Tab where
  id : Nat
  path : String
  sounds : List Sound
  sortMode : SortMode
  deriving DecidableEq, Repr

/-- The answer of `std::filesystem` about the directory of a tab: `exists(path)` is false;
or the path exists and `directory_iterator(path)` throws; or the iterator runs through the
entries listed. -/
inductive DirAnswer
  | absent
  | failure
  | listing (entries : List String)
  deriving DecidableEq, Repr

/-- The answers of `std::filesystem` to the calls of `getTabContent`.  `canonical path file`
is `canonical(path / file)`, absent when the call throws (a link whose target does not exist);
`lastWriteTime file` is absent when the error code is set. -/
structure FileSystem where
  entries : String → DirAnswer
  isSymlink : String → Bool
  readSymlink : String → String
  hasRelativePath : String → Bool
  canonical : String → String → Option String
  extension : String → String
  stem : String → String
  lastWriteTime : String → Option Nat

namespace Window

/-- The file behind a directory entry (ui.cpp 58-67): the entry itself, or the target of a
symbolic link; absent when `canonical` throws. -/
def resolveEntry (fs : FileSystem) (path entry : String) : Option String :=
  if fs.isSymlink entry then
    let file := fs.readSymlink entry
    if fs.hasRelativePath file then fs.canonical path file else some file
  else some entry

/-- The extension of the file, each character through `std::tolower` (ui.cpp 69-71). -/
def lowerExtension (fs : FileSystem) (file : String) : String :=
  String.mk ((fs.extension file).toList.map Char.toLower)

/-- The path stored in the sound (ui.cpp 89-93): on Windows every backslash (character 92)
becomes a slash (character 47). -/
def soundPath (p : Platform) (file : String) : String :=
  match p with
  | Platform.linux => file
  | Platform.windows =>
      String.mk (file.toList.map (fun c => if c = Char.ofNat 92 then Char.ofNat 47 else c))

/-- The sound as it stands before the lookup of `oldSound` (ui.cpp 77-94).  `blank` is the
value of the declaration `Sound sound;`; the structure `Sound` is declared outside the
sources. -/
def describe (p : Platform) (fs : FileSystem) (blank : Sound) (file : String) : Sound :=
  let sound := match fs.lastWriteTime file with
    | some writeTime => { blank with modifiedDate := writeTime }
    | none => blank
  { sound with path := soundPath p file, name := fs.stem file }

/-- One round of the loop of `getTabContent` from line 69 on (ui.cpp 69-111), for the file
behind the entry, on the pair of `rtn` and `Globals::gData.soundIdCounter`.  The counter is an
unsigned integer of `bits` bits; its declaration is not part of the sources. -/
def scanEntry (p : Platform) (fs : FileSystem) (blank : Sound) (bits : Nat) (tab : Tab)
    (file : String) (acc : List Sound × Nat) : List Sound × Nat :=
  let extension := lowerExtension fs file
  if extension != ".mp3" && extension != ".wav" && extension != ".flac" then acc
  else
    let sound := describe p fs blank file
    match tab.sounds.find? (fun item => item.path == sound.path) with
    | some oldSound =>
        (acc.1 ++ [{ sound with id := oldSound.id, hotkeys := oldSound.hotkeys,
                                isFavorite := oldSound.isFavorite,
                                localVolume := oldSound.localVolume,
                                remoteVolume := oldSound.remoteVolume }], acc.2)
    | none =>
        let counter := (acc.2 + 1) % 2 ^ bits
        (acc.1 ++ [{ sound with id := counter }], counter)

/-- The loop of `getTabContent` over the entries of the directory (ui.cpp 56-111).  When
`canonical` throws, the loop is left without a result; the counter keeps the value it has
reached. -/
def scanEntries (p : Platform) (fs : FileSystem) (blank : Sound) (bits : Nat) (tab : Tab) :
    List String → List Sound × Nat → Option (List Sound) × Nat
  | [], acc => (some acc.1, acc.2)
  | entry :: rest, acc =>
      match resolveEntry fs tab.path entry with
      | none => (none, acc.2)
      | some file => scanEntries p fs blank bits tab rest (scanEntry p fs blank bits tab file acc)

/-- The comparison `first < second` of two `std::string`s: the first position at which they
differ decides, and a proper beginning of a string is smaller than the string. -/
def stringLess : List Char → List Char → Bool
  | _, [] => false
  | [], _ :: _ => true
  | a :: first, b :: second =>
      if a.toNat < b.toNat then true
      else if b.toNat < a.toNat then false
      else stringLess first second

/-- The comparison handed to `std::sort` for each sort mode (ui.cpp 116-133). -/
def comesFirst (mode : SortMode) (first second : Sound) : Bool :=
  match mode with
  | SortMode.ModifiedDate_Descending => decide (first.modifiedDate > second.modifiedDate)
  | SortMode.ModifiedDate_Ascending => decide (first.modifiedDate < second.modifiedDate)
  | SortMode.Alphabetical_Descending => stringLess second.name.toList first.name.toList
  | SortMode.Alphabetical_Ascending => stringLess first.name.toList second.name.toList

/-- The call `std::sort(rtn.begin(), rtn.end(), comp)`.  The standard leaves the order of
equivalent elements open; here they keep their order. -/
def stdSort (comp : Sound → Sound → Bool) (rtn : List Sound) : List Sound :=
  List.insertionSort (fun a b => comp b a = false) rtn

/-- The method `Window::getTabContent` (ui.cpp 47-144), with the value of
`Globals::gData.soundIdCounter` afterwards.  The result is absent when the method is left by
an exception of `std::filesystem`. -/
def getTabContent (p : Platform) (fs : FileSystem) (blank : Sound) (bits : Nat) (tab : Tab)
    (soundIdCounter : Nat) : Option (List Sound) × Nat :=
  match fs.entries tab.path with
  | DirAnswer.listing entries =>
      let r := scanEntries p fs blank bits tab entries ([], soundIdCounter)
      (r.1.map (stdSort (comesFirst tab.sortMode)), r.2)
  | DirAnswer.failure => (none, soundIdCounter)
  | DirAnswer.absent => (some [], soundIdCounter)

end Window

/-- What the rounds of the loop of `getTabContent` keep true of `rtn` and the counter, `c`
being the counter at the start: a sound whose path is that of a sound of the tab carries the
identity of the first such sound, and a sound with another path has an id above `c`, at most
the counter, that no other sound of `rtn` has. -/
def Scanned (tab : Tab) (c : Nat) (acc : List Sound × Nat) : Prop :=
  c ≤ acc.2 ∧ ∀ y ∈ acc.1,
    (∀ old, tab.sounds.find? (fun item => item.path == y.path) = some old →
      y.id = old.id ∧ y.hotkeys = old.hotkeys ∧ y.isFavorite = old.isFavorite ∧
      y.localVolume = old.localVolume ∧ y.remoteVolume = old.remoteVolume) ∧
    (tab.sounds.find? (fun item => item.path == y.path) = none →
      c < y.id ∧ y.id ≤ acc.2 ∧ acc.1.countP (fun z => z.id == y.id) = 1)

/-- A directory `clips` with the files `b.mp3`, `notes.txt` and `A.WAV` and the link `l.mp3`
to `b.mp3`. -/
def sampleFiles : FileSystem :=
  { entries := fun path =>
      if path = "clips" then
        DirAnswer.listing ["clips/b.mp3", "clips/notes.txt", "clips/A.WAV", "clips/l.mp3"]
      else DirAnswer.absent,
    isSymlink := fun entry => entry == "clips/l.mp3",
    readSymlink := fun _ => "b.mp3",
    hasRelativePath := fun _ => true,
    canonical := fun path file => some (path ++ "/" ++ file),
    extension := fun file =>
      if file = "clips/notes.txt" then ".txt" else if file = "clips/A.WAV" then ".WAV"
      else ".mp3",
    stem := fun file =>
      if file = "clips/notes.txt" then "notes" else if file = "clips/A.WAV" then "A" else "b",
    lastWriteTime := fun file => if file = "clips/A.WAV" then some 20 else some 10 }

/-- The tab of the directory `clips` before its first scan. -/
def sampleTab : Tab :=
  { id := 0, path := "clips", sounds := [], sortMode := SortMode.Alphabetical_Ascending }

/-- A sound as `Sound sound;` leaves it. -/
def blankSound : Sound :=
  { id := 0, name := "", path := "", modifiedDate := 0, hotkeys := [], isFavorite := false,
    localVolume := none, remoteVolume := none }

/-- The sound of `A.WAV` as a tab holds it: it has the id 2, a hotkey, the favourite flag and a
local volume. -/
def knownSound : Sound :=
  { blankSound with id := 2, name := "A", path := "clips/A.WAV", hotkeys := [7],
                    isFavorite := true, localVolume := some 30 }

/-- The tab of the directory `clips` that holds the sound of `A.WAV`. -/
def knownTab : Tab :=
  { id := 0, path := "clips", sounds := [knownSound],
    sortMode := SortMode.Alphabetical_Ascending }

/-- The list that the scan of `clips` returns for `knownTab` at the counter 2. -/
def knownScan : List Sound :=
  [{ knownSound with modifiedDate := 20 },
   { blankSound with id := 3, name := "b", path := "clips/b.mp3", modifiedDate := 10 },
   { blankSound with id := 4, name := "b", path := "clips/b.mp3", modifiedDate := 10 }]

/-! ## Concrete states, used to run the operations -/

/-- An oracle under which every fallible call succeeds. -/
def allOk : Oracle := fun _ _ => true

/-- An oracle under which every fallible call fails. -/
def allFail : Oracle := fun _ _ => false

/-- An oracle under which only the start on a named device fails. -/
def remoteFails : Oracle := fun c _ =>
  match c with
  | Call.play _ (some _) => false
  | _ => true

/-- An oracle under which only the redirections fail. -/
def moveFails : Oracle := fun c _ =>
  match c with
  | Call.inputSoundTo _ => false
  | _ => true

/-- A clip with the given id and no volume of its own. -/
def sampleSound (id : Nat) : Sound :=
  { id := id, name := "clip", path := "clip.mp3", modifiedDate := 0, hotkeys := [],
    isFavorite := false, localVolume := none, remoteVolume := none }

/-- Settings with overlapping allowed and no output application. -/
def sampleSettings : Settings :=
  { allowOverlapping := true, muteDuringPlayback := false, pushToTalkKeys := [], outputs := [],
    useAsDefaultDevice := false, allowMultipleOutputs := false, localVolume := 50,
    remoteVolume := 100, audioBackend := 0 }

/-- A state with two clips in the catalog, a backend, nothing playing and an empty registry. -/
def sampleState : State :=
  { sounds := [sampleSound 1, sampleSound 2], settings := sampleSettings, devices := [],
    defaultDevice := ⟨"default", true⟩, nullSink := ⟨"soundux_sink", false⟩, playing := [],
    counter := 0, pendingStopAll := false, groupedSounds := ∅, backend := true, winMic := false,
    muted := false, pressedKeys := [], passedThrough := [], errors := [], calls := [] }

/-- An instance of the clip `soundId` with the given id on the given device. -/
def sampleInstance (id soundId : Nat) (device : AudioDevice) : PlayingSound :=
  { id := id, sound := sampleSound soundId, playbackDevice := device, paused := false,
    shouldRepeat := false, masterVolumeFactor := 1 }

/-- The sample state with the clip 1 playing as the pair of the instances 1 (default device)
and 2 (null sink), registered as a group. -/
def pairedState : State :=
  { sampleState with
    playing := [sampleInstance 1 1 ⟨"default", true⟩, sampleInstance 2 1 ⟨"soundux_sink", false⟩],
    counter := 2,
    groupedSounds := AList.singleton 1 2 }

/-! ## Theorems -/

/-- C3: for an id that is the id of no sound of the catalog, both variants of `playSound`
return nothing and change the state only by signalling `SoundNotFound`: the registry, the
playing list, the mute state, the pressed keys and the record of calls are as before. -/
theorem playSound_sound_not_found (p : Platform) (defaultSync : Bool) (o : Oracle) (id : Nat)
    (s : State) (h : ∀ x ∈ s.sounds, x.id ≠ id) :
    Window.playSound p defaultSync o id s
      = (none, { s with errors := s.errors ++ [ErrorCode.SoundNotFound] }) := by
  have hg : getSound id s = none := by
    unfold getSound
    rw [List.find?_eq_none]
    intro x hx
    simpa using h x hx
  cases p <;>
    simp [Window.playSound, Window.playSoundLinux, Window.playSoundOther, hg, State.onError]

/-- C3, run on the sample state: the id 7 is not in the catalog. -/
theorem playSound_sound_not_found_witness :
    (∀ x ∈ sampleState.sounds, x.id ≠ 7) ∧
    Window.playSound Platform.linux true allFail 7 sampleState
      = (none, { sampleState with errors := sampleState.errors ++ [ErrorCode.SoundNotFound] }) :=
  ⟨by decide, playSound_sound_not_found Platform.linux true allFail 7 sampleState (by decide)⟩

/-- C9: with a backend present, the calls made by `stopPassthrough(name)` are `stopSoundInput`,
made exactly when nothing is playing and exactly one stream is passed through, followed in
every case by `stopPassthrough(name)` on the backend. -/
theorem stopPassthrough_calls (o : Oracle) (name : String) (s : State)
    (hb : s.backend = true) :
    (Window.stopPassthrough o name s).calls
      = s.calls
        ++ (if s.playing = [] ∧ s.passedThrough.length = 1 then [Call.stopSoundInput] else [])
        ++ [Call.stopPassthrough name] := by
  unfold Window.stopPassthrough
  by_cases h1 : s.playing = [] <;> by_cases h2 : s.passedThrough.length = 1 <;>
    simp [hb, h1, h2, State.guarded, State.invoke, State.onError] <;>
    split <;> simp [State.effect] <;> (try split) <;> simp

/-- C9, run on a state with one stream passed through and nothing playing. -/
theorem stopPassthrough_calls_witness :
    (Window.stopPassthrough allOk "app" { sampleState with passedThrough := ["app"] }).calls
      = [Call.stopSoundInput, Call.stopPassthrough "app"] :=
  stopPassthrough_calls allOk "app" { sampleState with passedThrough := ["app"] } rfl

/-- C5, at the failing input: multiple outputs are not allowed, the new settings name the
outputs A and B, a backend is present and one sound is playing.  Only A is redirected, yet the
settings returned and the settings in force keep both outputs. -/
theorem changeSettings_keeps_both_outputs :
    (Window.changeSettings Platform.linux allOk { sampleSettings with outputs := ["A", "B"] }
        { sampleState with playing := [sampleInstance 1 1 ⟨"default", true⟩] }).1.outputs
      = ["A", "B"] ∧
    (Window.changeSettings Platform.linux allOk { sampleSettings with outputs := ["A", "B"] }
        { sampleState with playing := [sampleInstance 1 1 ⟨"default", true⟩] }).2.settings.outputs
      = ["A", "B"] ∧
    (Window.changeSettings Platform.linux allOk { sampleSettings with outputs := ["A", "B"] }
        { sampleState with playing := [sampleInstance 1 1 ⟨"default", true⟩] }).2.calls
      = [Call.stopSoundInput, Call.inputSoundTo "A"] := by
  refine ⟨by decide, by decide, by decide⟩

@[simp]
theorem onError_sounds (e : ErrorCode) (s : State) : (s.onError e).sounds = s.sounds := rfl

@[simp]
theorem invoke_sounds (o : Oracle) (c : Call) (s : State) : (s.invoke o c).2.sounds = s.sounds := by
  simp only [State.invoke]
  cases o c s.calls.length <;> cases c <;> rfl

@[simp]
theorem guarded_sounds (o : Oracle) (c : Call) (e : ErrorCode) (s : State) :
    (s.guarded o c e).sounds = s.sounds := by
  simp only [State.guarded]
  cases (s.invoke o c).1 <;> simp

@[simp]
theorem insertGrouped_sounds (l r : Nat) (s : State) :
    (s.insertGrouped l r).sounds = s.sounds := rfl

@[simp]
theorem eraseGrouped_sounds (id : Nat) (s : State) :
    (s.eraseGrouped id).sounds = s.sounds := rfl

@[simp]
theorem clearGrouped_sounds (s : State) :
    (s.clearGrouped).sounds = s.sounds := rfl

@[simp]
theorem pressKeys_sounds (k : List Int) (s : State) : (s.pressKeys k).sounds = s.sounds := rfl

@[simp]
theorem releaseKeys_sounds (k : List Int) (s : State) : (s.releaseKeys k).sounds = s.sounds := rfl

@[simp]
theorem onAllSoundsFinished_sounds (p : Platform) (o : Oracle) (s : State) :
    (Window.onAllSoundsFinished p o s).sounds = s.sounds := by
  unfold Window.onAllSoundsFinished
  cases p <;> simp only <;> repeat (first | split | simp)

@[simp]
theorem onError_settings (e : ErrorCode) (s : State) : (s.onError e).settings = s.settings := rfl

@[simp]
theorem invoke_settings (o : Oracle) (c : Call) (s : State) : (s.invoke o c).2.settings = s.settings := by
  simp only [State.invoke]
  cases o c s.calls.length <;> cases c <;> rfl

@[simp]
theorem guarded_settings (o : Oracle) (c : Call) (e : ErrorCode) (s : State) :
    (s.guarded o c e).settings = s.settings := by
  simp only [State.guarded]
  cases (s.invoke o c).1 <;> simp

@[simp]
theorem insertGrouped_settings (l r : Nat) (s : State) :
    (s.insertGrouped l r).settings = s.settings := rfl

@[simp]
theorem eraseGrouped_settings (id : Nat) (s : State) :
    (s.eraseGrouped id).settings = s.settings := rfl

@[simp]
theorem clearGrouped_settings (s : State) :
    (s.clearGrouped).settings = s.settings := rfl

@[simp]
theorem pressKeys_settings (k : List Int) (s : State) : (s.pressKeys k).settings = s.settings := rfl

@[simp]
theorem releaseKeys_settings (k : List Int) (s : State) : (s.releaseKeys k).settings = s.settings := rfl

@[simp]
theorem onAllSoundsFinished_settings (p : Platform) (o : Oracle) (s : State) :
    (Window.onAllSoundsFinished p o s).settings = s.settings := by
  unfold Window.onAllSoundsFinished
  cases p <;> simp only <;> repeat (first | split | simp)

@[simp]
theorem onError_devices (e : ErrorCode) (s : State) : (s.onError e).devices = s.devices := rfl

@[simp]
theorem invoke_devices (o : Oracle) (c : Call) (s : State) : (s.invoke o c).2.devices = s.devices := by
  simp only [State.invoke]
  cases o c s.calls.length <;> cases c <;> rfl

@[simp]
theorem guarded_devices (o : Oracle) (c : Call) (e : ErrorCode) (s : State) :
    (s.guarded o c e).devices = s.devices := by
  simp only [State.guarded]
  cases (s.invoke o c).1 <;> simp

@[simp]
theorem insertGrouped_devices (l r : Nat) (s : State) :
    (s.insertGrouped l r).devices = s.devices := rfl

@[simp]
theorem eraseGrouped_devices (id : Nat) (s : State) :
    (s.eraseGrouped id).devices = s.devices := rfl

@[simp]
theorem clearGrouped_devices (s : State) :
    (s.clearGrouped).devices = s.devices := rfl

@[simp]
theorem pressKeys_devices (k : List Int) (s : State) : (s.pressKeys k).devices = s.devices := rfl

@[simp]
theorem releaseKeys_devices (k : List Int) (s : State) : (s.releaseKeys k).devices = s.devices := rfl

@[simp]
theorem onAllSoundsFinished_devices (p : Platform) (o : Oracle) (s : State) :
    (Window.onAllSoundsFinished p o s).devices = s.devices := by
  unfold Window.onAllSoundsFinished
  cases p <;> simp only <;> repeat (first | split | simp)

@[simp]
theorem onError_defaultDevice (e : ErrorCode) (s : State) : (s.onError e).defaultDevice = s.defaultDevice := rfl

@[simp]
theorem invoke_defaultDevice (o : Oracle) (c : Call) (s : State) : (s.invoke o c).2.defaultDevice = s.defaultDevice := by
  simp only [State.invoke]
  cases o c s.calls.length <;> cases c <;> rfl

@[simp]
theorem guarded_defaultDevice (o : Oracle) (c : Call) (e : ErrorCode) (s : State) :
    (s.guarded o c e).defaultDevice = s.defaultDevice := by
  simp only [State.guarded]
  cases (s.invoke o c).1 <;> simp

@[simp]
theorem insertGrouped_defaultDevice (l r : Nat) (s : State) :
    (s.insertGrouped l r).defaultDevice = s.defaultDevice := rfl

@[simp]
theorem eraseGrouped_defaultDevice (id : Nat) (s : State) :
    (s.eraseGrouped id).defaultDevice = s.defaultDevice := rfl

@[simp]
theorem clearGrouped_defaultDevice (s : State) :
    (s.clearGrouped).defaultDevice = s.defaultDevice := rfl

@[simp]
theorem pressKeys_defaultDevice (k : List Int) (s : State) : (s.pressKeys k).defaultDevice = s.defaultDevice := rfl

@[simp]
theorem releaseKeys_defaultDevice (k : List Int) (s : State) : (s.releaseKeys k).defaultDevice = s.defaultDevice := rfl

@[simp]
theorem onAllSoundsFinished_defaultDevice (p : Platform) (o : Oracle) (s : State) :
    (Window.onAllSoundsFinished p o s).defaultDevice = s.defaultDevice := by
  unfold Window.onAllSoundsFinished
  cases p <;> simp only <;> repeat (first | split | simp)

@[simp]
theorem onError_nullSink (e : ErrorCode) (s : State) : (s.onError e).nullSink = s.nullSink := rfl

@[simp]
theorem invoke_nullSink (o : Oracle) (c : Call) (s : State) : (s.invoke o c).2.nullSink = s.nullSink := by
  simp only [State.invoke]
  cases o c s.calls.length <;> cases c <;> rfl

@[simp]
theorem guarded_nullSink (o : Oracle) (c : Call) (e : ErrorCode) (s : State) :
    (s.guarded o c e).nullSink = s.nullSink := by
  simp only [State.guarded]
  cases (s.invoke o c).1 <;> simp

@[simp]
theorem insertGrouped_nullSink (l r : Nat) (s : State) :
    (s.insertGrouped l r).nullSink = s.nullSink := rfl

@[simp]
theorem eraseGrouped_nullSink (id : Nat) (s : State) :
    (s.eraseGrouped id).nullSink = s.nullSink := rfl

@[simp]
theorem clearGrouped_nullSink (s : State) :
    (s.clearGrouped).nullSink = s.nullSink := rfl

@[simp]
theorem pressKeys_nullSink (k : List Int) (s : State) : (s.pressKeys k).nullSink = s.nullSink := rfl

@[simp]
theorem releaseKeys_nullSink (k : List Int) (s : State) : (s.releaseKeys k).nullSink = s.nullSink := rfl

@[simp]
theorem onAllSoundsFinished_nullSink (p : Platform) (o : Oracle) (s : State) :
    (Window.onAllSoundsFinished p o s).nullSink = s.nullSink := by
  unfold Window.onAllSoundsFinished
  cases p <;> simp only <;> repeat (first | split | simp)

@[simp]
theorem onError_playing (e : ErrorCode) (s : State) : (s.onError e).playing = s.playing := rfl

@[simp]
theorem invoke_playing (o : Oracle) (c : Call) (s : State) : (s.invoke o c).2.playing = s.playing := by
  simp only [State.invoke]
  cases o c s.calls.length <;> cases c <;> rfl

@[simp]
theorem guarded_playing (o : Oracle) (c : Call) (e : ErrorCode) (s : State) :
    (s.guarded o c e).playing = s.playing := by
  simp only [State.guarded]
  cases (s.invoke o c).1 <;> simp

@[simp]
theorem insertGrouped_playing (l r : Nat) (s : State) :
    (s.insertGrouped l r).playing = s.playing := rfl

@[simp]
theorem eraseGrouped_playing (id : Nat) (s : State) :
    (s.eraseGrouped id).playing = s.playing := rfl

@[simp]
theorem clearGrouped_playing (s : State) :
    (s.clearGrouped).playing = s.playing := rfl

@[simp]
theorem pressKeys_playing (k : List Int) (s : State) : (s.pressKeys k).playing = s.playing := rfl

@[simp]
theorem releaseKeys_playing (k : List Int) (s : State) : (s.releaseKeys k).playing = s.playing := rfl

@[simp]
theorem onAllSoundsFinished_playing (p : Platform) (o : Oracle) (s : State) :
    (Window.onAllSoundsFinished p o s).playing = s.playing := by
  unfold Window.onAllSoundsFinished
  cases p <;> simp only <;> repeat (first | split | simp)

@[simp]
theorem onError_counter (e : ErrorCode) (s : State) : (s.onError e).counter = s.counter := rfl

@[simp]
theorem invoke_counter (o : Oracle) (c : Call) (s : State) : (s.invoke o c).2.counter = s.counter := by
  simp only [State.invoke]
  cases o c s.calls.length <;> cases c <;> rfl

@[simp]
theorem guarded_counter (o : Oracle) (c : Call) (e : ErrorCode) (s : State) :
    (s.guarded o c e).counter = s.counter := by
  simp only [State.guarded]
  cases (s.invoke o c).1 <;> simp

@[simp]
theorem insertGrouped_counter (l r : Nat) (s : State) :
    (s.insertGrouped l r).counter = s.counter := rfl

@[simp]
theorem eraseGrouped_counter (id : Nat) (s : State) :
    (s.eraseGrouped id).counter = s.counter := rfl

@[simp]
theorem clearGrouped_counter (s : State) :
    (s.clearGrouped).counter = s.counter := rfl

@[simp]
theorem pressKeys_counter (k : List Int) (s : State) : (s.pressKeys k).counter = s.counter := rfl

@[simp]
theorem releaseKeys_counter (k : List Int) (s : State) : (s.releaseKeys k).counter = s.counter := rfl

@[simp]
theorem onAllSoundsFinished_counter (p : Platform) (o : Oracle) (s : State) :
    (Window.onAllSoundsFinished p o s).counter = s.counter := by
  unfold Window.onAllSoundsFinished
  cases p <;> simp only <;> repeat (first | split | simp)

@[simp]
theorem onError_pendingStopAll (e : ErrorCode) (s : State) : (s.onError e).pendingStopAll = s.pendingStopAll := rfl

@[simp]
theorem invoke_pendingStopAll (o : Oracle) (c : Call) (s : State) : (s.invoke o c).2.pendingStopAll = s.pendingStopAll := by
  simp only [State.invoke]
  cases o c s.calls.length <;> cases c <;> rfl

@[simp]
theorem guarded_pendingStopAll (o : Oracle) (c : Call) (e : ErrorCode) (s : State) :
    (s.guarded o c e).pendingStopAll = s.pendingStopAll := by
  simp only [State.guarded]
  cases (s.invoke o c).1 <;> simp

@[simp]
theorem insertGrouped_pendingStopAll (l r : Nat) (s : State) :
    (s.insertGrouped l r).pendingStopAll = s.pendingStopAll := rfl

@[simp]
theorem eraseGrouped_pendingStopAll (id : Nat) (s : State) :
    (s.eraseGrouped id).pendingStopAll = s.pendingStopAll := rfl

@[simp]
theorem clearGrouped_pendingStopAll (s : State) :
    (s.clearGrouped).pendingStopAll = s.pendingStopAll := rfl

@[simp]
theorem pressKeys_pendingStopAll (k : List Int) (s : State) : (s.pressKeys k).pendingStopAll = s.pendingStopAll := rfl

@[simp]
theorem releaseKeys_pendingStopAll (k : List Int) (s : State) : (s.releaseKeys k).pendingStopAll = s.pendingStopAll := rfl

@[simp]
theorem onAllSoundsFinished_pendingStopAll (p : Platform) (o : Oracle) (s : State) :
    (Window.onAllSoundsFinished p o s).pendingStopAll = s.pendingStopAll := by
  unfold Window.onAllSoundsFinished
  cases p <;> simp only <;> repeat (first | split | simp)

@[simp]
theorem onError_groupedSounds (e : ErrorCode) (s : State) : (s.onError e).groupedSounds = s.groupedSounds := rfl

@[simp]
theorem invoke_groupedSounds (o : Oracle) (c : Call) (s : State) : (s.invoke o c).2.groupedSounds = s.groupedSounds := by
  simp only [State.invoke]
  cases o c s.calls.length <;> cases c <;> rfl

@[simp]
theorem guarded_groupedSounds (o : Oracle) (c : Call) (e : ErrorCode) (s : State) :
    (s.guarded o c e).groupedSounds = s.groupedSounds := by
  simp only [State.guarded]
  cases (s.invoke o c).1 <;> simp

@[simp]
theorem insertGrouped_groupedSounds (l r : Nat) (s : State) :
    (s.insertGrouped l r).groupedSounds = insertGroup l r s.groupedSounds := rfl

@[simp]
theorem eraseGrouped_groupedSounds (id : Nat) (s : State) :
    (s.eraseGrouped id).groupedSounds = eraseGroup id s.groupedSounds := rfl

@[simp]
theorem clearGrouped_groupedSounds (s : State) :
    (s.clearGrouped).groupedSounds = (∅ : Registry) := rfl

@[simp]
theorem pressKeys_groupedSounds (k : List Int) (s : State) : (s.pressKeys k).groupedSounds = s.groupedSounds := rfl

@[simp]
theorem releaseKeys_groupedSounds (k : List Int) (s : State) : (s.releaseKeys k).groupedSounds = s.groupedSounds := rfl

@[simp]
theorem onAllSoundsFinished_groupedSounds (p : Platform) (o : Oracle) (s : State) :
    (Window.onAllSoundsFinished p o s).groupedSounds = s.groupedSounds := by
  unfold Window.onAllSoundsFinished
  cases p <;> simp only <;> repeat (first | split | simp)

@[simp]
theorem onError_backend (e : ErrorCode) (s : State) : (s.onError e).backend = s.backend := rfl

@[simp]
theorem invoke_backend (o : Oracle) (c : Call) (s : State) : (s.invoke o c).2.backend = s.backend := by
  simp only [State.invoke]
  cases o c s.calls.length <;> cases c <;> rfl

@[simp]
theorem guarded_backend (o : Oracle) (c : Call) (e : ErrorCode) (s : State) :
    (s.guarded o c e).backend = s.backend := by
  simp only [State.guarded]
  cases (s.invoke o c).1 <;> simp

@[simp]
theorem insertGrouped_backend (l r : Nat) (s : State) :
    (s.insertGrouped l r).backend = s.backend := rfl

@[simp]
theorem eraseGrouped_backend (id : Nat) (s : State) :
    (s.eraseGrouped id).backend = s.backend := rfl

@[simp]
theorem clearGrouped_backend (s : State) :
    (s.clearGrouped).backend = s.backend := rfl

@[simp]
theorem pressKeys_backend (k : List Int) (s : State) : (s.pressKeys k).backend = s.backend := rfl

@[simp]
theorem releaseKeys_backend (k : List Int) (s : State) : (s.releaseKeys k).backend = s.backend := rfl

@[simp]
theorem onAllSoundsFinished_backend (p : Platform) (o : Oracle) (s : State) :
    (Window.onAllSoundsFinished p o s).backend = s.backend := by
  unfold Window.onAllSoundsFinished
  cases p <;> simp only <;> repeat (first | split | simp)

@[simp]
theorem onError_winMic (e : ErrorCode) (s : State) : (s.onError e).winMic = s.winMic := rfl

@[simp]
theorem invoke_winMic (o : Oracle) (c : Call) (s : State) : (s.invoke o c).2.winMic = s.winMic := by
  simp only [State.invoke]
  cases o c s.calls.length <;> cases c <;> rfl

@[simp]
theorem guarded_winMic (o : Oracle) (c : Call) (e : ErrorCode) (s : State) :
    (s.guarded o c e).winMic = s.winMic := by
  simp only [State.guarded]
  cases (s.invoke o c).1 <;> simp

@[simp]
theorem insertGrouped_winMic (l r : Nat) (s : State) :
    (s.insertGrouped l r).winMic = s.winMic := rfl

@[simp]
theorem eraseGrouped_winMic (id : Nat) (s : State) :
    (s.eraseGrouped id).winMic = s.winMic := rfl

@[simp]
theorem clearGrouped_winMic (s : State) :
    (s.clearGrouped).winMic = s.winMic := rfl

@[simp]
theorem pressKeys_winMic (k : List Int) (s : State) : (s.pressKeys k).winMic = s.winMic := rfl

@[simp]
theorem releaseKeys_winMic (k : List Int) (s : State) : (s.releaseKeys k).winMic = s.winMic := rfl

@[simp]
theorem onAllSoundsFinished_winMic (p : Platform) (o : Oracle) (s : State) :
    (Window.onAllSoundsFinished p o s).winMic = s.winMic := by
  unfold Window.onAllSoundsFinished
  cases p <;> simp only <;> repeat (first | split | simp)

/-! ### End of the frame lemmas -/


/-! ### What the engine and the stops leave unchanged -/

@[simp]
theorem play_sounds (o : Oracle) (snd : Sound) (d : Option AudioDevice) (s : State) :
    (Audio.play o snd d s).2.sounds = s.sounds := by
  simp only [Audio.play]
  split <;> rfl

@[simp]
theorem stop_sounds (id : Nat) (s : State) : (Audio.stop id s).2.sounds = s.sounds := by
  simp only [Audio.stop]
  split <;> rfl

@[simp]
theorem stopAll_sounds (s : State) : (Audio.stopAll s).sounds = s.sounds := rfl

@[simp]
theorem pause_sounds (id : Nat) (s : State) : (Audio.pause id s).2.sounds = s.sounds := by
  simp only [Audio.pause]
  split <;> rfl

@[simp]
theorem resume_sounds (id : Nat) (s : State) : (Audio.resume id s).2.sounds = s.sounds := by
  simp only [Audio.resume]
  split <;> rfl

@[simp]
theorem play_settings (o : Oracle) (snd : Sound) (d : Option AudioDevice) (s : State) :
    (Audio.play o snd d s).2.settings = s.settings := by
  simp only [Audio.play]
  split <;> rfl

@[simp]
theorem stop_settings (id : Nat) (s : State) : (Audio.stop id s).2.settings = s.settings := by
  simp only [Audio.stop]
  split <;> rfl

@[simp]
theorem stopAll_settings (s : State) : (Audio.stopAll s).settings = s.settings := rfl

@[simp]
theorem pause_settings (id : Nat) (s : State) : (Audio.pause id s).2.settings = s.settings := by
  simp only [Audio.pause]
  split <;> rfl

@[simp]
theorem resume_settings (id : Nat) (s : State) : (Audio.resume id s).2.settings = s.settings := by
  simp only [Audio.resume]
  split <;> rfl

@[simp]
theorem play_devices (o : Oracle) (snd : Sound) (d : Option AudioDevice) (s : State) :
    (Audio.play o snd d s).2.devices = s.devices := by
  simp only [Audio.play]
  split <;> rfl

@[simp]
theorem stop_devices (id : Nat) (s : State) : (Audio.stop id s).2.devices = s.devices := by
  simp only [Audio.stop]
  split <;> rfl

@[simp]
theorem stopAll_devices (s : State) : (Audio.stopAll s).devices = s.devices := rfl

@[simp]
theorem pause_devices (id : Nat) (s : State) : (Audio.pause id s).2.devices = s.devices := by
  simp only [Audio.pause]
  split <;> rfl

@[simp]
theorem resume_devices (id : Nat) (s : State) : (Audio.resume id s).2.devices = s.devices := by
  simp only [Audio.resume]
  split <;> rfl

@[simp]
theorem play_defaultDevice (o : Oracle) (snd : Sound) (d : Option AudioDevice) (s : State) :
    (Audio.play o snd d s).2.defaultDevice = s.defaultDevice := by
  simp only [Audio.play]
  split <;> rfl

@[simp]
theorem stop_defaultDevice (id : Nat) (s : State) : (Audio.stop id s).2.defaultDevice = s.defaultDevice := by
  simp only [Audio.stop]
  split <;> rfl

@[simp]
theorem stopAll_defaultDevice (s : State) : (Audio.stopAll s).defaultDevice = s.defaultDevice := rfl

@[simp]
theorem pause_defaultDevice (id : Nat) (s : State) : (Audio.pause id s).2.defaultDevice = s.defaultDevice := by
  simp only [Audio.pause]
  split <;> rfl

@[simp]
theorem resume_defaultDevice (id : Nat) (s : State) : (Audio.resume id s).2.defaultDevice = s.defaultDevice := by
  simp only [Audio.resume]
  split <;> rfl

@[simp]
theorem play_nullSink (o : Oracle) (snd : Sound) (d : Option AudioDevice) (s : State) :
    (Audio.play o snd d s).2.nullSink = s.nullSink := by
  simp only [Audio.play]
  split <;> rfl

@[simp]
theorem stop_nullSink (id : Nat) (s : State) : (Audio.stop id s).2.nullSink = s.nullSink := by
  simp only [Audio.stop]
  split <;> rfl

@[simp]
theorem stopAll_nullSink (s : State) : (Audio.stopAll s).nullSink = s.nullSink := rfl

@[simp]
theorem pause_nullSink (id : Nat) (s : State) : (Audio.pause id s).2.nullSink = s.nullSink := by
  simp only [Audio.pause]
  split <;> rfl

@[simp]
theorem resume_nullSink (id : Nat) (s : State) : (Audio.resume id s).2.nullSink = s.nullSink := by
  simp only [Audio.resume]
  split <;> rfl

@[simp]
theorem play_pendingStopAll (o : Oracle) (snd : Sound) (d : Option AudioDevice) (s : State) :
    (Audio.play o snd d s).2.pendingStopAll = s.pendingStopAll := by
  simp only [Audio.play]
  split <;> rfl

@[simp]
theorem stop_pendingStopAll (id : Nat) (s : State) : (Audio.stop id s).2.pendingStopAll = s.pendingStopAll := by
  simp only [Audio.stop]
  split <;> rfl

@[simp]
theorem stopAll_pendingStopAll (s : State) : (Audio.stopAll s).pendingStopAll = s.pendingStopAll := rfl

@[simp]
theorem pause_pendingStopAll (id : Nat) (s : State) : (Audio.pause id s).2.pendingStopAll = s.pendingStopAll := by
  simp only [Audio.pause]
  split <;> rfl

@[simp]
theorem resume_pendingStopAll (id : Nat) (s : State) : (Audio.resume id s).2.pendingStopAll = s.pendingStopAll := by
  simp only [Audio.resume]
  split <;> rfl

@[simp]
theorem play_groupedSounds (o : Oracle) (snd : Sound) (d : Option AudioDevice) (s : State) :
    (Audio.play o snd d s).2.groupedSounds = s.groupedSounds := by
  simp only [Audio.play]
  split <;> rfl

@[simp]
theorem stop_groupedSounds (id : Nat) (s : State) : (Audio.stop id s).2.groupedSounds = s.groupedSounds := by
  simp only [Audio.stop]
  split <;> rfl

@[simp]
theorem stopAll_groupedSounds (s : State) : (Audio.stopAll s).groupedSounds = s.groupedSounds := rfl

@[simp]
theorem pause_groupedSounds (id : Nat) (s : State) : (Audio.pause id s).2.groupedSounds = s.groupedSounds := by
  simp only [Audio.pause]
  split <;> rfl

@[simp]
theorem resume_groupedSounds (id : Nat) (s : State) : (Audio.resume id s).2.groupedSounds = s.groupedSounds := by
  simp only [Audio.resume]
  split <;> rfl

@[simp]
theorem play_backend (o : Oracle) (snd : Sound) (d : Option AudioDevice) (s : State) :
    (Audio.play o snd d s).2.backend = s.backend := by
  simp only [Audio.play]
  split <;> rfl

@[simp]
theorem stop_backend (id : Nat) (s : State) : (Audio.stop id s).2.backend = s.backend := by
  simp only [Audio.stop]
  split <;> rfl

@[simp]
theorem stopAll_backend (s : State) : (Audio.stopAll s).backend = s.backend := rfl

@[simp]
theorem pause_backend (id : Nat) (s : State) : (Audio.pause id s).2.backend = s.backend := by
  simp only [Audio.pause]
  split <;> rfl

@[simp]
theorem resume_backend (id : Nat) (s : State) : (Audio.resume id s).2.backend = s.backend := by
  simp only [Audio.resume]
  split <;> rfl

@[simp]
theorem play_winMic (o : Oracle) (snd : Sound) (d : Option AudioDevice) (s : State) :
    (Audio.play o snd d s).2.winMic = s.winMic := by
  simp only [Audio.play]
  split <;> rfl

@[simp]
theorem stop_winMic (id : Nat) (s : State) : (Audio.stop id s).2.winMic = s.winMic := by
  simp only [Audio.stop]
  split <;> rfl

@[simp]
theorem stopAll_winMic (s : State) : (Audio.stopAll s).winMic = s.winMic := rfl

@[simp]
theorem pause_winMic (id : Nat) (s : State) : (Audio.pause id s).2.winMic = s.winMic := by
  simp only [Audio.pause]
  split <;> rfl

@[simp]
theorem resume_winMic (id : Nat) (s : State) : (Audio.resume id s).2.winMic = s.winMic := by
  simp only [Audio.resume]
  split <;> rfl

@[simp]
theorem stop_counter (id : Nat) (s : State) : (Audio.stop id s).2.counter = s.counter := by
  simp only [Audio.stop]
  split <;> rfl

@[simp]
theorem stopAll_counter (s : State) : (Audio.stopAll s).counter = s.counter := rfl

@[simp]
theorem pause_counter (id : Nat) (s : State) : (Audio.pause id s).2.counter = s.counter := by
  simp only [Audio.pause]
  split <;> rfl

@[simp]
theorem resume_counter (id : Nat) (s : State) : (Audio.resume id s).2.counter = s.counter := by
  simp only [Audio.resume]
  split <;> rfl

@[simp]
theorem stopSounds_sounds (p : Platform) (o : Oracle) (sync : Bool) (s : State) :
    (Window.stopSounds p o sync s).sounds = s.sounds := by
  unfold Window.stopSounds
  cases p <;> cases sync <;> simp only <;> repeat (first | split | simp)

@[simp]
theorem stopSound_sounds (p : Platform) (o : Oracle) (id : Nat) (s : State) :
    (Window.stopSound p o id s).2.sounds = s.sounds := by
  unfold Window.stopSound
  repeat (first | split | simp)

@[simp]
theorem stopSounds_settings (p : Platform) (o : Oracle) (sync : Bool) (s : State) :
    (Window.stopSounds p o sync s).settings = s.settings := by
  unfold Window.stopSounds
  cases p <;> cases sync <;> simp only <;> repeat (first | split | simp)

@[simp]
theorem stopSound_settings (p : Platform) (o : Oracle) (id : Nat) (s : State) :
    (Window.stopSound p o id s).2.settings = s.settings := by
  unfold Window.stopSound
  repeat (first | split | simp)

@[simp]
theorem stopSounds_devices (p : Platform) (o : Oracle) (sync : Bool) (s : State) :
    (Window.stopSounds p o sync s).devices = s.devices := by
  unfold Window.stopSounds
  cases p <;> cases sync <;> simp only <;> repeat (first | split | simp)

@[simp]
theorem stopSound_devices (p : Platform) (o : Oracle) (id : Nat) (s : State) :
    (Window.stopSound p o id s).2.devices = s.devices := by
  unfold Window.stopSound
  repeat (first | split | simp)

@[simp]
theorem stopSounds_defaultDevice (p : Platform) (o : Oracle) (sync : Bool) (s : State) :
    (Window.stopSounds p o sync s).defaultDevice = s.defaultDevice := by
  unfold Window.stopSounds
  cases p <;> cases sync <;> simp only <;> repeat (first | split | simp)

@[simp]
theorem stopSound_defaultDevice (p : Platform) (o : Oracle) (id : Nat) (s : State) :
    (Window.stopSound p o id s).2.defaultDevice = s.defaultDevice := by
  unfold Window.stopSound
  repeat (first | split | simp)

@[simp]
theorem stopSounds_nullSink (p : Platform) (o : Oracle) (sync : Bool) (s : State) :
    (Window.stopSounds p o sync s).nullSink = s.nullSink := by
  unfold Window.stopSounds
  cases p <;> cases sync <;> simp only <;> repeat (first | split | simp)

@[simp]
theorem stopSound_nullSink (p : Platform) (o : Oracle) (id : Nat) (s : State) :
    (Window.stopSound p o id s).2.nullSink = s.nullSink := by
  unfold Window.stopSound
  repeat (first | split | simp)

@[simp]
theorem stopSounds_counter (p : Platform) (o : Oracle) (sync : Bool) (s : State) :
    (Window.stopSounds p o sync s).counter = s.counter := by
  unfold Window.stopSounds
  cases p <;> cases sync <;> simp only <;> repeat (first | split | simp)

@[simp]
theorem stopSound_counter (p : Platform) (o : Oracle) (id : Nat) (s : State) :
    (Window.stopSound p o id s).2.counter = s.counter := by
  unfold Window.stopSound
  repeat (first | split | simp)

@[simp]
theorem stopSounds_backend (p : Platform) (o : Oracle) (sync : Bool) (s : State) :
    (Window.stopSounds p o sync s).backend = s.backend := by
  unfold Window.stopSounds
  cases p <;> cases sync <;> simp only <;> repeat (first | split | simp)

@[simp]
theorem stopSound_backend (p : Platform) (o : Oracle) (id : Nat) (s : State) :
    (Window.stopSound p o id s).2.backend = s.backend := by
  unfold Window.stopSound
  repeat (first | split | simp)

@[simp]
theorem stopSounds_winMic (p : Platform) (o : Oracle) (sync : Bool) (s : State) :
    (Window.stopSounds p o sync s).winMic = s.winMic := by
  unfold Window.stopSounds
  cases p <;> cases sync <;> simp only <;> repeat (first | split | simp)

@[simp]
theorem stopSound_winMic (p : Platform) (o : Oracle) (id : Nat) (s : State) :
    (Window.stopSound p o id s).2.winMic = s.winMic := by
  unfold Window.stopSound
  repeat (first | split | simp)

/-! ### End of the engine frame lemmas -/

/-! ### What the stops do to the playing list and to the registry -/

theorem stop_playing (id : Nat) (s : State) :
    (Audio.stop id s).2.playing = s.playing.filter (fun p => p.id != id) := by
  simp only [Audio.stop]
  split
  · rfl
  · rename_i h
    symm
    simp only [List.filter_eq_self]
    intro q hq
    simp only [List.any_eq_true, not_exists, not_and, Bool.not_eq_true] at h
    have := h q hq
    simpa [bne] using this

theorem stop_result (id : Nat) (s : State) :
    (Audio.stop id s).1 = s.playing.any (fun p => p.id == id) := by
  simp only [Audio.stop]
  split
  · rename_i h
    simpa using h.symm
  · rename_i h
    simpa using h

@[simp]
theorem stopSounds_groupedSounds (p : Platform) (o : Oracle) (sync : Bool) (s : State) :
    (Window.stopSounds p o sync s).groupedSounds = ∅ := by
  unfold Window.stopSounds
  cases p <;> cases sync <;> dsimp only <;> split_ifs <;> simp_all [Audio.stopAll]

@[simp]
theorem stopSounds_true_playing (p : Platform) (o : Oracle) (s : State) :
    (Window.stopSounds p o true s).playing = [] := by
  unfold Window.stopSounds
  cases p <;> dsimp only <;> split_ifs <;> simp_all [Audio.stopAll]

@[simp]
theorem stopSounds_false_playing (p : Platform) (o : Oracle) (s : State) :
    (Window.stopSounds p o false s).playing = s.playing := by
  unfold Window.stopSounds
  cases p <;> dsimp only <;> split_ifs <;> simp_all [Audio.stopAll]

theorem stopSound_playing (p : Platform) (o : Oracle) (id : Nat) (s : State) :
    (Window.stopSound p o id s).2.playing =
      if Window.dualOutput s.settings then
        match findRemote id s.groupedSounds with
        | none => s.playing
        | some remote =>
            (s.playing.filter (fun q => q.id != id)).filter (fun q => q.id != remote)
      else s.playing.filter (fun q => q.id != id) := by
  cases hd : Window.dualOutput s.settings <;> cases hf : findRemote id s.groupedSounds <;>
    simp only [Window.stopSound, hd, hf] <;> simp <;> split_ifs <;> simp [stop_playing]

theorem stopSound_groupedSounds (p : Platform) (o : Oracle) (id : Nat) (s : State) :
    (Window.stopSound p o id s).2.groupedSounds =
      if Window.dualOutput s.settings then
        match findRemote id s.groupedSounds with
        | none => s.groupedSounds
        | some _ => eraseGroup id s.groupedSounds
      else s.groupedSounds := by
  cases hd : Window.dualOutput s.settings <;> cases hf : findRemote id s.groupedSounds <;>
    simp only [Window.stopSound, hd, hf] <;> simp <;> split_ifs <;> simp [eraseGroup]

theorem stopSound_result (p : Platform) (o : Oracle) (id : Nat) (s : State) :
    (Window.stopSound p o id s).1 =
      if Window.dualOutput s.settings && (findRemote id s.groupedSounds).isNone then false
      else s.playing.any (fun q => q.id == id) := by
  unfold Window.stopSound
  split
  · rfl
  · exact stop_result id s

/-- C2, at the failing inputs.  Linux: the start on the default device succeeds and the start
on the null sink fails; `playSound` returns nothing, signals `FailedToPlay` and adds no entry,
but the instance 1 that did start is still in the playing list.  Non-Linux, with the output
device A configured: the same, because the `stopSound` of the rollback finds no entry for
the instance and stops nothing. -/
theorem playSound_leaves_started_instance :
    ((Window.playSoundLinux remoteFails 1 sampleState).1 = none ∧
     (Window.playSoundLinux remoteFails 1 sampleState).2.errors = [ErrorCode.FailedToPlay] ∧
     (Window.playSoundLinux remoteFails 1 sampleState).2.groupedSounds.entries = [] ∧
     (Window.playSoundLinux remoteFails 1 sampleState).2.playing.map PlayingSound.id = [1]) ∧
    ((Window.playSoundOther true remoteFails 1
        { sampleState with settings := { sampleSettings with outputs := ["A"] },
                           devices := [⟨"A", false⟩] }).1 = none ∧
     (Window.playSoundOther true remoteFails 1
        { sampleState with settings := { sampleSettings with outputs := ["A"] },
                           devices := [⟨"A", false⟩] }).2.errors = [ErrorCode.FailedToPlay] ∧
     (Window.playSoundOther true remoteFails 1
        { sampleState with settings := { sampleSettings with outputs := ["A"] },
                           devices := [⟨"A", false⟩] }).2.playing.map PlayingSound.id = [1]) := by
  refine ⟨⟨by decide, by decide, by decide, by decide⟩, by decide, by decide, by decide⟩

/-- C4 fails as stated: with the output A configured, `useAsDefaultDevice` off and no entry for
the id 1, `stopSound(1)` returns false and the instance 1 is still playing. -/
theorem stopSound_without_entry_keeps_instance :
    (Window.stopSound Platform.linux allOk 1
        { sampleState with settings := { sampleSettings with outputs := ["A"] },
                           playing := [sampleInstance 1 1 ⟨"default", true⟩] }).1 = false ∧
    (Window.stopSound Platform.linux allOk 1
        { sampleState with settings := { sampleSettings with outputs := ["A"] },
                           playing := [sampleInstance 1 1 ⟨"default", true⟩] }).2.playing.map
      PlayingSound.id = [1] := by
  refine ⟨by decide, by decide⟩

/-- C4, amended: when the registry is not consulted (`outputs` empty or `useAsDefaultDevice`
on) or the id is a key of the registry, no instance with the id is playing after
`stopSound(id)`, and a second `stopSound(id)` right after returns false and leaves the playing
list and the registry as they are. -/
theorem stopSound_twice (p : Platform) (o : Oracle) (id : Nat) (s : State)
    (h : Window.dualOutput s.settings = false ∨ id ∈ s.groupedSounds) :
    (∀ q ∈ (Window.stopSound p o id s).2.playing, q.id ≠ id) ∧
    (Window.stopSound p o id (Window.stopSound p o id s).2).1 = false ∧
    (Window.stopSound p o id (Window.stopSound p o id s).2).2.playing
      = (Window.stopSound p o id s).2.playing ∧
    (Window.stopSound p o id (Window.stopSound p o id s).2).2.groupedSounds
      = (Window.stopSound p o id s).2.groupedSounds := by
  have hgone : ∀ q ∈ (Window.stopSound p o id s).2.playing, q.id ≠ id := by
    intro q hq
    rw [stopSound_playing] at hq
    cases hd : Window.dualOutput s.settings
    · simp [hd] at hq
      exact hq.2
    · rcases h with h | h
      · simp [hd] at h
      · obtain ⟨r, hr⟩ := Option.isSome_iff_exists.mp (AList.lookup_isSome.mpr h)
        have hr2 : findRemote id s.groupedSounds = some r := hr
        simp [hd, hr2] at hq
        exact hq.2.2
  have hany : (Window.stopSound p o id s).2.playing.any (fun q => q.id == id) = false := by
    rw [List.any_eq_false]
    intro q hq
    simpa using hgone q hq
  have hfilter : (Window.stopSound p o id s).2.playing.filter (fun q => q.id != id)
      = (Window.stopSound p o id s).2.playing := by
    rw [List.filter_eq_self]
    intro q hq
    simpa using hgone q hq
  refine ⟨hgone, ?_, ?_, ?_⟩
  · rw [stopSound_result, hany]
    simp
  · rw [stopSound_playing p o id (Window.stopSound p o id s).2]
    simp only [stopSound_settings]
    cases hd : Window.dualOutput s.settings
    · simp [hfilter]
    · rcases h with h | h
      · simp [hd] at h
      · obtain ⟨r, hr⟩ := Option.isSome_iff_exists.mp (AList.lookup_isSome.mpr h)
        have hr2 : findRemote id s.groupedSounds = some r := hr
        have hnone : findRemote id (Window.stopSound p o id s).2.groupedSounds = none := by
          rw [stopSound_groupedSounds]
          simp [hd, hr, hr2, findRemote, eraseGroup]
        simp [hnone]
  · rw [stopSound_groupedSounds p o id (Window.stopSound p o id s).2]
    simp only [stopSound_settings]
    cases hd : Window.dualOutput s.settings
    · simp
    · rcases h with h | h
      · simp [hd] at h
      · obtain ⟨r, hr⟩ := Option.isSome_iff_exists.mp (AList.lookup_isSome.mpr h)
        have hr2 : findRemote id s.groupedSounds = some r := hr
        have hnone : findRemote id (Window.stopSound p o id s).2.groupedSounds = none := by
          rw [stopSound_groupedSounds]
          simp [hd, hr, hr2, findRemote, eraseGroup]
        simp [hnone]

/-- C4, amended, run on a state in which the registry is not consulted and the instance 1 is
playing. -/
theorem stopSound_twice_witness :
    Window.dualOutput sampleSettings = false ∧
    (Window.stopSound Platform.linux allOk 1
        (Window.stopSound Platform.linux allOk 1
          { sampleState with playing := [sampleInstance 1 1 ⟨"default", true⟩] }).2).1 = false :=
  ⟨by decide,
   (stopSound_twice Platform.linux allOk 1
      { sampleState with playing := [sampleInstance 1 1 ⟨"default", true⟩] }
      (Or.inl (by decide))).2.1⟩

/-! ### Pausing and resuming -/

theorem pause_playing (id : Nat) (s : State) :
    (Audio.pause id s).2.playing
      = s.playing.map (fun q => if q.id == id then { q with paused := true } else q) := by
  simp only [Audio.pause]
  split
  · rfl
  · rename_i h
    rw [List.find?_eq_none] at h
    symm
    calc s.playing.map (fun q => if q.id == id then { q with paused := true } else q)
        = s.playing.map (fun q => q) := by
          apply List.map_congr_left
          intro q hq
          simp [h q hq]
      _ = s.playing := List.map_id' _

theorem resume_playing (id : Nat) (s : State) :
    (Audio.resume id s).2.playing
      = s.playing.map (fun q => if q.id == id then { q with paused := false } else q) := by
  simp only [Audio.resume]
  split
  · rfl
  · rename_i h
    rw [List.find?_eq_none] at h
    symm
    calc s.playing.map (fun q => if q.id == id then { q with paused := false } else q)
        = s.playing.map (fun q => q) := by
          apply List.map_congr_left
          intro q hq
          simp [h q hq]
      _ = s.playing := List.map_id' _

@[simp]
theorem pauseSound_settings (id : Nat) (s : State) :
    (Window.pauseSound id s).2.settings = s.settings := by
  unfold Window.pauseSound
  dsimp only
  split <;> split <;> simp

@[simp]
theorem pauseSound_groupedSounds (id : Nat) (s : State) :
    (Window.pauseSound id s).2.groupedSounds = s.groupedSounds := by
  unfold Window.pauseSound
  dsimp only
  split <;> split <;> simp

@[simp]
theorem resumeSound_settings (id : Nat) (s : State) :
    (Window.resumeSound id s).2.settings = s.settings := by
  unfold Window.resumeSound
  dsimp only
  split <;> split <;> simp

@[simp]
theorem resumeSound_groupedSounds (id : Nat) (s : State) :
    (Window.resumeSound id s).2.groupedSounds = s.groupedSounds := by
  unfold Window.resumeSound
  dsimp only
  split <;> split <;> simp

theorem pauseSound_playing (id r : Nat) (s : State) (hd : Window.dualOutput s.settings = true)
    (hr : findRemote id s.groupedSounds = some r) :
    (Window.pauseSound id s).2.playing = s.playing.map (markPaused true [⟨id, r⟩]) := by
  unfold Window.pauseSound
  simp only [hd, hr, if_true]
  have : ((Audio.pause r (Audio.pause id s).2).2).playing
      = s.playing.map (markPaused true [⟨id, r⟩]) := by
    rw [pause_playing, pause_playing, List.map_map]
    apply List.map_congr_left
    intro q _
    rcases q with ⟨qid, qs, qd, qp, qr, qv⟩
    by_cases h1 : qid = id
    · subst h1
      by_cases h2 : qid = r <;> simp [markPaused, h2]
    · by_cases h2 : qid = r
      · subst h2
        simp [markPaused, h1]
      · simp [markPaused, h1, h2]
  split <;> simpa using this

theorem resumeSound_playing (id r : Nat) (s : State) (hd : Window.dualOutput s.settings = true)
    (hr : findRemote id s.groupedSounds = some r) :
    (Window.resumeSound id s).2.playing = s.playing.map (markPaused false [⟨id, r⟩]) := by
  unfold Window.resumeSound
  simp only [hd, hr, if_true]
  have : ((Audio.resume r (Audio.resume id s).2).2).playing
      = s.playing.map (markPaused false [⟨id, r⟩]) := by
    rw [resume_playing, resume_playing, List.map_map]
    apply List.map_congr_left
    intro q _
    rcases q with ⟨qid, qs, qd, qp, qr, qv⟩
    by_cases h1 : qid = id
    · subst h1
      by_cases h2 : qid = r <;> simp [markPaused, h2]
    · by_cases h2 : qid = r
      · subst h2
        simp [markPaused, h1]
      · simp [markPaused, h1, h2]
  split <;> simpa using this

@[simp]
theorem markPaused_id (b : Bool) (l : List (Sigma fun _ : Nat => Nat)) (q : PlayingSound) :
    (markPaused b l q).id = q.id := by
  unfold markPaused
  split <;> rfl

theorem markPaused_eq (b : Bool) (l : List (Sigma fun _ : Nat => Nat)) (q : PlayingSound) :
    markPaused b l q
      = if l.any (fun x => q.id == x.1 || q.id == x.2) then { q with paused := b } else q :=
  rfl

theorem markPaused_cons (b : Bool) (e : Sigma fun _ : Nat => Nat)
    (l : List (Sigma fun _ : Nat => Nat)) (q : PlayingSound) :
    markPaused b l (markPaused b [e] q) = markPaused b (e :: l) q := by
  rw [markPaused_eq b l (markPaused b [e] q)]
  simp only [markPaused_id]
  rw [markPaused_eq b [e] q, markPaused_eq b (e :: l) q]
  cases h2 : l.any (fun x => q.id == x.1 || q.id == x.2) <;>
    cases h1 : (q.id == e.1 || q.id == e.2) <;>
    simp [List.any_cons, h1, h2]

theorem markPaused_paused (b : Bool) (l : List (Sigma fun _ : Nat => Nat)) (q : PlayingSound)
    (e : Sigma fun _ : Nat => Nat) (he : e ∈ l) (hq : q.id = e.1 ∨ q.id = e.2) :
    (markPaused b l q).paused = b := by
  have : l.any (fun x => q.id == x.1 || q.id == x.2) = true := by
    rw [List.any_eq_true]
    exact ⟨e, he, by simpa using hq⟩
  simp [markPaused, this]

@[simp]
theorem toggleLoop_settings (b : Bool) (l : List (Sigma fun _ : Nat => Nat)) (s : State) :
    (Window.toggleLoop b l s).settings = s.settings := by
  induction l generalizing s with
  | nil => rfl
  | cons e rest ih => cases b <;> simp [Window.toggleLoop, ih]

@[simp]
theorem toggleLoop_groupedSounds (b : Bool) (l : List (Sigma fun _ : Nat => Nat)) (s : State) :
    (Window.toggleLoop b l s).groupedSounds = s.groupedSounds := by
  induction l generalizing s with
  | nil => rfl
  | cons e rest ih => cases b <;> simp [Window.toggleLoop, ih]

theorem toggleLoop_playing (b : Bool) (l : List (Sigma fun _ : Nat => Nat)) (s : State)
    (hd : Window.dualOutput s.settings = true)
    (hl : ∀ e ∈ l, findRemote e.1 s.groupedSounds = some e.2) :
    (Window.toggleLoop b l s).playing = s.playing.map (markPaused b l) := by
  induction l generalizing s with
  | nil =>
      simp only [Window.toggleLoop]
      symm
      calc s.playing.map (markPaused b []) = s.playing.map (fun q => q) := by
            apply List.map_congr_left
            intro q _
            simp [markPaused]
        _ = s.playing := List.map_id' _
  | cons e rest ih =>
      have he : findRemote e.1 s.groupedSounds = some e.2 := hl e (List.mem_cons_self _ _)
      cases b
      · simp only [Window.toggleLoop, Bool.false_eq_true, if_false, if_true]
        rw [ih]
        · rw [resumeSound_playing e.1 e.2 s hd he, List.map_map]
          apply List.map_congr_left
          intro q _
          exact markPaused_cons false e rest q
        · simpa using hd
        · intro x hx
          simpa using hl x (List.mem_cons_of_mem _ hx)
      · simp only [Window.toggleLoop, Bool.false_eq_true, if_false, if_true]
        rw [ih]
        · rw [pauseSound_playing e.1 e.2 s hd he, List.map_map]
          apply List.map_congr_left
          intro q _
          exact markPaused_cons true e rest q
        · simpa using hd
        · intro x hx
          simpa using hl x (List.mem_cons_of_mem _ hx)

theorem toggleLoop_entries (b : Bool) (s : State) (hd : Window.dualOutput s.settings = true) :
    (Window.toggleLoop b s.groupedSounds.entries s).playing
      = s.playing.map (markPaused b s.groupedSounds.entries) := by
  apply toggleLoop_playing b _ s hd
  intro e he
  have : e.2 ∈ AList.lookup e.1 s.groupedSounds := AList.mem_lookup_iff.mpr he
  exact this

/-- C7 fails as stated.  With an empty `outputs` list the pair (1, 2) is playing and not
paused; `toggleSoundPlayback` returns true but pauses only the local instance 1, and the
remote instance 2 keeps playing.  And with the output A configured but no grouped instance
playing, the second call returns true again. -/
theorem toggleSoundPlayback_counterexample :
    ((Window.toggleSoundPlayback pairedState).1 = true ∧
     (Window.toggleSoundPlayback pairedState).2.playing.map PlayingSound.paused
       = [true, false]) ∧
    (Window.toggleSoundPlayback
        (Window.toggleSoundPlayback
          { pairedState with settings := { sampleSettings with outputs := ["A"] },
                             playing := [] }).2).1 = true := by
  refine ⟨⟨by decide, by decide⟩, by decide⟩

/-- C7, amended: when `outputs` is non-empty and `useAsDefaultDevice` is off, no
playing instance is paused and some instance of a grouped pair is playing,
`toggleSoundPlayback` returns true and leaves every playing instance of every grouped pair paused; a second call
returns false and leaves every playing instance of every grouped pair unpaused.  The ids of the
playing list are those of before. -/
theorem toggleSoundPlayback_pauses_then_resumes (s : State)
    (hd : Window.dualOutput s.settings = true)
    (hp : ∀ q ∈ s.playing, q.paused = false)
    (hne : ∃ e ∈ s.groupedSounds.entries, ∃ q ∈ s.playing, q.id = e.1 ∨ q.id = e.2) :
    (Window.toggleSoundPlayback s).1 = true ∧
    (∀ e ∈ s.groupedSounds.entries, ∀ q ∈ (Window.toggleSoundPlayback s).2.playing,
        q.id = e.1 ∨ q.id = e.2 → q.paused = true) ∧
    (Window.toggleSoundPlayback s).2.playing.map PlayingSound.id
      = s.playing.map PlayingSound.id ∧
    (Window.toggleSoundPlayback (Window.toggleSoundPlayback s).2).1 = false ∧
    (∀ e ∈ s.groupedSounds.entries,
      ∀ q ∈ (Window.toggleSoundPlayback (Window.toggleSoundPlayback s).2).2.playing,
        q.id = e.1 ∨ q.id = e.2 → q.paused = false) ∧
    (Window.toggleSoundPlayback (Window.toggleSoundPlayback s).2).2.playing.map PlayingSound.id
      = s.playing.map PlayingSound.id := by
  have h1 : (Window.toggleSoundPlayback s).1 = true := by
    simp only [Window.toggleSoundPlayback, Bool.not_eq_true', List.any_eq_false]
    intro q hq
    simp [hp q hq]
  have hs1 : (Window.toggleSoundPlayback s).2 = Window.toggleLoop true s.groupedSounds.entries s := by
    have : (Window.toggleSoundPlayback s).2
        = Window.toggleLoop (Window.toggleSoundPlayback s).1 s.groupedSounds.entries s := rfl
    rw [this, h1]
  have hpl1 : (Window.toggleSoundPlayback s).2.playing
      = s.playing.map (markPaused true s.groupedSounds.entries) := by
    rw [hs1]
    exact toggleLoop_entries true s hd
  have hg1 : (Window.toggleSoundPlayback s).2.groupedSounds = s.groupedSounds := by
    rw [hs1]
    simp
  have hd1 : Window.dualOutput (Window.toggleSoundPlayback s).2.settings = true := by
    rw [hs1]
    simpa using hd
  have h2 : (Window.toggleSoundPlayback (Window.toggleSoundPlayback s).2).1 = false := by
    obtain ⟨e, he, q, hq, hqe⟩ := hne
    simp only [Window.toggleSoundPlayback, Bool.not_eq_false', List.any_eq_true]
    refine ⟨markPaused true s.groupedSounds.entries q, ?_, ?_⟩
    · have := hpl1
      simp only [Window.toggleSoundPlayback] at this
      rw [this]
      exact List.mem_map_of_mem _ hq
    · exact markPaused_paused true _ q e he hqe
  have hs2 : (Window.toggleSoundPlayback (Window.toggleSoundPlayback s).2).2
      = Window.toggleLoop false s.groupedSounds.entries (Window.toggleSoundPlayback s).2 := by
    have : (Window.toggleSoundPlayback (Window.toggleSoundPlayback s).2).2
        = Window.toggleLoop (Window.toggleSoundPlayback (Window.toggleSoundPlayback s).2).1
            (Window.toggleSoundPlayback s).2.groupedSounds.entries
            (Window.toggleSoundPlayback s).2 := rfl
    rw [this, h2, hg1]
  have hpl2 : (Window.toggleSoundPlayback (Window.toggleSoundPlayback s).2).2.playing
      = ((Window.toggleSoundPlayback s).2.playing).map
          (markPaused false s.groupedSounds.entries) := by
    rw [hs2]
    have := toggleLoop_entries false (Window.toggleSoundPlayback s).2 hd1
    rw [hg1] at this
    exact this
  refine ⟨h1, ?_, ?_, h2, ?_, ?_⟩
  · intro e he q hq hqe
    rw [hpl1, List.mem_map] at hq
    obtain ⟨q0, _, rfl⟩ := hq
    exact markPaused_paused true _ q0 e he (by simpa using hqe)
  · rw [hpl1, List.map_map]
    apply List.map_congr_left
    intro q _
    simp
  · intro e he q hq hqe
    rw [hpl2, List.mem_map] at hq
    obtain ⟨q0, _, rfl⟩ := hq
    exact markPaused_paused false _ q0 e he (by simpa using hqe)
  · rw [hpl2, hpl1, List.map_map, List.map_map]
    apply List.map_congr_left
    intro q _
    simp

/-- C7, amended, run on the pair (1, 2) with the output A configured: the first call
pauses. -/
theorem toggleSoundPlayback_pauses_then_resumes_witness :
    (Window.toggleSoundPlayback
        { pairedState with settings := { sampleSettings with outputs := ["A"] } }).1 = true :=
  (toggleSoundPlayback_pauses_then_resumes
      { pairedState with settings := { sampleSettings with outputs := ["A"] } }
      (by decide) (by decide)
      ⟨⟨1, 2⟩, by decide, sampleInstance 1 1 ⟨"default", true⟩, by decide, Or.inl rfl⟩).1

/-! ### What the steps of `playSound` leave unchanged -/

@[simp]
theorem moveOutputs_sounds (o : Oracle) (l : List String) (b : Bool) (s : State) :
    (Window.moveOutputs o l b s).2.sounds = s.sounds := by
  induction l generalizing b s with
  | nil => rfl
  | cons a rest ih => simp [Window.moveOutputs, ih]

@[simp]
theorem redirectOutputs_sounds (o : Oracle) (l r : List String) (s : State) :
    (Window.redirectOutputs o l r s).sounds = s.sounds := by
  induction r generalizing s with
  | nil => rfl
  | cons a rest ih =>
      simp only [Window.redirectOutputs, ih]
      split <;> simp

@[simp]
theorem moveOutputs_settings (o : Oracle) (l : List String) (b : Bool) (s : State) :
    (Window.moveOutputs o l b s).2.settings = s.settings := by
  induction l generalizing b s with
  | nil => rfl
  | cons a rest ih => simp [Window.moveOutputs, ih]

@[simp]
theorem redirectOutputs_settings (o : Oracle) (l r : List String) (s : State) :
    (Window.redirectOutputs o l r s).settings = s.settings := by
  induction r generalizing s with
  | nil => rfl
  | cons a rest ih =>
      simp only [Window.redirectOutputs, ih]
      split <;> simp

@[simp]
theorem moveOutputs_devices (o : Oracle) (l : List String) (b : Bool) (s : State) :
    (Window.moveOutputs o l b s).2.devices = s.devices := by
  induction l generalizing b s with
  | nil => rfl
  | cons a rest ih => simp [Window.moveOutputs, ih]

@[simp]
theorem redirectOutputs_devices (o : Oracle) (l r : List String) (s : State) :
    (Window.redirectOutputs o l r s).devices = s.devices := by
  induction r generalizing s with
  | nil => rfl
  | cons a rest ih =>
      simp only [Window.redirectOutputs, ih]
      split <;> simp

@[simp]
theorem moveOutputs_defaultDevice (o : Oracle) (l : List String) (b : Bool) (s : State) :
    (Window.moveOutputs o l b s).2.defaultDevice = s.defaultDevice := by
  induction l generalizing b s with
  | nil => rfl
  | cons a rest ih => simp [Window.moveOutputs, ih]

@[simp]
theorem redirectOutputs_defaultDevice (o : Oracle) (l r : List String) (s : State) :
    (Window.redirectOutputs o l r s).defaultDevice = s.defaultDevice := by
  induction r generalizing s with
  | nil => rfl
  | cons a rest ih =>
      simp only [Window.redirectOutputs, ih]
      split <;> simp

@[simp]
theorem moveOutputs_nullSink (o : Oracle) (l : List String) (b : Bool) (s : State) :
    (Window.moveOutputs o l b s).2.nullSink = s.nullSink := by
  induction l generalizing b s with
  | nil => rfl
  | cons a rest ih => simp [Window.moveOutputs, ih]

@[simp]
theorem redirectOutputs_nullSink (o : Oracle) (l r : List String) (s : State) :
    (Window.redirectOutputs o l r s).nullSink = s.nullSink := by
  induction r generalizing s with
  | nil => rfl
  | cons a rest ih =>
      simp only [Window.redirectOutputs, ih]
      split <;> simp

@[simp]
theorem moveOutputs_playing (o : Oracle) (l : List String) (b : Bool) (s : State) :
    (Window.moveOutputs o l b s).2.playing = s.playing := by
  induction l generalizing b s with
  | nil => rfl
  | cons a rest ih => simp [Window.moveOutputs, ih]

@[simp]
theorem redirectOutputs_playing (o : Oracle) (l r : List String) (s : State) :
    (Window.redirectOutputs o l r s).playing = s.playing := by
  induction r generalizing s with
  | nil => rfl
  | cons a rest ih =>
      simp only [Window.redirectOutputs, ih]
      split <;> simp

@[simp]
theorem moveOutputs_counter (o : Oracle) (l : List String) (b : Bool) (s : State) :
    (Window.moveOutputs o l b s).2.counter = s.counter := by
  induction l generalizing b s with
  | nil => rfl
  | cons a rest ih => simp [Window.moveOutputs, ih]

@[simp]
theorem redirectOutputs_counter (o : Oracle) (l r : List String) (s : State) :
    (Window.redirectOutputs o l r s).counter = s.counter := by
  induction r generalizing s with
  | nil => rfl
  | cons a rest ih =>
      simp only [Window.redirectOutputs, ih]
      split <;> simp

@[simp]
theorem moveOutputs_pendingStopAll (o : Oracle) (l : List String) (b : Bool) (s : State) :
    (Window.moveOutputs o l b s).2.pendingStopAll = s.pendingStopAll := by
  induction l generalizing b s with
  | nil => rfl
  | cons a rest ih => simp [Window.moveOutputs, ih]

@[simp]
theorem redirectOutputs_pendingStopAll (o : Oracle) (l r : List String) (s : State) :
    (Window.redirectOutputs o l r s).pendingStopAll = s.pendingStopAll := by
  induction r generalizing s with
  | nil => rfl
  | cons a rest ih =>
      simp only [Window.redirectOutputs, ih]
      split <;> simp

@[simp]
theorem moveOutputs_groupedSounds (o : Oracle) (l : List String) (b : Bool) (s : State) :
    (Window.moveOutputs o l b s).2.groupedSounds = s.groupedSounds := by
  induction l generalizing b s with
  | nil => rfl
  | cons a rest ih => simp [Window.moveOutputs, ih]

@[simp]
theorem redirectOutputs_groupedSounds (o : Oracle) (l r : List String) (s : State) :
    (Window.redirectOutputs o l r s).groupedSounds = s.groupedSounds := by
  induction r generalizing s with
  | nil => rfl
  | cons a rest ih =>
      simp only [Window.redirectOutputs, ih]
      split <;> simp

@[simp]
theorem moveOutputs_backend (o : Oracle) (l : List String) (b : Bool) (s : State) :
    (Window.moveOutputs o l b s).2.backend = s.backend := by
  induction l generalizing b s with
  | nil => rfl
  | cons a rest ih => simp [Window.moveOutputs, ih]

@[simp]
theorem redirectOutputs_backend (o : Oracle) (l r : List String) (s : State) :
    (Window.redirectOutputs o l r s).backend = s.backend := by
  induction r generalizing s with
  | nil => rfl
  | cons a rest ih =>
      simp only [Window.redirectOutputs, ih]
      split <;> simp

@[simp]
theorem moveOutputs_winMic (o : Oracle) (l : List String) (b : Bool) (s : State) :
    (Window.moveOutputs o l b s).2.winMic = s.winMic := by
  induction l generalizing b s with
  | nil => rfl
  | cons a rest ih => simp [Window.moveOutputs, ih]

@[simp]
theorem redirectOutputs_winMic (o : Oracle) (l r : List String) (s : State) :
    (Window.redirectOutputs o l r s).winMic = s.winMic := by
  induction r generalizing s with
  | nil => rfl
  | cons a rest ih =>
      simp only [Window.redirectOutputs, ih]
      split <;> simp

@[simp]
theorem preparePlay_sounds (p : Platform) (d : Bool) (o : Oracle) (s : State) :
    (Window.preparePlay p d o s).sounds = s.sounds := by
  unfold Window.preparePlay
  cases p <;> dsimp only <;> split_ifs <;> simp

@[simp]
theorem preparePlay_settings (p : Platform) (d : Bool) (o : Oracle) (s : State) :
    (Window.preparePlay p d o s).settings = s.settings := by
  unfold Window.preparePlay
  cases p <;> dsimp only <;> split_ifs <;> simp

@[simp]
theorem preparePlay_devices (p : Platform) (d : Bool) (o : Oracle) (s : State) :
    (Window.preparePlay p d o s).devices = s.devices := by
  unfold Window.preparePlay
  cases p <;> dsimp only <;> split_ifs <;> simp

@[simp]
theorem preparePlay_defaultDevice (p : Platform) (d : Bool) (o : Oracle) (s : State) :
    (Window.preparePlay p d o s).defaultDevice = s.defaultDevice := by
  unfold Window.preparePlay
  cases p <;> dsimp only <;> split_ifs <;> simp

@[simp]
theorem preparePlay_nullSink (p : Platform) (d : Bool) (o : Oracle) (s : State) :
    (Window.preparePlay p d o s).nullSink = s.nullSink := by
  unfold Window.preparePlay
  cases p <;> dsimp only <;> split_ifs <;> simp

@[simp]
theorem preparePlay_counter (p : Platform) (d : Bool) (o : Oracle) (s : State) :
    (Window.preparePlay p d o s).counter = s.counter := by
  unfold Window.preparePlay
  cases p <;> dsimp only <;> split_ifs <;> simp

@[simp]
theorem preparePlay_backend (p : Platform) (d : Bool) (o : Oracle) (s : State) :
    (Window.preparePlay p d o s).backend = s.backend := by
  unfold Window.preparePlay
  cases p <;> dsimp only <;> split_ifs <;> simp

@[simp]
theorem preparePlay_winMic (p : Platform) (d : Bool) (o : Oracle) (s : State) :
    (Window.preparePlay p d o s).winMic = s.winMic := by
  unfold Window.preparePlay
  cases p <;> dsimp only <;> split_ifs <;> simp

/-! ### End of the `playSound` frame lemmas -/

/-! ### The record of calls only grows -/

theorem Grows.refl (s : State) : Grows s s := ⟨[], by simp⟩

theorem Grows.trans {a b c : State} (h1 : Grows a b) (h2 : Grows b c) : Grows a c := by
  obtain ⟨x, hx⟩ := h1
  obtain ⟨y, hy⟩ := h2
  exact ⟨x ++ y, by rw [hy, hx, List.append_assoc]⟩

theorem Grows.of_calls_eq {a b : State} (h : b.calls = a.calls) : Grows a b := ⟨[], by simp [h]⟩

theorem onError_grows (e : ErrorCode) (s : State) : Grows s (s.onError e) := ⟨[], by simp [State.onError]⟩

theorem invoke_grows (o : Oracle) (c : Call) (s : State) : Grows s (s.invoke o c).2 := by
  refine ⟨[c], ?_⟩
  simp only [State.invoke]
  cases o c s.calls.length <;> cases c <;> rfl

theorem guarded_grows (o : Oracle) (c : Call) (e : ErrorCode) (s : State) :
    Grows s (s.guarded o c e) := by
  simp only [State.guarded]
  cases (s.invoke o c).1
  · exact (invoke_grows o c s).trans (onError_grows e _)
  · exact invoke_grows o c s

theorem pressKeys_grows (k : List Int) (s : State) : Grows s (s.pressKeys k) := ⟨[_], rfl⟩

theorem releaseKeys_grows (k : List Int) (s : State) : Grows s (s.releaseKeys k) := ⟨[_], rfl⟩

theorem onAllSoundsFinished_grows (p : Platform) (o : Oracle) (s : State) :
    Grows s (Window.onAllSoundsFinished p o s) := by
  unfold Window.onAllSoundsFinished
  have h1 : Grows s (if !s.settings.pushToTalkKeys.isEmpty then
      s.releaseKeys s.settings.pushToTalkKeys else s) := by
    split
    · exact releaseKeys_grows _ _
    · exact Grows.refl _
  refine h1.trans ?_
  cases p <;> dsimp only <;> split_ifs <;>
    first
    | exact Grows.refl _
    | exact guarded_grows _ _ _ _
    | exact (guarded_grows _ _ _ _).trans (guarded_grows _ _ _ _)

theorem play_grows (o : Oracle) (snd : Sound) (d : Option AudioDevice) (s : State) :
    Grows s (Audio.play o snd d s).2 := by
  refine ⟨[Call.play snd.id d], ?_⟩
  simp only [Audio.play]
  split <;> rfl

theorem stop_grows (id : Nat) (s : State) : Grows s (Audio.stop id s).2 := by
  refine ⟨[Call.stop id], ?_⟩
  simp only [Audio.stop]
  split <;> rfl

theorem stopSound_grows (p : Platform) (o : Oracle) (id : Nat) (s : State) :
    Grows s (Window.stopSound p o id s).2 := by
  have h1 : Grows s (Audio.stop id s).2 := stop_grows id s
  have h2 : ∀ r, Grows s
      { (Audio.stop r (Audio.stop id s).2).2 with
        groupedSounds := eraseGroup id (Audio.stop r (Audio.stop id s).2).2.groupedSounds } :=
    fun r => h1.trans ((stop_grows _ _).trans (Grows.of_calls_eq rfl))
  cases hd : Window.dualOutput s.settings <;> cases hf : findRemote id s.groupedSounds <;>
    simp only [Window.stopSound, hd, hf, Bool.false_and, Bool.true_and, Option.isNone_none,
      Option.isNone_some, if_true, if_false, Bool.false_eq_true] <;>
    (try split_ifs) <;>
    first
    | exact Grows.refl _
    | exact h1
    | exact h2 _
    | exact h1.trans (onAllSoundsFinished_grows p o _)
    | exact (h2 _).trans (onAllSoundsFinished_grows p o _)

theorem stopSounds_true_calls (p : Platform) (o : Oracle) (s : State) :
    ∃ post, (Window.stopSounds p o true s).calls = s.calls ++ Call.stopAll :: post := by
  have h0 : (Audio.stopAll s).calls = s.calls ++ [Call.stopAll] := rfl
  have h1 : Grows (Audio.stopAll s) (Window.stopSounds p o true s) := by
    unfold Window.stopSounds
    simp only [Bool.not_true, Bool.false_eq_true, if_false]
    have h2 := onAllSoundsFinished_grows p o (Audio.stopAll s)
    have h3 : Grows (Window.onAllSoundsFinished p o (Audio.stopAll s))
        { Window.onAllSoundsFinished p o (Audio.stopAll s) with groupedSounds := ∅ } :=
      Grows.of_calls_eq rfl
    refine (h2.trans h3).trans ?_
    cases p <;> dsimp only
    · split
      · exact (guarded_grows _ _ _ _).trans (guarded_grows _ _ _ _)
      · exact Grows.refl _
    · exact Grows.refl _
  obtain ⟨post, hpost⟩ := h1
  exact ⟨post, by rw [hpost, h0, List.append_assoc]; rfl⟩

theorem moveOutputs_grows (o : Oracle) (l : List String) (b : Bool) (s : State) :
    Grows s (Window.moveOutputs o l b s).2 := by
  induction l generalizing b s with
  | nil => exact Grows.refl _
  | cons a rest ih =>
      simp only [Window.moveOutputs]
      exact (invoke_grows o _ s).trans (ih _ _)

/-! ### The starts -/

theorem play_ok (o : Oracle) (snd : Sound) (d : Option AudioDevice) (s : State)
    (h : o (Call.play snd.id d) s.calls.length = true) :
    (Audio.play o snd d s).1 = some (Audio.newInstance snd d s) ∧
    (Audio.play o snd d s).2.playing = s.playing ++ [Audio.newInstance snd d s] ∧
    (Audio.play o snd d s).2.counter = s.counter + 1 := by
  simp [Audio.play, h]

theorem play_fail (o : Oracle) (snd : Sound) (d : Option AudioDevice) (s : State)
    (h : o (Call.play snd.id d) s.calls.length = false) :
    (Audio.play o snd d s).1 = none ∧
    (Audio.play o snd d s).2.playing = s.playing ∧
    (Audio.play o snd d s).2.counter = s.counter := by
  simp [Audio.play, h]

theorem play_cases (o : Oracle) (snd : Sound) (d : Option AudioDevice) (s : State) :
    ((Audio.play o snd d s).1 = none ∧
     (Audio.play o snd d s).2.playing = s.playing ∧
     (Audio.play o snd d s).2.counter = s.counter) ∨
    ((Audio.play o snd d s).1 = some (Audio.newInstance snd d s) ∧
     (Audio.play o snd d s).2.playing = s.playing ++ [Audio.newInstance snd d s] ∧
     (Audio.play o snd d s).2.counter = s.counter + 1) := by
  cases h : o (Call.play snd.id d) s.calls.length
  · exact Or.inl (play_fail o snd d s h)
  · exact Or.inr (play_ok o snd d s h)

@[simp]
theorem newInstance_id (snd : Sound) (d : Option AudioDevice) (s : State) :
    (Audio.newInstance snd d s).id = s.counter + 1 := rfl

@[simp]
theorem newInstance_sound (snd : Sound) (d : Option AudioDevice) (s : State) :
    (Audio.newInstance snd d s).sound = snd := rfl

/-- What a successful Linux start leaves behind. -/
theorem startLinux_success (o : Oracle) (snd : Sound) (s : State) (l : PlayingSound)
    (h : (Window.startLinux o snd s).1 = some l) :
    ∃ r : PlayingSound,
      (Window.startLinux o snd s).2.playing = s.playing ++ [l, r] ∧
      l.sound = snd ∧ r.sound = snd ∧ l.id = s.counter + 1 ∧ r.id = s.counter + 2 ∧
      (Window.startLinux o snd s).2.groupedSounds
        = insertGroup (s.counter + 1) (s.counter + 2) s.groupedSounds := by
  unfold Window.startLinux at h ⊢
  simp only [play_nullSink] at h ⊢
  rcases play_cases o snd none s with ⟨e1, p1, c1⟩ | ⟨e1, p1, c1⟩
  · simp only [e1] at h
    simp at h
  · rcases play_cases o snd (some s.nullSink) (Audio.play o snd none s).2
      with ⟨e2, p2, c2⟩ | ⟨e2, p2, c2⟩
    · simp only [e1, e2] at h
      simp at h
    · simp only [e1, e2] at h ⊢
      refine ⟨Audio.newInstance snd (some s.nullSink) (Audio.play o snd none s).2, ?_⟩
      split_ifs at h ⊢
      all_goals simp at h
      all_goals subst h
      all_goals simp [p1, p2, c1]

/-- What a successful non-Linux start leaves behind. -/
theorem startOther_success (o : Oracle) (snd : Sound) (s : State) (l : PlayingSound)
    (h : (Window.startOther o snd s).1 = some l) :
    l.sound = snd ∧ l.id = s.counter + 1 ∧
    (((Window.startOther o snd s).2.playing = s.playing ++ [l] ∧
      (Window.startOther o snd s).2.groupedSounds = s.groupedSounds) ∨
     ∃ r : PlayingSound,
      (Window.startOther o snd s).2.playing = s.playing ++ [l, r] ∧
      r.sound = snd ∧ r.id = s.counter + 2 ∧
      (Window.startOther o snd s).2.groupedSounds
        = insertGroup (s.counter + 1) (s.counter + 2) s.groupedSounds) := by
  unfold Window.startOther at h ⊢
  rcases play_cases o snd none s with ⟨e1, p1, c1⟩ | ⟨e1, p1, c1⟩
  · exfalso
    split_ifs at h
    · rw [e1] at h
      cases h
    · simp only [e1] at h
      split at h
      · split_ifs at h
      · simp at h
  · split_ifs at h ⊢
    · rw [e1] at h
      simp at h
      subst h
      simp [p1]
    · simp only [e1] at h ⊢
      split at h
      · rename_i device hdev
        split_ifs at h ⊢
        · rcases play_cases o snd (some device) (Audio.play o snd none s).2
            with ⟨e2, p2, c2⟩ | ⟨e2, p2, c2⟩
          · simp only [e2] at h
            simp at h
          · simp only [e2] at h ⊢
            simp at h
            subst h
            simp [p1, p2, c1]
        · simp at h
          subst h
          simp [p1]
      · simp at h
        subst h
        simp [p1]

theorem moveOutputs_all_fail (o : Oracle) (l : List String) (b : Bool) (s : State)
    (h : ∀ app n, o (Call.inputSoundTo app) n = false) :
    (Window.moveOutputs o l b s).1 = b := by
  induction l generalizing b s with
  | nil => rfl
  | cons a rest ih =>
      simp only [Window.moveOutputs]
      rw [ih]
      simp [State.invoke, h]

theorem stopSound_playing_subset (p : Platform) (o : Oracle) (id : Nat) (s : State)
    (q : PlayingSound) (hq : q ∈ (Window.stopSound p o id s).2.playing) : q ∈ s.playing := by
  rw [stopSound_playing] at hq
  split_ifs at hq
  · split at hq
    · exact hq
    · exact List.mem_of_mem_filter (List.mem_of_mem_filter hq)
  · exact List.mem_of_mem_filter hq

theorem stopSound_groupedSounds_subset (p : Platform) (o : Oracle) (id : Nat) (s : State)
    (k : Nat) (hk : k ∈ (Window.stopSound p o id s).2.groupedSounds) : k ∈ s.groupedSounds := by
  rw [stopSound_groupedSounds] at hk
  split_ifs at hk
  · split at hk
    · exact hk
    · simp only [eraseGroup, AList.mem_erase] at hk
      exact hk.2
  · exact hk

/-! ### The steps before the starts -/

theorem preparePlay_overlapping (p : Platform) (d : Bool) (o : Oracle) (s : State)
    (h : s.settings.allowOverlapping = true) :
    (Window.preparePlay p d o s).playing = s.playing ∧
    (Window.preparePlay p d o s).groupedSounds = s.groupedSounds := by
  unfold Window.preparePlay
  cases p <;>
    simp only [h, Bool.not_true, Bool.not_false, Bool.false_eq_true, if_false, if_true] <;>
    split_ifs <;> simp

theorem preparePlay_stops (p : Platform) (d : Bool) (o : Oracle) (s : State)
    (h : s.settings.allowOverlapping = false) :
    (Window.preparePlay p d o s).groupedSounds = ∅ ∧
    ((p = Platform.linux ∨ d = true) → (Window.preparePlay p d o s).playing = []) ∧
    ((p = Platform.linux ∨ d = true) →
      ∃ post, (Window.preparePlay p d o s).calls = s.calls ++ Call.stopAll :: post) := by
  have key : ∀ s1 : State, Grows s1
      (let s2 := if s1.settings.muteDuringPlayback then
              match p with
              | Platform.linux =>
                  if s1.backend then s1.guarded o (Call.muteInput true) ErrorCode.FailedToMute
                  else s1
              | Platform.windows =>
                  if s1.winMic then s1.guarded o (Call.micMute true) ErrorCode.FailedToMute
                  else s1
            else s1
       if !s2.settings.pushToTalkKeys.isEmpty then s2.pressKeys s2.settings.pushToTalkKeys
       else s2) := by
    intro s1
    cases p <;> dsimp only <;> split_ifs <;>
      first
      | exact Grows.refl _
      | exact guarded_grows _ _ _ _
      | exact pressKeys_grows _ _
      | exact (guarded_grows _ _ _ _).trans (pressKeys_grows _ _)
  refine ⟨?_, ?_, ?_⟩
  · unfold Window.preparePlay
    cases p <;>
      simp only [h, Bool.not_true, Bool.not_false, Bool.false_eq_true, if_false, if_true] <;>
      split_ifs <;> simp
  · intro hs
    unfold Window.preparePlay
    rcases hs with rfl | rfl
    · simp only [h, Bool.not_true, Bool.not_false, Bool.false_eq_true, if_false, if_true]
      split_ifs <;> simp
    · cases p <;>
        simp only [h, Bool.not_true, Bool.not_false, Bool.false_eq_true, if_false, if_true] <;>
        split_ifs <;> simp
  · intro hs
    have hstop : ∃ post, (Window.stopSounds p o true s).calls = s.calls ++ Call.stopAll :: post :=
      stopSounds_true_calls p o s
    obtain ⟨post, hpost⟩ := hstop
    have hg := key (Window.stopSounds p o true s)
    obtain ⟨post2, hpost2⟩ := hg
    refine ⟨post ++ post2, ?_⟩
    have : Window.preparePlay p d o s = _ := rfl
    unfold Window.preparePlay
    rcases hs with rfl | rfl
    · simp only [h, Bool.not_true, Bool.not_false, Bool.false_eq_true, if_false, if_true]
      rw [hpost] at hpost2
      simpa using hpost2
    · cases p <;>
        simp only [h, Bool.not_true, Bool.not_false, Bool.false_eq_true, if_false, if_true] <;>
        rw [hpost] at hpost2 <;> simpa using hpost2

theorem Grows.congr_right {a b c : State} (h : Grows a b) (hc : c.calls = b.calls) :
    Grows a c := by
  obtain ⟨x, hx⟩ := h
  exact ⟨x, by rw [hc, hx]⟩

theorem startLinux_grows (o : Oracle) (snd : Sound) (s : State) :
    Grows s (Window.startLinux o snd s).2 := by
  unfold Window.startLinux
  simp only [play_nullSink]
  have g1 := play_grows o snd none s
  have g2 := g1.trans (play_grows o snd (some s.nullSink) (Audio.play o snd none s).2)
  split
  · split_ifs
    · exact g2.congr_right rfl
    · refine Grows.trans ?_ (onError_grows _ _)
      refine Grows.trans ?_ (stopSound_grows _ _ _ _)
      refine Grows.trans ?_ (stopSound_grows _ _ _ _)
      refine Grows.trans ?_ (moveOutputs_grows _ _ _ _)
      exact g2.congr_right rfl
    · refine Grows.trans ?_ (moveOutputs_grows _ _ _ _)
      exact g2.congr_right rfl
    · refine Grows.trans ?_ (onError_grows _ _)
      exact g2.congr_right rfl
  · exact g2.trans (onError_grows _ _)

theorem startOther_grows (o : Oracle) (snd : Sound) (s : State) :
    Grows s (Window.startOther o snd s).2 := by
  unfold Window.startOther
  have g1 := play_grows o snd none s
  split_ifs
  · exact g1
  · dsimp only
    split
    · rename_i device _
      have g2 := g1.trans (play_grows o snd (some device) (Audio.play o snd none s).2)
      split_ifs
      · split
        · exact g2.congr_right rfl
        · refine Grows.trans ?_ (onError_grows _ _)
          split <;> split <;>
            first
            | exact g2
            | exact g2.trans (stopSound_grows _ _ _ _)
            | exact (g2.trans (stopSound_grows _ _ _ _)).trans (stopSound_grows _ _ _ _)
      · exact g1
    · exact g1

/-- C8 fails as stated: on Linux, with overlapping not allowed and the pair (1, 2) of the clip 1
playing, a successful `playSound(2)` leaves two playing instances of the clip 2, the local one
and the remote one. -/
theorem no_overlap_leaves_two_instances :
    (Window.playSound Platform.linux true allOk 2
        { pairedState with settings := { sampleSettings with allowOverlapping := false } }).1.isSome
      = true ∧
    (Window.playSound Platform.linux true allOk 2
        { pairedState with settings := { sampleSettings with allowOverlapping := false }
        }).2.playing.map (fun q => (q.id, q.sound.id)) = [(3, 2), (4, 2)] := by
  refine ⟨by decide, by decide⟩

/-- C10 fails as stated: with the output A configured and `useAsDefaultDevice` on, both starts
succeed and the redirection fails; `playSound` returns nothing and stops both instances, but
the entry of the local instance 1 stays in the registry. -/
theorem playSound_rollback_keeps_entry :
    (Window.playSoundLinux moveFails 1
        { sampleState with
          settings := { sampleSettings with outputs := ["A"], useAsDefaultDevice := true } }).1
      = none ∧
    (Window.playSoundLinux moveFails 1
        { sampleState with
          settings := { sampleSettings with outputs := ["A"], useAsDefaultDevice := true }
        }).2.playing = [] ∧
    (Window.playSoundLinux moveFails 1
        { sampleState with
          settings := { sampleSettings with outputs := ["A"], useAsDefaultDevice := true }
        }).2.groupedSounds.entries = [⟨1, 2⟩] := by
  refine ⟨by decide, by decide, by decide⟩

/-- The rollback of the Linux start: from a state with outputs configured, `useAsDefaultDevice`
off, a backend and no entry for the next id, when both starts succeed and every redirection
fails. -/
theorem startLinux_rollback (o : Oracle) (snd : Sound) (s : State)
    (hout : s.settings.outputs ≠ [])
    (hu : s.settings.useAsDefaultDevice = false)
    (hb : s.backend = true)
    (hk : s.counter + 1 ∉ s.groupedSounds)
    (hplay : ∀ d n, o (Call.play snd.id d) n = true)
    (hmove : ∀ app n, o (Call.inputSoundTo app) n = false) :
    (Window.startLinux o snd s).1 = none ∧
    ErrorCode.FailedToMoveToSink ∈ (Window.startLinux o snd s).2.errors ∧
    (∀ q ∈ (Window.startLinux o snd s).2.playing, q.id ≠ s.counter + 1 ∧ q.id ≠ s.counter + 2) ∧
    s.counter + 1 ∉ (Window.startLinux o snd s).2.groupedSounds := by
  have hd : Window.dualOutput s.settings = true := by
    cases ho : s.settings.outputs with
    | nil => exact absurd ho hout
    | cons a l => simp [Window.dualOutput, ho, hu]
  obtain ⟨e1, p1, c1⟩ := play_ok o snd none s (hplay _ _)
  obtain ⟨e2, p2, c2⟩ := play_ok o snd (some s.nullSink) (Audio.play o snd none s).2 (hplay _ _)
  have hoe : s.settings.outputs.isEmpty = false := by
    cases ho : s.settings.outputs with
    | nil => exact absurd ho hout
    | cons a l => rfl
  unfold Window.startLinux
  simp only [play_nullSink, e1, e2]
  generalize hs4 : State.insertGrouped (Audio.newInstance snd none s).id
      (Audio.newInstance snd (some s.nullSink) (Audio.play o snd none s).2).id
      (Audio.play o snd (some s.nullSink) (Audio.play o snd none s).2).2 = s4
  have h4set : s4.settings = s.settings := by rw [← hs4]; simp
  have h4b : s4.backend = true := by rw [← hs4]; simpa using hb
  have h4g : s4.groupedSounds = insertGroup (s.counter + 1) (s.counter + 2) s.groupedSounds := by
    rw [← hs4]; simp [c1]
  simp only [h4set, hoe, h4b, if_true, Bool.false_eq_true, if_false,
    moveOutputs_all_fail o _ _ _ hmove, Bool.not_false]
  generalize hm : (Window.moveOutputs o s.settings.outputs false s4).2 = m
  have hmset : m.settings = s.settings := by rw [← hm]; simpa using h4set
  have hmg : m.groupedSounds = insertGroup (s.counter + 1) (s.counter + 2) s.groupedSounds := by
    rw [← hm]; simpa using h4g
  have hfind : findRemote (s.counter + 1) m.groupedSounds = some (s.counter + 2) := by
    rw [hmg]
    simp [findRemote, insertGroup, hk]
  have hd5 : Window.dualOutput m.settings = true := by rw [hmset]; exact hd
  have h5p : ∀ q ∈ (Window.stopSound Platform.linux o (s.counter + 1) m).2.playing,
      q.id ≠ s.counter + 1 ∧ q.id ≠ s.counter + 2 := by
    intro q hq
    rw [stopSound_playing, hd5, hfind] at hq
    simp at hq
    exact ⟨hq.2.2, hq.2.1⟩
  have h5g : s.counter + 1 ∉ (Window.stopSound Platform.linux o (s.counter + 1) m).2.groupedSounds := by
    rw [stopSound_groupedSounds, hd5, hfind]
    simp [eraseGroup]
  simp only [newInstance_id, c1]
  refine ⟨trivial, by simp [State.onError], ?_, ?_⟩
  · intro q hq
    exact h5p q (stopSound_playing_subset _ _ _ _ q (by simpa using hq))
  · intro hk2
    exact h5g (stopSound_groupedSounds_subset _ _ _ _ _ (by simpa using hk2))

/-- C10, amended: in the Linux `playSound`, from a state with a backend, a non-empty `outputs`
list, `useAsDefaultDevice` off and registry keys among the ids already given out, when both
starts succeed and the redirection fails for every output application, the call returns
nothing, signals `FailedToMoveToSink`, and on return neither the local instance (the next id)
nor the remote instance (the id after) is playing and the registry has no entry for the local
id. -/
theorem playSound_redirect_rollback (o : Oracle) (id : Nat) (s : State) (sound : Sound)
    (hs : getSound id s = some sound)
    (hout : s.settings.outputs ≠ [])
    (hu : s.settings.useAsDefaultDevice = false)
    (hb : s.backend = true)
    (hkeys : ∀ k ∈ s.groupedSounds, k ≤ s.counter)
    (hplay : ∀ d n, o (Call.play sound.id d) n = true)
    (hmove : ∀ app n, o (Call.inputSoundTo app) n = false) :
    (Window.playSoundLinux o id s).1 = none ∧
    ErrorCode.FailedToMoveToSink ∈ (Window.playSoundLinux o id s).2.errors ∧
    (∀ q ∈ (Window.playSoundLinux o id s).2.playing,
      q.id ≠ s.counter + 1 ∧ q.id ≠ s.counter + 2) ∧
    s.counter + 1 ∉ (Window.playSoundLinux o id s).2.groupedSounds := by
  have hk : (Window.preparePlay Platform.linux true o s).counter + 1
      ∉ (Window.preparePlay Platform.linux true o s).groupedSounds := by
    rw [preparePlay_counter]
    cases ha : s.settings.allowOverlapping
    · rw [(preparePlay_stops Platform.linux true o s ha).1]
      exact AList.not_mem_empty _
    · rw [(preparePlay_overlapping Platform.linux true o s ha).2]
      intro hmem
      have := hkeys _ hmem
      omega
  have h := startLinux_rollback o sound (Window.preparePlay Platform.linux true o s)
    (by simpa using hout) (by simpa using hu) (by simpa using hb) hk hplay hmove
  simp only [preparePlay_counter] at h
  simp only [Window.playSoundLinux, hs]
  exact h

/-- C10, amended, run on the sample state with the output A configured while every redirection
fails. -/
theorem playSound_redirect_rollback_witness :
    (Window.playSoundLinux moveFails 1
        { sampleState with settings := { sampleSettings with outputs := ["A"] } }).1 = none ∧
    1 ∉ (Window.playSoundLinux moveFails 1
        { sampleState with settings := { sampleSettings with outputs := ["A"] } }).2.groupedSounds :=
  ⟨(playSound_redirect_rollback moveFails 1
      { sampleState with settings := { sampleSettings with outputs := ["A"] } } (sampleSound 1)
      (by decide) (by decide) (by decide) (by decide)
      (fun k hk => absurd hk (AList.not_mem_empty k))
      (fun _ _ => rfl) (fun _ _ => rfl)).1,
   (playSound_redirect_rollback moveFails 1
      { sampleState with settings := { sampleSettings with outputs := ["A"] } } (sampleSound 1)
      (by decide) (by decide) (by decide) (by decide)
      (fun k hk => absurd hk (AList.not_mem_empty k))
      (fun _ _ => rfl) (fun _ _ => rfl)).2.2.2⟩

/-! ### The registry invariant -/

theorem Inv.congr {s t : State} (h : Inv s) (h1 : t.settings = s.settings)
    (h2 : t.playing.map PlayingSound.id = s.playing.map PlayingSound.id)
    (h3 : t.groupedSounds = s.groupedSounds) (h4 : t.counter = s.counter) : Inv t := by
  unfold Inv at h ⊢
  rw [h1, h2, h3, h4]
  exact h

theorem Inv.mono {s t : State} (h : Inv s) (h1 : t.settings = s.settings)
    (h2 : ∀ k ∈ s.playing.map PlayingSound.id, k ∈ t.playing.map PlayingSound.id)
    (h3 : t.groupedSounds = s.groupedSounds) (h4 : s.counter ≤ t.counter) : Inv t := by
  obtain ⟨a, b, c⟩ := h
  refine ⟨by rw [h1]; exact a, ?_, ?_⟩
  · intro k hk
    rw [h3] at hk
    exact ⟨h2 k (b k hk).1, le_trans (b k hk).2 h4⟩
  · intro k v hv
    rw [h3] at hv ⊢
    exact ⟨le_trans (c k v hv).1 h4, (c k v hv).2⟩

theorem Inv.of_empty {t : State} (h1 : Window.dualOutput t.settings = true)
    (h2 : t.groupedSounds = ∅) : Inv t := by
  refine ⟨h1, ?_, ?_⟩
  · intro k hk
    rw [h2] at hk
    exact absurd hk (AList.not_mem_empty k)
  · intro k v hv
    rw [h2] at hv
    simp at hv

theorem Inv.erase {s t : State} (h : Inv s) (id : Nat) (h1 : t.settings = s.settings)
    (h2 : ∀ k ∈ s.playing.map PlayingSound.id, k ≠ id → k ∈ s.groupedSounds →
      k ∈ t.playing.map PlayingSound.id)
    (h3 : t.groupedSounds = eraseGroup id s.groupedSounds) (h4 : t.counter = s.counter) :
    Inv t := by
  obtain ⟨a, b, c⟩ := h
  refine ⟨by rw [h1]; exact a, ?_, ?_⟩
  · intro k hk
    rw [h3] at hk
    simp only [eraseGroup, AList.mem_erase] at hk
    rw [h4]
    exact ⟨h2 k (b k hk.2).1 hk.1 hk.2, (b k hk.2).2⟩
  · intro k v hv
    rw [h3] at hv ⊢
    rw [h4]
    by_cases hk : k = id
    · subst hk
      simp [eraseGroup] at hv
    · simp only [eraseGroup, AList.lookup_erase_ne hk] at hv
      refine ⟨(c k v hv).1, ?_⟩
      simp only [eraseGroup, AList.mem_erase, not_and]
      intro _
      exact (c k v hv).2

theorem Inv.stopSound {s : State} (h : Inv s) (p : Platform) (o : Oracle) (id : Nat) :
    Inv (Window.stopSound p o id s).2 := by
  have hd := h.1
  cases hf : findRemote id s.groupedSounds with
  | none =>
      refine h.congr (by simp) ?_ ?_ (by simp)
      · rw [stopSound_playing, hd, hf]
        simp
      · rw [stopSound_groupedSounds, hd, hf]
        simp
  | some r =>
      refine h.erase id (by simp) ?_ ?_ (by simp)
      · intro k hk hne hmem
        rw [stopSound_playing, hd, hf]
        simp only [if_true]
        rw [List.mem_map] at hk ⊢
        obtain ⟨q, hq, rfl⟩ := hk
        refine ⟨q, ?_, rfl⟩
        have hr : q.id ≠ r := by
          intro e
          have := (h.2.2 id r hf).2
          rw [← e] at this
          exact this hmem
        simp [hq, hne, hr]
      · rw [stopSound_groupedSounds, hd, hf]
        simp

theorem Inv.insert {s t : State} (h : Inv s) (h1 : t.settings = s.settings)
    (h2 : ∀ k ∈ s.playing.map PlayingSound.id, k ∈ t.playing.map PlayingSound.id)
    (hl : s.counter + 1 ∈ t.playing.map PlayingSound.id)
    (h3 : t.groupedSounds = insertGroup (s.counter + 1) (s.counter + 2) s.groupedSounds)
    (h4 : t.counter = s.counter + 2) : Inv t := by
  obtain ⟨a, b, c⟩ := h
  have hnew : s.counter + 1 ∉ s.groupedSounds := by
    intro hm
    have := (b _ hm).2
    omega
  have hins : insertGroup (s.counter + 1) (s.counter + 2) s.groupedSounds
      = s.groupedSounds.insert (s.counter + 1) (s.counter + 2) := by
    simp [insertGroup, hnew]
  rw [hins] at h3
  refine ⟨by rw [h1]; exact a, ?_, ?_⟩
  · intro k hk
    rw [h3, AList.mem_insert] at hk
    rw [h4]
    rcases hk with rfl | hk
    · exact ⟨hl, by omega⟩
    · exact ⟨h2 k (b k hk).1, by have := (b k hk).2; omega⟩
  · intro k v hv
    rw [h3] at hv ⊢
    rw [h4, AList.mem_insert]
    by_cases hk : k = s.counter + 1
    · subst hk
      rw [AList.lookup_insert] at hv
      have hv2 : s.counter + 2 = v := by simpa using hv
      subst hv2
      refine ⟨le_refl _, ?_⟩
      rintro (h5 | h5)
      · omega
      · have := (b _ h5).2
        omega
    · rw [AList.lookup_insert_ne hk] at hv
      have := c k v hv
      refine ⟨by omega, ?_⟩
      rintro (h5 | h5)
      · omega
      · exact this.2 h5

theorem Inv.preparePlay {s : State} (h : Inv s) (p : Platform) (d : Bool) (o : Oracle) :
    Inv (Window.preparePlay p d o s) := by
  cases ha : s.settings.allowOverlapping
  · exact Inv.of_empty (by simpa using h.1) (preparePlay_stops p d o s ha).1
  · obtain ⟨h1, h2⟩ := preparePlay_overlapping p d o s ha
    exact h.congr (by simp) (by rw [h1]) h2 (by simp)

theorem Inv.onError {s : State} (h : Inv s) (e : ErrorCode) : Inv (s.onError e) :=
  h.congr rfl rfl rfl rfl

theorem Inv.startLinux {s : State} (h : Inv s) (o : Oracle) (snd : Sound) :
    Inv (Window.startLinux o snd s).2 := by
  have hoe : s.settings.outputs.isEmpty = false := by
    have := h.1
    simp only [Window.dualOutput, Bool.and_eq_true, Bool.not_eq_true'] at this
    exact this.1
  unfold Window.startLinux
  simp only [play_nullSink]
  rcases play_cases o snd none s with ⟨e1, p1, c1⟩ | ⟨e1, p1, c1⟩
  · simp only [e1]
    refine Inv.onError ?_ _
    rcases play_cases o snd (some s.nullSink) (Audio.play o snd none s).2
      with ⟨e2, p2, c2⟩ | ⟨e2, p2, c2⟩
    · exact h.congr (by simp) (by rw [p2, p1]) (by simp) (by rw [c2, c1])
    · refine h.mono (by simp) ?_ (by simp) (by rw [c2, c1]; omega)
      intro k hk
      rw [p2, p1, List.map_append]
      exact List.mem_append_left _ hk
  · rcases play_cases o snd (some s.nullSink) (Audio.play o snd none s).2
      with ⟨e2, p2, c2⟩ | ⟨e2, p2, c2⟩
    · simp only [e1, e2]
      refine Inv.onError ?_ _
      refine h.mono (by simp) ?_ (by simp) (by rw [c2, c1]; omega)
      intro k hk
      rw [p2, p1, List.map_append]
      exact List.mem_append_left _ hk
    · simp only [e1, e2]
      generalize hs4 : State.insertGrouped (Audio.newInstance snd none s).id
        (Audio.newInstance snd (some s.nullSink) (Audio.play o snd none s).2).id
        (Audio.play o snd (some s.nullSink) (Audio.play o snd none s).2).2 = s4
      have h4 : Inv s4 := by
        refine h.insert (by rw [← hs4]; simp) ?_ ?_ (by rw [← hs4]; simp [c1])
          (by rw [← hs4]; simp [c2, c1])
        · intro k hk
          rw [← hs4]
          simp only [insertGrouped_playing, p2, p1, List.map_append]
          exact List.mem_append_left _ (List.mem_append_left _ hk)
        · rw [← hs4]
          simp [p2, p1]
      have h4set : s4.settings = s.settings := by rw [← hs4]; simp
      simp only [h4set, hoe, Bool.false_eq_true, if_false]
      have hm : Inv (Window.moveOutputs o s.settings.outputs false s4).2 :=
        h4.congr (by simp) (by simp) (by simp) (by simp)
      split_ifs
      · exact ((hm.stopSound _ _ _).stopSound _ _ _).onError _
      · exact hm
      · exact h4.onError _

theorem Inv.startOther {s : State} (h : Inv s) (o : Oracle) (snd : Sound) :
    Inv (Window.startOther o snd s).2 := by
  have hgate : (s.settings.outputs.isEmpty && !s.settings.useAsDefaultDevice) = false := by
    have := h.1
    simp only [Window.dualOutput, Bool.and_eq_true, Bool.not_eq_true'] at this
    simp [this.1]
  have hone : Inv (Audio.play o snd none s).2 := by
    rcases play_cases o snd none s with ⟨e1, p1, c1⟩ | ⟨e1, p1, c1⟩
    · exact h.congr (by simp) (by rw [p1]) (by simp) c1
    · refine h.mono (by simp) ?_ (by simp) (by rw [c1]; omega)
      intro k hk
      rw [p1, List.map_append]
      exact List.mem_append_left _ hk
  unfold Window.startOther
  simp only [hgate, Bool.false_eq_true, if_false]
  split
  · rename_i device _
    split_ifs
    · rcases play_cases o snd none s with ⟨e1, p1, c1⟩ | ⟨e1, p1, c1⟩
      · simp only [e1]
        refine Inv.onError ?_ _
        have htwo : Inv (Audio.play o snd (some device) (Audio.play o snd none s).2).2 := by
          rcases play_cases o snd (some device) (Audio.play o snd none s).2
            with ⟨e2, p2, c2⟩ | ⟨e2, p2, c2⟩
          · exact hone.congr (by simp) (by rw [p2]) (by simp) c2
          · refine hone.mono (by simp) ?_ (by simp) (by rw [c2]; omega)
            intro k hk
            rw [p2, List.map_append]
            exact List.mem_append_left _ hk
        split
        · exact htwo.stopSound _ _ _
        · exact htwo
      · rcases play_cases o snd (some device) (Audio.play o snd none s).2
          with ⟨e2, p2, c2⟩ | ⟨e2, p2, c2⟩
        · simp only [e1, e2]
          refine Inv.onError ?_ _
          have htwo : Inv (Audio.play o snd (some device) (Audio.play o snd none s).2).2 :=
            hone.congr (by simp) (by rw [p2]) (by simp) c2
          exact htwo.stopSound _ _ _
        · simp only [e1, e2]
          refine h.insert (by simp) ?_ ?_ (by simp [c1]) (by simp [c2, c1])
          · intro k hk
            simp only [insertGrouped_playing, p2, p1, List.map_append]
            exact List.mem_append_left _ (List.mem_append_left _ hk)
          · simp [p2, p1]
    · exact hone
  · exact hone

theorem Inv.playSound {s : State} (h : Inv s) (p : Platform) (d : Bool) (o : Oracle) (id : Nat) :
    Inv (Window.playSound p d o id s).2 := by
  cases p
  · simp only [Window.playSound, Window.playSoundLinux]
    split
    · exact h.onError _
    · exact (h.preparePlay _ _ _).startLinux _ _
  · simp only [Window.playSound, Window.playSoundOther]
    split
    · exact h.onError _
    · exact (h.preparePlay _ _ _).startOther _ _

theorem pause_ids (id : Nat) (s : State) :
    (Audio.pause id s).2.playing.map PlayingSound.id = s.playing.map PlayingSound.id := by
  rw [pause_playing, List.map_map]
  apply List.map_congr_left
  intro q _
  simp only [Function.comp]
  split <;> rfl

theorem resume_ids (id : Nat) (s : State) :
    (Audio.resume id s).2.playing.map PlayingSound.id = s.playing.map PlayingSound.id := by
  rw [resume_playing, List.map_map]
  apply List.map_congr_left
  intro q _
  simp only [Function.comp]
  split <;> rfl

theorem Inv.pauseSound {s : State} (h : Inv s) (id : Nat) : Inv (Window.pauseSound id s).2 := by
  have h1 : Inv (Audio.pause id s).2 := h.congr (by simp) (pause_ids id s) (by simp) (by simp)
  have h2 : ∀ r, Inv (Audio.pause r (Audio.pause id s).2).2 :=
    fun r => h1.congr (by simp) (pause_ids r _) (by simp) (by simp)
  unfold Window.pauseSound
  dsimp only
  split <;> split <;>
    first
    | exact h1
    | exact h2 _

theorem Inv.resumeSound {s : State} (h : Inv s) (id : Nat) : Inv (Window.resumeSound id s).2 := by
  have h1 : Inv (Audio.resume id s).2 := h.congr (by simp) (resume_ids id s) (by simp) (by simp)
  have h2 : ∀ r, Inv (Audio.resume r (Audio.resume id s).2).2 :=
    fun r => h1.congr (by simp) (resume_ids r _) (by simp) (by simp)
  unfold Window.resumeSound
  dsimp only
  split <;> split <;>
    first
    | exact h1
    | exact h2 _

theorem Inv.stopSounds {s : State} (h : Inv s) (p : Platform) (o : Oracle) (sync : Bool) :
    Inv (Window.stopSounds p o sync s) :=
  Inv.of_empty (by simpa using h.1) (by simp)

theorem Inv.onSoundFinished {s : State} (h : Inv s) (p : Platform) (o : Oracle)
    (sound : PlayingSound) : Inv (Window.onSoundFinished p o sound s) := by
  have h1 : Inv (s.eraseGrouped sound.id) :=
    h.erase sound.id rfl (fun k hk _ _ => hk) rfl rfl
  unfold Window.onSoundFinished
  cases hc : (findRemote sound.id s.groupedSounds).isSome
  · simp only [Bool.false_eq_true, if_false]
    split_ifs
    · exact h.congr (by simp) (by simp) (by simp) (by simp)
    · exact h
  · simp only [if_true]
    split_ifs
    · exact h1.congr (by simp) (by simp) (by simp) (by simp)
    · exact h1

/-- The part of a state on which the registry invariant depends is kept, or the registry is
emptied. -/
theorem applyVolumes_ids (a b : Settings) (s : State) :
    (Window.applyVolumes a b s).settings = s.settings ∧
    (Window.applyVolumes a b s).counter = s.counter ∧
    (Window.applyVolumes a b s).groupedSounds = s.groupedSounds ∧
    (Window.applyVolumes a b s).playing.map PlayingSound.id = s.playing.map PlayingSound.id := by
  unfold Window.applyVolumes
  split_ifs
  · refine ⟨rfl, rfl, rfl, ?_⟩
    simp only [List.map_map]
    rfl
  · exact ⟨rfl, rfl, rfl, rfl⟩

theorem swapBackend_core (o : Oracle) (a b : Settings) (s : State) :
    (Window.swapBackend o a b s).settings = s.settings ∧
    (Window.swapBackend o a b s).counter = s.counter ∧
    ((Window.swapBackend o a b s).groupedSounds = ∅ ∨
      ((Window.swapBackend o a b s).groupedSounds = s.groupedSounds ∧
       (Window.swapBackend o a b s).playing = s.playing)) := by
  unfold Window.swapBackend
  split_ifs
  · dsimp only
    split_ifs <;> simp
  · exact ⟨rfl, rfl, Or.inr ⟨rfl, rfl⟩⟩

theorem reconcileMute_core (o : Oracle) (a b : Settings) (s : State) :
    (Window.reconcileMute o a b s).settings = s.settings ∧
    (Window.reconcileMute o a b s).counter = s.counter ∧
    (Window.reconcileMute o a b s).groupedSounds = s.groupedSounds ∧
    (Window.reconcileMute o a b s).playing = s.playing := by
  unfold Window.reconcileMute
  split_ifs <;> simp

theorem reconcileMic_core (o : Oracle) (a b : Settings) (s : State) :
    (Window.reconcileMic o a b s).settings = s.settings ∧
    (Window.reconcileMic o a b s).counter = s.counter ∧
    (Window.reconcileMic o a b s).groupedSounds = s.groupedSounds ∧
    (Window.reconcileMic o a b s).playing = s.playing := by
  unfold Window.reconcileMic
  split_ifs <;> simp

theorem reconcileDefault_core (o : Oracle) (a b : Settings) (s : State)
    (hu : b.useAsDefaultDevice = false) :
    (Window.reconcileDefault o a b s).settings = s.settings ∧
    (Window.reconcileDefault o a b s).counter = s.counter ∧
    (Window.reconcileDefault o a b s).groupedSounds = s.groupedSounds ∧
    (Window.reconcileDefault o a b s).playing = s.playing := by
  unfold Window.reconcileDefault
  simp only [hu, Bool.not_false, Bool.true_and, Bool.false_and, Bool.false_eq_true, if_false]
  split_ifs <;> simp

theorem reconcileOutputs_core (o : Oracle) (a b : Settings) (s : State) :
    (Window.reconcileOutputs o a b s).settings = s.settings ∧
    (Window.reconcileOutputs o a b s).counter = s.counter ∧
    (Window.reconcileOutputs o a b s).groupedSounds = s.groupedSounds ∧
    (Window.reconcileOutputs o a b s).playing = s.playing := by
  unfold Window.reconcileOutputs
  split_ifs <;> simp

theorem changeSettings_frame (p : Platform) (o : Oracle) (st : Settings) (s : State)
    (hu : st.useAsDefaultDevice = false) :
    (Window.changeSettings p o st s).2.settings = st ∧
    (Window.changeSettings p o st s).2.counter = s.counter ∧
    ((Window.changeSettings p o st s).2.groupedSounds = ∅ ∨
      ((Window.changeSettings p o st s).2.groupedSounds = s.groupedSounds ∧
        (Window.changeSettings p o st s).2.playing.map PlayingSound.id
          = s.playing.map PlayingSound.id)) := by
  obtain ⟨v1, v2, v3, v4⟩ := applyVolumes_ids s.settings st { s with settings := st }
  unfold Window.changeSettings
  cases p
  · dsimp only
    obtain ⟨b1, b2, b3⟩ := swapBackend_core o s.settings st
      (Window.applyVolumes s.settings st { s with settings := st })
    split_ifs
    · generalize Window.swapBackend o s.settings st
        (Window.applyVolumes s.settings st { s with settings := st }) = s2 at b1 b2 b3 ⊢
      obtain ⟨m1, m2, m3, m4⟩ := reconcileMute_core o s.settings st s2
      generalize Window.reconcileMute o s.settings st s2 = s3 at m1 m2 m3 m4 ⊢
      obtain ⟨d1, d2, d3, d4⟩ := reconcileDefault_core o s.settings st s3 hu
      generalize Window.reconcileDefault o s.settings st s3 = s4 at d1 d2 d3 d4 ⊢
      obtain ⟨o1, o2, o3, o4⟩ := reconcileOutputs_core o s.settings st s4
      generalize Window.reconcileOutputs o s.settings st s4 = s5 at o1 o2 o3 o4 ⊢
      refine ⟨by rw [o1, d1, m1, b1, v1], by rw [o2, d2, m2, b2, v2], ?_⟩
      rcases b3 with b3 | ⟨b3, b4⟩
      · exact Or.inl (by rw [o3, d3, m3, b3])
      · exact Or.inr ⟨by rw [o3, d3, m3, b3, v3], by rw [o4, d4, m4, b4, v4]⟩
    · refine ⟨by rw [b1, v1], by rw [b2, v2], ?_⟩
      rcases b3 with b3 | ⟨b3, b4⟩
      · exact Or.inl b3
      · exact Or.inr ⟨by rw [b3, v3], by rw [b4, v4]⟩
  · dsimp only
    obtain ⟨m1, m2, m3, m4⟩ := reconcileMic_core o s.settings st
      (Window.applyVolumes s.settings st { s with settings := st })
    exact ⟨by rw [m1, v1], by rw [m2, v2], Or.inr ⟨by rw [m3, v3], by rw [m4, v4]⟩⟩

theorem Inv.changeSettings {s : State} (h : Inv s) (p : Platform) (o : Oracle) (st : Settings)
    (hst : Window.dualOutput st = true) : Inv (Window.changeSettings p o st s).2 := by
  have hu : st.useAsDefaultDevice = false := by
    simp only [Window.dualOutput, Bool.and_eq_true, Bool.not_eq_true'] at hst
    simpa using hst.2
  obtain ⟨h1, h2, h3⟩ := changeSettings_frame p o st s hu
  rcases h3 with h3 | ⟨h3, h4⟩
  · exact Inv.of_empty (by rw [h1]; exact hst) h3
  · have h0 : Inv ({ s with settings := st } : State) := ⟨hst, h.2.1, h.2.2⟩
    exact h0.congr h1 h4 h3 h2

/-- C11: with `outputs` non-empty, `useAsDefaultDevice` off and no key `id` in the registry,
`stopSound(id)` returns false and leaves the whole state as it was: no call is recorded (no
engine stop, nothing of the all-finished sequence), the playing list and the registry are
unchanged, whether or not an instance with the id is playing. -/
theorem stopSound_without_mapping (p : Platform) (o : Oracle) (id : Nat) (s : State)
    (hout : s.settings.outputs ≠ [])
    (hu : s.settings.useAsDefaultDevice = false)
    (hk : id ∉ s.groupedSounds) :
    Window.stopSound p o id s = (false, s) := by
  have hd : Window.dualOutput s.settings = true := by
    cases ho : s.settings.outputs with
    | nil => exact absurd ho hout
    | cons a l => simp [Window.dualOutput, ho, hu]
  have hf : findRemote id s.groupedSounds = none := AList.lookup_eq_none.mpr hk
  simp [Window.stopSound, hd, hf]

/-- C11, run on a state with the output A configured in which the instance 1 is playing
without an entry in the registry. -/
theorem stopSound_without_mapping_witness :
    Window.stopSound Platform.linux allOk 1
        { sampleState with settings := { sampleSettings with outputs := ["A"] },
                           playing := [sampleInstance 1 1 ⟨"default", true⟩] }
      = (false,
         { sampleState with settings := { sampleSettings with outputs := ["A"] },
                            playing := [sampleInstance 1 1 ⟨"default", true⟩] }) :=
  stopSound_without_mapping Platform.linux allOk 1
    { sampleState with settings := { sampleSettings with outputs := ["A"] },
                       playing := [sampleInstance 1 1 ⟨"default", true⟩] }
    (by decide) (by decide) (by decide)

/-! ### The four transitions -/

@[simp]
theorem pause_errors (id : Nat) (s : State) : (Audio.pause id s).2.errors = s.errors := by
  simp only [Audio.pause]
  split <;> rfl

@[simp]
theorem resume_errors (id : Nat) (s : State) : (Audio.resume id s).2.errors = s.errors := by
  simp only [Audio.resume]
  split <;> rfl

@[simp]
theorem seek_errors (id n : Nat) (s : State) : (Audio.seek id n s).2.errors = s.errors := by
  simp only [Audio.seek]
  split <;> rfl

@[simp]
theorem setRepeat_errors (id : Nat) (b : Bool) (s : State) :
    (Audio.setRepeat id b s).2.errors = s.errors := by
  simp only [Audio.setRepeat]
  split <;> rfl

/-- C12: each of `pauseSound`, `resumeSound`, `seekSound` and `repeatSound` returns what the
engine returned for the local id, and signals its own error code, once, exactly when that
result is empty; whether there is a remote counterpart, and what the engine answers for it,
changes neither. -/
theorem transitions_report_local_result (id : Nat) (seekTo : Nat) (shouldRepeat : Bool)
    (s : State) :
    ((Window.pauseSound id s).1 = (Audio.pause id s).1 ∧
     (Window.pauseSound id s).2.errors
       = s.errors ++ (if (Audio.pause id s).1.isSome then [] else [ErrorCode.FailedToPause])) ∧
    ((Window.resumeSound id s).1 = (Audio.resume id s).1 ∧
     (Window.resumeSound id s).2.errors
       = s.errors ++ (if (Audio.resume id s).1.isSome then [] else [ErrorCode.FailedToResume])) ∧
    ((Window.seekSound id seekTo s).1 = (Audio.seek id seekTo s).1 ∧
     (Window.seekSound id seekTo s).2.errors
       = s.errors ++ (if (Audio.seek id seekTo s).1.isSome then []
                      else [ErrorCode.FailedToSeek])) ∧
    ((Window.repeatSound id shouldRepeat s).1 = (Audio.setRepeat id shouldRepeat s).1 ∧
     (Window.repeatSound id shouldRepeat s).2.errors
       = s.errors ++ (if (Audio.setRepeat id shouldRepeat s).1.isSome then []
                      else [ErrorCode.FailedToRepeat])) := by
  refine ⟨?_, ?_, ?_, ?_⟩
  · unfold Window.pauseSound
    dsimp only
    generalize (if Window.dualOutput s.settings then findRemote id s.groupedSounds else none)
      = remote
    cases remote <;> cases h : (Audio.pause id s).1 <;> simp [State.onError]
  · unfold Window.resumeSound
    dsimp only
    generalize (if Window.dualOutput s.settings then findRemote id s.groupedSounds else none)
      = remote
    cases remote <;> cases h : (Audio.resume id s).1 <;> simp [State.onError]
  · unfold Window.seekSound
    dsimp only
    generalize (if Window.dualOutput s.settings then findRemote id s.groupedSounds else none)
      = remote
    cases remote <;> cases h : (Audio.seek id seekTo s).1 <;> simp [State.onError]
  · unfold Window.repeatSound
    dsimp only
    generalize (if Window.dualOutput s.settings then findRemote id s.groupedSounds else none)
      = remote
    cases remote <;> cases h : (Audio.setRepeat id shouldRepeat s).1 <;> simp [State.onError]

/-! ### Passthrough -/

theorem passthroughMoves_eq (o : Oracle) (outputs : List String) (b : Bool) (s : State) :
    Window.passthroughMoves o outputs b s
      = (b && (moveAnswers o outputs s.calls.length).all id,
         { s with
           calls := s.calls ++ outputs.map Call.inputSoundTo,
           errors := s.errors ++ List.replicate
             ((moveAnswers o outputs s.calls.length).count false) ErrorCode.FailedToMoveToSink }) := by
  induction outputs generalizing b s with
  | nil => simp [Window.passthroughMoves, moveAnswers]
  | cons a rest ih =>
      simp only [Window.passthroughMoves, moveAnswers]
      cases h : o (Call.inputSoundTo a) s.calls.length
      · simp [State.invoke, h, ih, State.onError, List.replicate_succ', List.count_cons,
          List.replicate_add]
        rw [← List.replicate_succ, List.replicate_succ']
      · simp [State.invoke, h, ih, State.effect]

/-- C14 fails as stated: with the output A configured and its redirection failing,
`startPassthrough` returns false without calling `passthroughFrom`, and signals
`FailedToStartPassthrough` after `FailedToMoveToSink`. -/
theorem startPassthrough_redirect_failure :
    (Window.startPassthrough moveFails "app"
        { sampleState with settings := { sampleSettings with outputs := ["A"] } }).1 = false ∧
    (Window.startPassthrough moveFails "app"
        { sampleState with settings := { sampleSettings with outputs := ["A"] } }).2.calls
      = [Call.inputSoundTo "A"] ∧
    (Window.startPassthrough moveFails "app"
        { sampleState with settings := { sampleSettings with outputs := ["A"] } }).2.errors
      = [ErrorCode.FailedToMoveToSink, ErrorCode.FailedToStartPassthrough] := by
  refine ⟨by decide, by decide, by decide⟩

/-- C14, amended: with a backend and a non-empty `outputs` list, `startPassthrough(name)`
redirects every output application and signals `FailedToMoveToSink` once for each redirection
that fails; `passthroughFrom(name)` is called, after the redirections, exactly when all of them
succeeded; the result is true exactly when all of them and `passthroughFrom` succeeded; and
`FailedToStartPassthrough` is signalled, last, exactly when the result is false. -/
theorem startPassthrough_outcome (o : Oracle) (name : String) (s : State)
    (hb : s.backend = true) (hout : s.settings.outputs ≠ []) :
    (Window.startPassthrough o name s).1
      = ((moveAnswers o s.settings.outputs s.calls.length).all id &&
          o (Call.passthroughFrom name) (s.calls.length + s.settings.outputs.length)) ∧
    (Window.startPassthrough o name s).2.calls
      = s.calls ++ s.settings.outputs.map Call.inputSoundTo ++
          (if (moveAnswers o s.settings.outputs s.calls.length).all id
           then [Call.passthroughFrom name] else []) ∧
    (Window.startPassthrough o name s).2.errors
      = s.errors ++
          List.replicate ((moveAnswers o s.settings.outputs s.calls.length).count false)
            ErrorCode.FailedToMoveToSink ++
          (if (Window.startPassthrough o name s).1 then []
           else [ErrorCode.FailedToStartPassthrough]) := by
  have hoe : s.settings.outputs.isEmpty = false := by
    cases ho : s.settings.outputs with
    | nil => exact absurd ho hout
    | cons a l => rfl
  unfold Window.startPassthrough
  simp only [hb, hoe, Bool.not_false, Bool.and_self, if_true, passthroughMoves_eq, Bool.true_and]
  cases h1 : (moveAnswers o s.settings.outputs s.calls.length).all id
  · simp [State.onError]
  · cases h2 : o (Call.passthroughFrom name) (s.calls.length + s.settings.outputs.length) <;>
      simp [State.invoke, h2, State.onError, State.effect]

/-- C14, amended, run on the sample state with the output A configured while every call
succeeds. -/
theorem startPassthrough_outcome_witness :
    (Window.startPassthrough allOk "app"
        { sampleState with settings := { sampleSettings with outputs := ["A"] } }).2.calls
      = [Call.inputSoundTo "A", Call.passthroughFrom "app"] :=
  (startPassthrough_outcome allOk "app"
      { sampleState with settings := { sampleSettings with outputs := ["A"] } }
      rfl (by decide)).2.1.trans (by decide)

/-! ### `stopSounds` -/

/-- C13: `stopSounds(sync)` stops the engine (at once when `sync` is true, through the queue
otherwise), runs the all-finished sequence once on the state so reached, and empties the
registry; with `sync = true` the playing list is empty on return.  Without a backend, or on the
other variant, that is all.  On Linux with a backend it then calls `stopSoundInput` and
`stopAllPassthrough`; a failure of the first adds `FailedToMoveBack`, a failure of the second
adds `FailedToMoveBackPassthrough` and leaves the streams passed through in place, and nothing
else of the resulting state depends on the two answers. -/
theorem stopSounds_effect (p : Platform) (o : Oracle) (sync : Bool) (s : State) :
    (Window.stopSounds p o sync s).groupedSounds = ∅ ∧
    (sync = true → (Window.stopSounds p o sync s).playing = []) ∧
    ((p = Platform.windows ∨ s.backend = false) →
      Window.stopSounds p o sync s = (afterAllFinished p o sync s).clearGrouped) ∧
    ((p = Platform.linux ∧ s.backend = true) →
      Window.stopSounds p o sync s
        = { (afterAllFinished p o sync s).clearGrouped with
            calls := (afterAllFinished p o sync s).calls
              ++ [Call.stopSoundInput, Call.stopAllPassthrough],
            errors := (afterAllFinished p o sync s).errors
              ++ (if o Call.stopSoundInput (afterAllFinished p o sync s).calls.length
                  then [] else [ErrorCode.FailedToMoveBack])
              ++ (if o Call.stopAllPassthrough ((afterAllFinished p o sync s).calls.length + 1)
                  then [] else [ErrorCode.FailedToMoveBackPassthrough]),
            passedThrough :=
              if o Call.stopAllPassthrough ((afterAllFinished p o sync s).calls.length + 1)
              then [] else (afterAllFinished p o sync s).passedThrough }) := by
  have hdef : ∀ q, Window.stopSounds q o sync s
      = (match q with
         | Platform.linux =>
             if (afterAllFinished q o sync s).clearGrouped.backend then
               ((afterAllFinished q o sync s).clearGrouped.guarded o Call.stopSoundInput
                  ErrorCode.FailedToMoveBack).guarded o Call.stopAllPassthrough
                  ErrorCode.FailedToMoveBackPassthrough
             else (afterAllFinished q o sync s).clearGrouped
         | Platform.windows => (afterAllFinished q o sync s).clearGrouped) := by
    intro q
    unfold Window.stopSounds afterAllFinished
    cases sync <;> cases q <;> rfl
  have hback : ∀ q, (afterAllFinished q o sync s).clearGrouped.backend = s.backend := by
    intro q
    unfold afterAllFinished
    cases sync <;> simp
  refine ⟨stopSounds_groupedSounds p o sync s, ?_, ?_, ?_⟩
  · rintro rfl
    exact stopSounds_true_playing p o s
  · intro h
    rw [hdef]
    rcases h with rfl | h
    · rfl
    · cases p
      · simp only [hback, h, Bool.false_eq_true, if_false]
      · rfl
  · rintro ⟨rfl, hb⟩
    rw [hdef]
    have hb2 : (afterAllFinished Platform.linux o sync s).backend = true := by
      have := hback Platform.linux
      rw [hb] at this
      simpa using this
    generalize afterAllFinished Platform.linux o sync s = s2 at hb2
    cases h1 : o Call.stopSoundInput s2.calls.length <;>
      cases h2 : o Call.stopAllPassthrough (s2.calls.length + 1) <;>
      simp [State.guarded, State.invoke, State.onError, State.effect, State.clearGrouped, h1, h2,
        hb2]

/-- C13, run on Linux with a backend while the pair (1, 2) is playing: after
`stopSounds(true)` nothing is playing. -/
theorem stopSounds_effect_witness :
    (Window.stopSounds Platform.linux allOk true pairedState).playing = [] :=
  (stopSounds_effect Platform.linux allOk true pairedState).2.1 rfl

/-! ### The streams listed by `getOutputs` and `getPlayback` -/

theorem collectStreams_eq (icons : Option (Nat → Option String)) (streams : List StreamApp)
    (acc : List IconApp) :
    Window.collectStreams icons streams acc
      = acc ++ (keptStreams streams (acc.map IconApp.name)).map (toIconApp icons) := by
  induction streams generalizing acc with
  | nil => simp [Window.collectStreams, keptStreams]
  | cons x rest ih =>
      have hfind : (acc.find? (fun y => x.name == y.name)).isNone = true
          ↔ x.name ∉ acc.map IconApp.name := by
        rw [Option.isNone_iff_eq_none, List.find?_eq_none]
        simp only [List.mem_map, not_exists, not_and, beq_iff_eq]
        constructor
        · intro h y hy e
          exact h y hy e.symm
        · intro h y hy e
          exact h y hy e.symm
      simp only [Window.collectStreams, keptStreams]
      by_cases h1 : Window.isOwnStream x.application = true
      · simp [h1, ih]
      · by_cases h2 : x.name ∈ acc.map IconApp.name
        · have : ¬ (acc.find? (fun y => x.name == y.name)).isNone = true := fun h => hfind.mp h h2
          simp only [h1, this, h2, if_false, if_true, Bool.false_eq_true]
          exact ih acc
        · have : (acc.find? (fun y => x.name == y.name)).isNone = true := hfind.mpr h2
          simp only [h1, this, h2, if_false, if_true, Bool.false_eq_true]
          rw [ih]
          simp [toIconApp]

theorem keptStreams_sublist (streams : List StreamApp) (seen : List String) :
    (keptStreams streams seen).Sublist streams := by
  induction streams generalizing seen with
  | nil => simp [keptStreams]
  | cons x rest ih =>
      simp only [keptStreams]
      split_ifs
      · exact (ih seen).cons x
      · exact (ih seen).cons x
      · exact (ih _).cons₂ x

theorem keptStreams_mem (streams : List StreamApp) (seen : List String) (x : StreamApp)
    (hx : x ∈ keptStreams streams seen) :
    Window.isOwnStream x.application = false ∧ x.name ∉ seen := by
  induction streams generalizing seen with
  | nil => simp [keptStreams] at hx
  | cons y rest ih =>
      simp only [keptStreams] at hx
      split_ifs at hx with h1 h2
      · exact ih seen hx
      · exact ih seen hx
      · rcases List.mem_cons.mp hx with rfl | hx
        · exact ⟨by simpa using h1, h2⟩
        · have := ih _ hx
          exact ⟨this.1, fun h => this.2 (List.mem_append_left _ h)⟩

theorem keptStreams_nodup (streams : List StreamApp) (seen : List String) :
    ((keptStreams streams seen).map StreamApp.name).Nodup := by
  induction streams generalizing seen with
  | nil => simp [keptStreams]
  | cons y rest ih =>
      simp only [keptStreams]
      split_ifs
      · exact ih seen
      · exact ih seen
      · rw [List.map_cons, List.nodup_cons]
        refine ⟨?_, ih _⟩
        intro hmem
        rw [List.mem_map] at hmem
        obtain ⟨z, hz, hzn⟩ := hmem
        have := (keptStreams_mem rest _ z hz).2
        apply this
        rw [hzn]
        simp

theorem keptStreams_covers (streams : List StreamApp) (seen : List String) (x : StreamApp)
    (hx : x ∈ streams) (hown : Window.isOwnStream x.application = false) (hseen : x.name ∉ seen) :
    x.name ∈ (keptStreams streams seen).map StreamApp.name := by
  induction streams generalizing seen with
  | nil => simp at hx
  | cons y rest ih =>
      simp only [keptStreams]
      rcases List.mem_cons.mp hx with rfl | hx
      · simp [hown, hseen]
      · split_ifs with h1 h2
        · exact ih seen hx hseen
        · exact ih seen hx hseen
        · rw [List.map_cons, List.mem_cons]
          by_cases e : x.name = y.name
          · exact Or.inl e
          · refine Or.inr (ih _ hx ?_)
            simp [hseen, e]

theorem keptStreams_first (streams : List StreamApp) (seen : List String) (x : StreamApp)
    (hx : x ∈ keptStreams streams seen) :
    streams.find? (fun y => y.name == x.name && !Window.isOwnStream y.application) = some x := by
  induction streams generalizing seen with
  | nil => simp [keptStreams] at hx
  | cons y rest ih =>
      simp only [keptStreams] at hx
      split_ifs at hx with h1 h2
      · rw [List.find?_cons_of_neg _ (by simp [h1])]
        exact ih seen hx
      · have hne : y.name ≠ x.name := by
          intro e
          exact (keptStreams_mem rest seen x hx).2 (e ▸ h2)
        rw [List.find?_cons_of_neg _ (by simp [hne])]
        exact ih seen hx
      · rcases List.mem_cons.mp hx with rfl | hx
        · rw [List.find?_cons_of_pos _ (by simpa using h1)]
        · have hne : y.name ≠ x.name := by
            intro e
            exact (keptStreams_mem rest _ x hx).2 (by simp [e])
          rw [List.find?_cons_of_neg _ (by simp [hne])]
          exact ih _ hx

/-- C15: with a backend, the list returned by `getOutputs` for the streams of the backend has
pairwise distinct names and no entry of the engine itself (no application label containing
the word soundux); a name occurs in it exactly when some stream of that name is not a stream of
the engine; and its entries are, in the order of the input, those streams that are the first
stream of their name not of the engine, with the name and the application label copied.
`getPlayback` returns the same list for the same streams. -/
theorem getOutputs_unique (icons : Option (Nat → Option String)) (streams : List StreamApp)
    (s : State) (hb : s.backend = true) :
    ((Window.getOutputs icons streams s).map IconApp.name).Nodup ∧
    (∀ e ∈ Window.getOutputs icons streams s, Window.isOwnStream e.application = false) ∧
    (∀ n, n ∈ (Window.getOutputs icons streams s).map IconApp.name
      ↔ ∃ x ∈ streams, x.name = n ∧ Window.isOwnStream x.application = false) ∧
    (∃ kept : List StreamApp, kept.Sublist streams ∧
      (Window.getOutputs icons streams s).map (fun e => (e.name, e.application))
        = kept.map (fun x => (x.name, x.application)) ∧
      ∀ x ∈ kept,
        streams.find? (fun y => y.name == x.name && !Window.isOwnStream y.application)
          = some x) ∧
    Window.getPlayback icons streams s = Window.getOutputs icons streams s := by
  have hr : Window.getOutputs icons streams s = (keptStreams streams []).map (toIconApp icons) := by
    simp [Window.getOutputs, hb, collectStreams_eq]
  have hnames : (Window.getOutputs icons streams s).map IconApp.name
      = (keptStreams streams []).map StreamApp.name := by
    rw [hr, List.map_map]
    rfl
  refine ⟨?_, ?_, ?_, ?_, ?_⟩
  · rw [hnames]
    exact keptStreams_nodup streams []
  · intro e he
    rw [hr, List.mem_map] at he
    obtain ⟨x, hx, rfl⟩ := he
    exact (keptStreams_mem streams [] x hx).1
  · intro n
    rw [hnames]
    constructor
    · intro hn
      rw [List.mem_map] at hn
      obtain ⟨x, hx, rfl⟩ := hn
      exact ⟨x, (keptStreams_sublist streams []).subset hx, rfl,
        (keptStreams_mem streams [] x hx).1⟩
    · rintro ⟨x, hx, rfl, hown⟩
      exact keptStreams_covers streams [] x hx hown (by simp)
  · refine ⟨keptStreams streams [], keptStreams_sublist streams [], ?_,
      fun x hx => keptStreams_first streams [] x hx⟩
    rw [hr, List.map_map]
    rfl
  · simp [Window.getPlayback, Window.getOutputs]

/-- C15, run on three streams: one of the engine itself and two of the same name. -/
theorem getOutputs_unique_witness :
    (Window.getOutputs none
        [⟨"a", "soundux", none⟩, ⟨"b", "voice", none⟩, ⟨"b", "other", some 3⟩]
        sampleState).map IconApp.name = ["b"] ∧
    ((Window.getOutputs none
        [⟨"a", "soundux", none⟩, ⟨"b", "voice", none⟩, ⟨"b", "other", some 3⟩]
        sampleState).map IconApp.name).Nodup :=
  ⟨by decide,
   (getOutputs_unique none
      [⟨"a", "soundux", none⟩, ⟨"b", "voice", none⟩, ⟨"b", "other", some 3⟩]
      sampleState rfl).1⟩

/-! ### When a pair is recorded -/

theorem getAudioDevice_play (o : Oracle) (snd : Sound) (d : Option AudioDevice) (n : String)
    (s : State) : Audio.getAudioDevice n (Audio.play o snd d s).2 = Audio.getAudioDevice n s := by
  simp [Audio.getAudioDevice]

theorem startOther_entry (o : Oracle) (snd : Sound) (s : State) (l : PlayingSound)
    (h : (Window.startOther o snd s).1 = some l) (hk : s.counter + 1 ∉ s.groupedSounds) :
    s.counter + 1 ∈ (Window.startOther o snd s).2.groupedSounds ↔
      ∃ n dev, s.settings.outputs.head? = some n ∧ Audio.getAudioDevice n s = some dev ∧
        dev.isDefault = false := by
  unfold Window.startOther at h ⊢
  simp only [play_settings, getAudioDevice_play] at h ⊢
  rcases play_cases o snd none s with ⟨e1, p1, c1⟩ | ⟨e1, p1, c1⟩
  · exfalso
    split_ifs at h
    · rw [e1] at h
      cases h
    · simp only [e1] at h
      split at h
      · split_ifs at h
      · simp at h
  · split_ifs at h ⊢ with hg
    · have : s.settings.outputs = [] := by
        simp only [Bool.and_eq_true, List.isEmpty_iff] at hg
        exact hg.1
      simp [this, hk]
    · simp only [e1] at h ⊢
      cases ho : s.settings.outputs.head? with
      | none =>
          simp only [ho] at h ⊢
          simp [hk]
      | some n =>
          simp only [ho] at h ⊢
          cases hdev : Audio.getAudioDevice n s with
          | none =>
              simp only [hdev] at h ⊢
              simp [hk, hdev]
          | some dev =>
              simp only [hdev] at h ⊢
              cases hdef : dev.isDefault
              · simp only [hdef, Bool.not_false, if_true] at h ⊢
                rcases play_cases o snd (some dev) (Audio.play o snd none s).2
                  with ⟨e2, p2, c2⟩ | ⟨e2, p2, c2⟩
                · simp only [e2] at h
                  simp at h
                · simp only [e2]
                  simp [insertGroup, hk, c1, hdev, hdef]
              · simp only [hdef, Bool.not_true, Bool.false_eq_true, if_false] at h ⊢
                simp [hk, hdev, hdef]

/-- C8, amended: with overlapping not allowed, a successful `playSound` whose stop is
synchronous (the Linux variant, or the other variant when `stopSounds()` defaults to a
synchronous stop) and whose behaviour is defined in the source makes the stop of all instances
its first call, before any start, and on return the playing list holds no instance from
before.  On Linux it holds the local instance returned followed by the remote instance, both
of the sound asked for.  On the other variant it holds these two when the first configured
output names a known device that is not the default one, and the local instance alone
otherwise. -/
theorem playSound_no_overlap (p : Platform) (d : Bool) (o : Oracle) (id : Nat) (s : State)
    (sound : Sound) (l : PlayingSound)
    (hs : getSound id s = some sound)
    (ha : s.settings.allowOverlapping = false)
    (hsync : p = Platform.linux ∨ d = true)
    (hdef : Window.playSoundDefined p d o id s = true)
    (hl : (Window.playSound p d o id s).1 = some l) :
    (∃ post, (Window.playSound p d o id s).2.calls = s.calls ++ Call.stopAll :: post) ∧
    l.sound = sound ∧
    (p = Platform.linux →
      ∃ r : PlayingSound, (Window.playSound p d o id s).2.playing = [l, r] ∧ r.sound = sound) ∧
    (p = Platform.windows →
      ((∃ n dev, s.settings.outputs.head? = some n ∧ Audio.getAudioDevice n s = some dev ∧
          dev.isDefault = false) →
        ∃ r : PlayingSound,
          (Window.playSound p d o id s).2.playing = [l, r] ∧ r.sound = sound) ∧
      ((¬ ∃ n dev, s.settings.outputs.head? = some n ∧ Audio.getAudioDevice n s = some dev ∧
          dev.isDefault = false) →
        (Window.playSound p d o id s).2.playing = [l])) := by
  have _ := hdef
  cases p
  · obtain ⟨_, hplaying, hcalls⟩ := preparePlay_stops Platform.linux true o s ha
    have hplaying := hplaying (Or.inl rfl)
    obtain ⟨post, hpost⟩ := hcalls (Or.inl rfl)
    simp only [Window.playSound, Window.playSoundLinux, hs] at hl ⊢
    obtain ⟨r, h1, h2, h3, _, _, _⟩ := startLinux_success o sound _ l hl
    obtain ⟨post2, hpost2⟩ := startLinux_grows o sound (Window.preparePlay Platform.linux true o s)
    rw [hplaying] at h1
    refine ⟨⟨post ++ post2, ?_⟩, h2, fun _ => ⟨r, by simpa using h1, h3⟩,
      fun h => absurd h (by decide)⟩
    rw [hpost2, hpost]
    simp
  · obtain ⟨hgrouped, hplaying, hcalls⟩ := preparePlay_stops Platform.windows d o s ha
    have hplaying := hplaying hsync
    obtain ⟨post, hpost⟩ := hcalls hsync
    have e : Window.playSound Platform.windows d o id s
        = Window.startOther o sound (Window.preparePlay Platform.windows d o s) := by
      simp [Window.playSound, Window.playSoundOther, hs]
    rw [e] at hl ⊢
    obtain ⟨h2, h3, h4⟩ := startOther_success o sound _ l hl
    obtain ⟨post2, hpost2⟩ := startOther_grows o sound (Window.preparePlay Platform.windows d o s)
    have hk : (Window.preparePlay Platform.windows d o s).counter + 1
        ∉ (Window.preparePlay Platform.windows d o s).groupedSounds := by
      rw [hgrouped]
      exact AList.not_mem_empty _
    have hent := startOther_entry o sound _ l hl hk
    have hdev : ∀ n, Audio.getAudioDevice n (Window.preparePlay Platform.windows d o s)
        = Audio.getAudioDevice n s := by
      intro n
      simp [Audio.getAudioDevice]
    simp only [preparePlay_settings, hdev] at hent
    rw [hplaying] at h4
    refine ⟨⟨post ++ post2, ?_⟩, h2, fun h => absurd h (by decide), fun _ => ⟨?_, ?_⟩⟩
    · rw [hpost2, hpost]
      simp
    · intro hc
      rcases h4 with ⟨_, h5⟩ | ⟨r, h4, h5, _⟩
      · have hm := hent.2 hc
        rw [h5] at hm
        exact absurd hm hk
      · exact ⟨r, by simpa using h4, h5⟩
    · intro hc
      rcases h4 with ⟨h4, _⟩ | ⟨r, _, _, _, h6⟩
      · simpa using h4
      · exfalso
        apply hc
        apply hent.1
        rw [h6, hgrouped]
        simp [insertGroup, AList.mem_keys, AList.keys, AList.singleton]

/-- C8, amended, run on the non-Linux variant with a synchronous stop, the device A as first
output and the pair (1, 2) of the clip 1 playing: the playing list after `playSound(2)` is the
new pair. -/
theorem playSound_no_overlap_witness :
    ∃ r : PlayingSound,
      (Window.playSound Platform.windows true allOk 2
        { pairedState with
          settings := { sampleSettings with allowOverlapping := false, outputs := ["A"] },
          devices := [⟨"A", false⟩] }).2.playing
        = [Audio.newInstance (sampleSound 2) none
            { pairedState with
              settings := { sampleSettings with allowOverlapping := false, outputs := ["A"] },
              devices := [⟨"A", false⟩] }, r]
      ∧ r.sound = sampleSound 2 :=
  ((playSound_no_overlap Platform.windows true allOk 2
      { pairedState with
        settings := { sampleSettings with allowOverlapping := false, outputs := ["A"] },
        devices := [⟨"A", false⟩] }
      (sampleSound 2)
      (Audio.newInstance (sampleSound 2) none
        { pairedState with
          settings := { sampleSettings with allowOverlapping := false, outputs := ["A"] },
          devices := [⟨"A", false⟩] })
      (by decide) (by decide) (Or.inr rfl) (by decide) rfl).2.2.2 rfl).1
    ⟨"A", ⟨"A", false⟩, rfl, by decide, rfl⟩

/-- C17 fails as stated.  On Linux with an empty `outputs` list a successful `playSound(1)`
adds the entry 1 -> 2.  On the other variant with `useAsDefaultDevice` on and the device A as
first output, a successful `playSound(1)` adds the entry 1 -> 2 as well. -/
theorem playSound_pair_outside_dual_mode :
    ((Window.playSound Platform.linux true allOk 1 sampleState).1.isSome = true ∧
     (Window.playSound Platform.linux true allOk 1 sampleState).2.groupedSounds.entries
       = [⟨1, 2⟩]) ∧
    ((Window.playSound Platform.windows true allOk 1
        { sampleState with
          settings := { sampleSettings with outputs := ["A"], useAsDefaultDevice := true },
          devices := [⟨"A", false⟩] }).1.isSome = true ∧
     (Window.playSound Platform.windows true allOk 1
        { sampleState with
          settings := { sampleSettings with outputs := ["A"], useAsDefaultDevice := true },
          devices := [⟨"A", false⟩] }).2.groupedSounds.entries = [⟨1, 2⟩]) := by
  refine ⟨⟨by decide, by decide⟩, by decide, by decide⟩

/-- C17, amended: let the keys of the registry be ids already given out, and let the call have
defined behaviour in the source (on the variant that is not Linux, `outputs.front()` is not
read from an empty list).  A successful `playSound` returns the local instance, whose id is
the next id and not yet a key.  On Linux it always adds the entry from that id to the id after
it.  On the other variant it adds that entry exactly when the first configured output names a
known device that is not the default one.  Whenever the entry is added, the instance of the
same sound with the id after it is playing as well. -/
theorem playSound_records_pair (p : Platform) (d : Bool) (o : Oracle) (id : Nat) (s : State)
    (sound : Sound) (l : PlayingSound)
    (hs : getSound id s = some sound)
    (hkeys : ∀ k ∈ s.groupedSounds, k ≤ s.counter)
    (hdef : Window.playSoundDefined p d o id s = true)
    (hl : (Window.playSound p d o id s).1 = some l) :
    l.id = s.counter + 1 ∧ l.id ∉ s.groupedSounds ∧
    (p = Platform.linux →
      AList.lookup l.id (Window.playSound p d o id s).2.groupedSounds = some (l.id + 1)) ∧
    (p = Platform.windows →
      (l.id ∈ (Window.playSound p d o id s).2.groupedSounds ↔
        ∃ n dev, s.settings.outputs.head? = some n ∧ Audio.getAudioDevice n s = some dev ∧
          dev.isDefault = false)) ∧
    (l.id ∈ (Window.playSound p d o id s).2.groupedSounds →
      AList.lookup l.id (Window.playSound p d o id s).2.groupedSounds = some (l.id + 1) ∧
      ∃ r ∈ (Window.playSound p d o id s).2.playing, r.id = l.id + 1 ∧ r.sound = sound) := by
  have _ := hdef
  have hfresh : s.counter + 1 ∉ s.groupedSounds := by
    intro hm
    have := hkeys _ hm
    omega
  have hk : ∀ q e, (Window.preparePlay q e o s).counter + 1
      ∉ (Window.preparePlay q e o s).groupedSounds := by
    intro q e
    rw [preparePlay_counter]
    cases ha : s.settings.allowOverlapping
    · rw [(preparePlay_stops q e o s ha).1]
      exact AList.not_mem_empty _
    · rw [(preparePlay_overlapping q e o s ha).2]
      exact hfresh
  have hlook : ∀ g : Registry, s.counter + 1 ∉ g →
      AList.lookup (s.counter + 1) (insertGroup (s.counter + 1) (s.counter + 2) g)
        = some (s.counter + 1 + 1) := by
    intro g hg
    simp [insertGroup, hg]
  cases p
  · have e : Window.playSound Platform.linux d o id s
        = Window.startLinux o sound (Window.preparePlay Platform.linux true o s) := by
      simp [Window.playSound, Window.playSoundLinux, hs]
    rw [e] at hl ⊢
    obtain ⟨r, h1, _, h3, h4, h5, h6⟩ := startLinux_success o sound _ l hl
    simp only [preparePlay_counter] at h4 h5 h6
    have hk' := hk Platform.linux true
    rw [preparePlay_counter] at hk'
    have hres : AList.lookup l.id
        (Window.startLinux o sound (Window.preparePlay Platform.linux true o s)).2.groupedSounds
        = some (l.id + 1) := by
      rw [h6, h4]
      exact hlook _ hk'
    refine ⟨h4, by rw [h4]; exact hfresh, fun _ => hres, fun h => absurd h (by decide), fun _ => ⟨hres, ?_⟩⟩
    refine ⟨r, ?_, by rw [h5, h4], h3⟩
    rw [h1]
    simp
  · have e : Window.playSound Platform.windows d o id s
        = Window.startOther o sound (Window.preparePlay Platform.windows d o s) := by
      simp [Window.playSound, Window.playSoundOther, hs]
    rw [e] at hl ⊢
    obtain ⟨_, h4, h5⟩ := startOther_success o sound _ l hl
    have hent := startOther_entry o sound _ l hl (hk Platform.windows d)
    simp only [preparePlay_counter, preparePlay_settings] at h4 h5 hent
    have hdev : ∀ n, Audio.getAudioDevice n (Window.preparePlay Platform.windows d o s)
        = Audio.getAudioDevice n s := by
      intro n
      simp [Audio.getAudioDevice]
    simp only [hdev] at hent
    have hk' := hk Platform.windows d
    rw [preparePlay_counter] at hk'
    refine ⟨h4, by rw [h4]; exact hfresh, fun h => absurd h (by decide), fun _ => by rw [h4]; exact hent, ?_⟩
    intro hmem
    rcases h5 with ⟨_, h5⟩ | ⟨r, h5, h6, h7, h8⟩
    · rw [h5, h4] at hmem
      exact absurd hmem hk'
    · refine ⟨by rw [h8, h4]; exact hlook _ hk', r, ?_, by rw [h7, h4], h6⟩
      rw [h5]
      simp

/-- C17, amended, run on the non-Linux variant with the device A, not the default one, as
first output and `useAsDefaultDevice` on: the entry of the instance 1 is added, and it leads to
the instance 2. -/
theorem playSound_records_pair_witness :
    (Audio.newInstance (sampleSound 1) none sampleState).id
      ∈ (Window.playSound Platform.windows true allOk 1
          { sampleState with
            settings := { sampleSettings with outputs := ["A"], useAsDefaultDevice := true },
            devices := [⟨"A", false⟩] }).2.groupedSounds ∧
    (Window.playSound Platform.windows true allOk 1
        { sampleState with
          settings := { sampleSettings with outputs := ["A"], useAsDefaultDevice := true },
          devices := [⟨"A", false⟩] }).2.groupedSounds.entries = [⟨1, 2⟩] :=
  ⟨((playSound_records_pair Platform.windows true allOk 1
      { sampleState with
        settings := { sampleSettings with outputs := ["A"], useAsDefaultDevice := true },
        devices := [⟨"A", false⟩] }
      (sampleSound 1) (Audio.newInstance (sampleSound 1) none sampleState)
      (by decide) (fun k hk => absurd hk (AList.not_mem_empty k)) (by decide)
      rfl).2.2.2.1 rfl).2 ⟨"A", ⟨"A", false⟩, rfl, by decide, rfl⟩,
   by decide⟩

/-! ### Id allocation of the driver -/

theorem stopLoop_sublist (deviceId : Nat) (l : List Playback.PlayingDevice) :
    List.Sublist (Playback.stopLoop deviceId l) l := by
  induction l with
  | nil => exact List.Sublist.slnil
  | cons a l ih =>
      simp only [Playback.stopLoop]
      split
      · exact List.sublist_cons_self a l
      · exact ih.cons₂ a



theorem playAudio_failed (outcome : Playback.Outcome) (file deviceName : String)
    (s : Playback.Driver) (h : outcome ≠ Playback.Outcome.started) :
    (Playback.playAudio outcome file deviceName s).1 = none ∧
    (Playback.playAudio outcome file deviceName s).2.counter = s.counter ∧
    (Playback.playAudio outcome file deviceName s).2.currentlyPlayingDevices
      = s.currentlyPlayingDevices := by
  cases outcome <;> simp [Playback.playAudio] at h ⊢ <;> split <;> simp

theorem playAudio_started (file deviceName : String) (s : Playback.Driver)
    (h : s.counter + 1 < 2 ^ 64) :
    (Playback.playAudio Playback.Outcome.started file deviceName s).1 = some (s.counter + 1) ∧
    (Playback.playAudio Playback.Outcome.started file deviceName s).2.counter = s.counter + 1 ∧
    (Playback.playAudio Playback.Outcome.started file deviceName s).2.currentlyPlayingDevices
      = s.currentlyPlayingDevices ++
        [{ id := s.counter + 1, file := file, device := deviceName, finished := false }] := by
  simp only [Playback.playAudio]
  have h2 : s.counter + 1 < 18446744073709551616 := h
  split <;> simp [Nat.mod_eq_of_lt h2, h2]

theorem runDriver_ids (ops : List Playback.DriverOp) :
    ∀ s : Playback.Driver, s.WF → s.counter + ops.length < 2 ^ 64 →
      List.Pairwise (fun a b => a < b) (Playback.runDriver ops s).1 ∧
      (∀ id ∈ (Playback.runDriver ops s).1,
        s.counter < id ∧ id ≤ (Playback.runDriver ops s).2.counter) ∧
      s.counter ≤ (Playback.runDriver ops s).2.counter ∧
      (Playback.runDriver ops s).2.counter ≤ s.counter + ops.length ∧
      (Playback.runDriver ops s).2.WF := by
  induction ops with
  | nil =>
      intro s hs _
      simp [Playback.runDriver, hs]
  | cons op ops ih =>
      intro s hs hlen
      simp only [List.length_cons] at hlen ⊢
      cases op with
      | playAudio outcome file deviceName =>
          by_cases ho : outcome = Playback.Outcome.started
          · subst ho
            obtain ⟨h1, h2, h3⟩ := playAudio_started file deviceName s (by omega)
            have hwf : (Playback.playAudio Playback.Outcome.started file deviceName s).2.WF := by
              refine ⟨?_, ?_⟩
              · rw [h2, h3]
                intro e he
                rcases List.mem_append.1 he with he | he
                · have := hs.1 e he
                  omega
                · simp at he
                  simp [he]
              · rw [h3, List.map_append, List.nodup_append]
                refine ⟨hs.2, by simp, ?_⟩
                intro a ha hb
                simp at hb
                obtain ⟨e, he, rfl⟩ := List.mem_map.1 ha
                have := hs.1 e he
                omega
            obtain ⟨i1, i2, i3, i4, i5⟩ := ih _ hwf (by rw [h2]; omega)
            rw [h2] at i2 i3 i4
            simp only [Playback.runDriver, h1, Option.toList_some, List.singleton_append]
            refine ⟨List.pairwise_cons.2 ⟨fun b hb => by have := (i2 b hb).1; omega, i1⟩,
              ?_, by omega, by omega, i5⟩
            intro id hid
            rcases List.mem_cons.1 hid with rfl | hid
            · exact ⟨by omega, by omega⟩
            · have := i2 id hid
              exact ⟨by omega, this.2⟩
          · obtain ⟨h1, h2, h3⟩ := playAudio_failed outcome file deviceName s ho
            have hwf : (Playback.playAudio outcome file deviceName s).2.WF := by
              simp only [Playback.Driver.WF, h2, h3]
              exact hs
            obtain ⟨i1, i2, i3, i4, i5⟩ := ih _ hwf (by rw [h2]; omega)
            rw [h2] at i2 i3 i4
            simp only [Playback.runDriver, h1, Option.toList_none, List.nil_append]
            exact ⟨i1, i2, i3, by omega, i5⟩
      | stop deviceId =>
          have hwf : (Playback.stop deviceId s).WF := by
            refine ⟨fun e he => hs.1 e ((stopLoop_sublist deviceId _).subset he), ?_⟩
            exact hs.2.sublist ((stopLoop_sublist deviceId _).map _)
          obtain ⟨i1, i2, i3, i4, i5⟩ := ih _ hwf (by simp only [Playback.stop]; omega)
          simp only [Playback.stop] at i2 i3 i4
          simp only [Playback.runDriver, Playback.stop]
          exact ⟨i1, i2, i3, by omega, i5⟩
      | stopAllAudio =>
          have hwf : (Playback.stopAllAudio s).WF := by
            simp [Playback.Driver.WF, Playback.stopAllAudio]
          obtain ⟨i1, i2, i3, i4, i5⟩ := ih _ hwf (by simp only [Playback.stopAllAudio]; omega)
          simp only [Playback.stopAllAudio] at i2 i3 i4
          simp only [Playback.runDriver, Playback.stopAllAudio]
          exact ⟨i1, i2, i3, by omega, i5⟩

/-- C18: over any sequence of fewer than `2 ^ 64` calls of `playAudio`, `stop` and
`stopAllAudio` from the start of the program, the ids returned by the successful `playAudio`
calls are strictly increasing and positive, the entries of `currentlyPlayingDevices` have
pairwise distinct ids, none above the counter, and a `playAudio` that fails in the state
reached returns no id and leaves the counter and `currentlyPlayingDevices` as they are. -/
theorem playAudio_ids_increasing (ops : List Playback.DriverOp) (h : ops.length < 2 ^ 64) :
    List.Pairwise (fun a b => a < b) (Playback.runDriver ops Playback.initial).1 ∧
    (Playback.runDriver ops Playback.initial).1.Nodup ∧
    (∀ id ∈ (Playback.runDriver ops Playback.initial).1,
      0 < id ∧ id ≤ (Playback.runDriver ops Playback.initial).2.counter) ∧
    ((Playback.runDriver ops Playback.initial).2.currentlyPlayingDevices.map
      (fun e => e.id)).Nodup ∧
    (∀ e ∈ (Playback.runDriver ops Playback.initial).2.currentlyPlayingDevices,
      e.id ≤ (Playback.runDriver ops Playback.initial).2.counter) ∧
    ∀ outcome file deviceName, outcome ≠ Playback.Outcome.started →
      (Playback.playAudio outcome file deviceName
        (Playback.runDriver ops Playback.initial).2).1 = none ∧
      (Playback.playAudio outcome file deviceName
        (Playback.runDriver ops Playback.initial).2).2.counter
        = (Playback.runDriver ops Playback.initial).2.counter ∧
      (Playback.playAudio outcome file deviceName
        (Playback.runDriver ops Playback.initial).2).2.currentlyPlayingDevices
        = (Playback.runDriver ops Playback.initial).2.currentlyPlayingDevices := by
  have hwf : Playback.initial.WF := by simp [Playback.Driver.WF, Playback.initial]
  obtain ⟨i1, i2, _, _, i5⟩ := runDriver_ids ops Playback.initial hwf
    (by simp only [Playback.initial]; omega)
  refine ⟨i1, ?_, i2, i5.2, i5.1, fun outcome file deviceName ho =>
    playAudio_failed outcome file deviceName _ ho⟩
  exact i1.imp (fun hab => Nat.ne_of_lt hab)

/-- C18 on a run: two sounds are started, the first is stopped, a start fails, a third sound
is started; the ids returned are 1, 2, 3 and the entries left have the ids 2 and 3. -/
theorem playAudio_ids_increasing_witness :
    (Playback.runDriver
      [Playback.DriverOp.playAudio Playback.Outcome.started "a.mp3" "A",
       Playback.DriverOp.playAudio Playback.Outcome.started "b.mp3" "A",
       Playback.DriverOp.stop 1,
       Playback.DriverOp.playAudio Playback.Outcome.deviceInitFailed "c.mp3" "B",
       Playback.DriverOp.playAudio Playback.Outcome.started "c.mp3" "A"]
      Playback.initial).1 = [1, 2, 3] ∧
    List.Pairwise (fun a b => a < b) (Playback.runDriver
      [Playback.DriverOp.playAudio Playback.Outcome.started "a.mp3" "A",
       Playback.DriverOp.playAudio Playback.Outcome.started "b.mp3" "A",
       Playback.DriverOp.stop 1,
       Playback.DriverOp.playAudio Playback.Outcome.deviceInitFailed "c.mp3" "B",
       Playback.DriverOp.playAudio Playback.Outcome.started "c.mp3" "A"]
      Playback.initial).1 :=
  ⟨by decide, (playAudio_ids_increasing _ (by decide)).1⟩

/-! ### The calls and errors that an operation adds -/

theorem Adds.nothing (P : Call → Prop) (Q : ErrorCode → Prop) (s : State) : Adds P Q s s :=
  ⟨[], [], by simp, by simp, by simp, by simp⟩

theorem Adds.of_eq {P : Call → Prop} {Q : ErrorCode → Prop} {s t : State}
    (hc : t.calls = s.calls) (he : t.errors = s.errors) : Adds P Q s t :=
  ⟨[], [], by simp [hc], by simp [he], by simp, by simp⟩

theorem Adds.andThen {P : Call → Prop} {Q : ErrorCode → Prop} {a b c : State}
    (h1 : Adds P Q a b) (h2 : Adds P Q b c) : Adds P Q a c := by
  obtain ⟨pc1, pe1, c1, e1, p1, q1⟩ := h1
  obtain ⟨pc2, pe2, c2, e2, p2, q2⟩ := h2
  refine ⟨pc1 ++ pc2, pe1 ++ pe2, by rw [c2, c1, List.append_assoc],
    by rw [e2, e1, List.append_assoc], ?_, ?_⟩
  · intro c hc
    rcases List.mem_append.1 hc with h | h
    · exact p1 c h
    · exact p2 c h
  · intro e he
    rcases List.mem_append.1 he with h | h
    · exact q1 e h
    · exact q2 e h

theorem effect_calls (c : Call) (s : State) : (s.effect c).calls = s.calls := by
  cases c <;> rfl

theorem effect_errors (c : Call) (s : State) : (s.effect c).errors = s.errors := by
  cases c <;> rfl

theorem invoke_calls_eq (o : Oracle) (c : Call) (s : State) :
    (s.invoke o c).2.calls = s.calls ++ [c] := by
  simp only [State.invoke]
  split <;> simp [effect_calls]

theorem invoke_errors_eq (o : Oracle) (c : Call) (s : State) :
    (s.invoke o c).2.errors = s.errors := by
  simp only [State.invoke]
  split <;> simp [effect_errors]

theorem invoke_answer (o : Oracle) (c : Call) (s : State) :
    (s.invoke o c).1 = o c s.calls.length := rfl

theorem guarded_calls_eq (o : Oracle) (c : Call) (e : ErrorCode) (s : State) :
    (s.guarded o c e).calls = s.calls ++ [c] := by
  simp only [State.guarded]
  split <;> simp [State.onError, invoke_calls_eq]

theorem guarded_errors_eq (o : Oracle) (c : Call) (e : ErrorCode) (s : State) :
    (s.guarded o c e).errors = s.errors ++ (if o c s.calls.length then [] else [e]) := by
  simp only [State.guarded, invoke_answer]
  split <;> simp [State.onError, invoke_errors_eq]

theorem invoke_adds {P : Call → Prop} {Q : ErrorCode → Prop} (o : Oracle) (c : Call)
    (s : State) (hc : P c) : Adds P Q s (s.invoke o c).2 :=
  ⟨[c], [], invoke_calls_eq o c s, by simp [invoke_errors_eq], by simpa using hc, by simp⟩

theorem onError_adds {P : Call → Prop} {Q : ErrorCode → Prop} (e : ErrorCode) (s : State)
    (he : Q e) : Adds P Q s (s.onError e) :=
  ⟨[], [e], by simp [State.onError], rfl, by simp, by simpa using he⟩

theorem guarded_adds {P : Call → Prop} {Q : ErrorCode → Prop} (o : Oracle) (c : Call)
    (e : ErrorCode) (s : State) (hc : P c) (he : Q e) : Adds P Q s (s.guarded o c e) := by
  refine ⟨[c], if o c s.calls.length then [] else [e], guarded_calls_eq o c e s,
    guarded_errors_eq o c e s, by simpa using hc, ?_⟩
  split <;> simp [he]

theorem onAllSoundsFinished_adds {P : Call → Prop} {Q : ErrorCode → Prop} (h : Routine P Q)
    (p : Platform) (o : Oracle) (s : State) : Adds P Q s (Window.onAllSoundsFinished p o s) := by
  obtain ⟨hr, hm, hw, hs, _, _, qm, qb, _, _⟩ := h
  have h1 : Adds P Q s (if !s.settings.pushToTalkKeys.isEmpty then
      s.releaseKeys s.settings.pushToTalkKeys else s) := by
    split
    · exact ⟨[Call.releaseKeys s.settings.pushToTalkKeys], [], rfl, by simp [State.releaseKeys],
        by simpa using hr _, by simp⟩
    · exact Adds.nothing P Q s
  unfold Window.onAllSoundsFinished
  dsimp only
  refine h1.andThen ?_
  generalize (if !s.settings.pushToTalkKeys.isEmpty then
      s.releaseKeys s.settings.pushToTalkKeys else s) = s1
  cases p <;> dsimp only
  · split
    · have h2 : Adds P Q s1 (if s1.settings.muteDuringPlayback then
          s1.guarded o (Call.muteInput false) ErrorCode.FailedToMute else s1) := by
        split
        · exact guarded_adds o _ _ s1 (hm false) qm
        · exact Adds.nothing P Q s1
      refine h2.andThen ?_
      generalize (if s1.settings.muteDuringPlayback then
          s1.guarded o (Call.muteInput false) ErrorCode.FailedToMute else s1) = s2
      split
      · exact guarded_adds o _ _ _ hs qb
      · exact Adds.nothing P Q _
    · exact Adds.nothing P Q s1
  · split
    · split
      · exact guarded_adds o _ _ s1 (hw false) qm
      · exact Adds.nothing P Q s1
    · exact Adds.nothing P Q s1

theorem stopSounds_tail_adds {P : Call → Prop} {Q : ErrorCode → Prop} (h : Routine P Q)
    (p : Platform) (o : Oracle) (s : State) :
    Adds P Q (Audio.stopAll s) (Window.stopSounds p o true s) := by
  have hr := h
  obtain ⟨_, _, _, hs, hp, _, _, qb, qp, _⟩ := h
  unfold Window.stopSounds
  simp only [Bool.not_true, Bool.false_eq_true, if_false]
  refine (onAllSoundsFinished_adds hr p o (Audio.stopAll s)).andThen ?_
  have h3 : Adds P Q (Window.onAllSoundsFinished p o (Audio.stopAll s))
      (Window.onAllSoundsFinished p o (Audio.stopAll s)).clearGrouped := Adds.of_eq rfl rfl
  refine h3.andThen ?_
  cases p <;> dsimp only
  · split
    · exact (guarded_adds o _ _ _ hs qb).andThen (guarded_adds o _ _ _ hp qp)
    · exact Adds.nothing P Q _
  · exact Adds.nothing P Q _

theorem redirectOutputs_adds {P : Call → Prop} {Q : ErrorCode → Prop} (h : Routine P Q)
    (o : Oracle) (outputs rest : List String) (s : State) :
    Adds P Q s (Window.redirectOutputs o outputs rest s) := by
  obtain ⟨_, _, _, _, _, hi, _, _, _, qs⟩ := h
  induction rest generalizing s with
  | nil => exact Adds.nothing P Q s
  | cons a rest ih =>
      simp only [Window.redirectOutputs]
      refine Adds.andThen ?_ (ih _)
      split
      · exact guarded_adds o _ _ s (hi a) qs
      · exact Adds.nothing P Q s

theorem applyVolumes_adds {P : Call → Prop} {Q : ErrorCode → Prop} (a b : Settings)
    (s t : State) (hc : t.calls = s.calls) (he : t.errors = s.errors) :
    Adds P Q s (Window.applyVolumes a b t) := by
  unfold Window.applyVolumes
  split
  · exact Adds.of_eq hc he
  · exact Adds.of_eq hc he

theorem reconcileMute_adds {P : Call → Prop} {Q : ErrorCode → Prop} (h : Routine P Q)
    (o : Oracle) (a b : Settings) (s : State) :
    Adds P Q s (Window.reconcileMute o a b s) := by
  obtain ⟨_, hm, _, _, _, _, qm, _, _, _⟩ := h
  unfold Window.reconcileMute
  split_ifs
  · exact guarded_adds o _ _ s (hm true) qm
  · exact guarded_adds o _ _ s (hm false) qm
  · exact Adds.nothing P Q s
  · exact Adds.nothing P Q s

theorem reconcileOutputs_adds {P : Call → Prop} {Q : ErrorCode → Prop} (h : Routine P Q)
    (o : Oracle) (a b : Settings) (s : State) :
    Adds P Q s (Window.reconcileOutputs o a b s) := by
  have hr := h
  obtain ⟨_, _, _, hs, _, _, _, qb, _, _⟩ := h
  unfold Window.reconcileOutputs
  split
  · dsimp only
    exact (guarded_adds o _ _ s hs qb).andThen (redirectOutputs_adds hr o _ _ _)
  · exact Adds.nothing P Q s

theorem reconcileDefault_adds {P : Call → Prop} {Q : ErrorCode → Prop} (h : Routine P Q)
    (hu : P Call.useAsDefault) (hv : P Call.revertDefault)
    (qu : Q ErrorCode.FailedToSetDefaultSource) (qv : Q ErrorCode.FailedToRevertDefaultSource)
    (o : Oracle) (a b : Settings) (s : State) :
    Adds P Q s (Window.reconcileDefault o a b s) := by
  obtain ⟨_, _, _, hs, _, _, _, qb, _, _⟩ := h
  unfold Window.reconcileDefault
  split_ifs
  · exact guarded_adds o _ _ s hv qv
  · dsimp only
    have h1 : Adds P Q s { s with settings := { s.settings with outputs := [] } } :=
      Adds.of_eq rfl rfl
    exact (h1.andThen (guarded_adds o _ _ _ hs qb)).andThen (guarded_adds o _ _ _ hu qu)
  · exact Adds.nothing P Q s

theorem swapBackend_adds {P : Call → Prop} {Q : ErrorCode → Prop} (h : Routine P Q)
    (h1 : P Call.stopAll) (h2 : P Call.destroy) (h3 : ∀ n, P (Call.createInstance n))
    (h4 : P Call.setup) (o : Oracle) (a b : Settings) (s : State) :
    Adds P Q s (Window.swapBackend o a b s) := by
  unfold Window.swapBackend
  split
  · dsimp only
    have e0 : Adds P Q s (Audio.stopAll s) :=
      ⟨[Call.stopAll], [], rfl, by simp [Audio.stopAll], by simpa using h1, by simp⟩
    have e1 := e0.andThen (stopSounds_tail_adds h Platform.linux o s)
    generalize Window.stopSounds Platform.linux o true s = x at e1 ⊢
    have e2 : Adds P Q x (if x.backend then { x with calls := x.calls ++ [Call.destroy] }
        else x) := by
      split
      · exact ⟨[Call.destroy], [], rfl, by simp, by simpa using h2, by simp⟩
      · exact Adds.nothing P Q x
    have e3 := e1.andThen e2
    generalize (if x.backend then { x with calls := x.calls ++ [Call.destroy] } else x) = y
      at e3 ⊢
    have e4 := e3.andThen (invoke_adds o (Call.createInstance b.audioBackend) y (h3 _))
    generalize y.invoke o (Call.createInstance b.audioBackend) = z at e4 ⊢
    refine e4.andThen ⟨[Call.setup], [], rfl, by simp, by simpa using h4, by simp⟩
  · exact Adds.nothing P Q s

theorem Adds.around {P : Call → Prop} {Q : ErrorCode → Prop} {s b t u : State} {c : Call}
    (E : Nat → List ErrorCode) (h1 : Adds P Q s b) (hc : t.calls = b.calls ++ [c])
    (he : t.errors = b.errors ++ E b.calls.length) (h2 : Adds P Q t u) :
    ∃ pre post pe1 pe2, u.calls = s.calls ++ pre ++ c :: post ∧
      u.errors = s.errors ++ pe1 ++ E (s.calls ++ pre).length ++ pe2 ∧
      (∀ x ∈ pre ++ post, P x) ∧ (∀ e ∈ pe1 ++ pe2, Q e) := by
  obtain ⟨pc1, pe1, c1, e1, p1, q1⟩ := h1
  obtain ⟨pc2, pe2, c2, e2, p2, q2⟩ := h2
  refine ⟨pc1, pc2, pe1, pe2, ?_, ?_, ?_, ?_⟩
  · rw [c2, hc, c1]
    simp
  · rw [e2, he, e1, c1]
  · intro x hx
    rcases List.mem_append.1 hx with h | h
    · exact p1 x h
    · exact p2 x h
  · intro e hx
    rcases List.mem_append.1 hx with h | h
    · exact q1 e h
    · exact q2 e h

theorem routine_default : Routine NoDefaultCall NoDefaultError := by
  simp [Routine, NoDefaultCall, NoDefaultError]

theorem routine_swap : Routine NoSwapCall (fun _ => True) := by
  simp [Routine, NoSwapCall]

theorem afterSwap_adds_default (o : Oracle) (st : Settings) (s : State) :
    Adds NoDefaultCall NoDefaultError s (afterSwap o st s) := by
  unfold afterSwap
  refine (applyVolumes_adds s.settings st s { s with settings := st } rfl rfl).andThen ?_
  exact swapBackend_adds routine_default (by simp [NoDefaultCall]) (by simp [NoDefaultCall])
    (by simp [NoDefaultCall]) (by simp [NoDefaultCall]) o _ _ _

theorem changeSettings_linux_eq (o : Oracle) (st : Settings) (s : State) :
    Window.changeSettings Platform.linux o st s =
      if (afterSwap o st s).backend then
        ((Window.reconcileOutputs o s.settings st (Window.reconcileDefault o s.settings st
            (Window.reconcileMute o s.settings st (afterSwap o st s)))).settings,
         Window.reconcileOutputs o s.settings st (Window.reconcileDefault o s.settings st
            (Window.reconcileMute o s.settings st (afterSwap o st s))))
      else ((afterSwap o st s).settings, afterSwap o st s) := rfl

/-- C16: the Linux `changeSettings` with a backend present when the settings are reconciled.
It returns the settings in force.  When `useAsDefaultDevice` goes from false to true, these
settings have an empty `outputs` list, `useAsDefault()` is called once, and
`FailedToSetDefaultSource` is emitted once if that call fails and not at all otherwise.  When it
goes from true to false the same holds of `revertDefault()` and `FailedToRevertDefaultSource`.
When it is unchanged, neither call is made and neither error code is emitted. -/
theorem changeSettings_default_device (o : Oracle) (st : Settings) (s : State)
    (hb : (afterSwap o st s).backend = true) :
    (Window.changeSettings Platform.linux o st s).1
      = (Window.changeSettings Platform.linux o st s).2.settings ∧
    (s.settings.useAsDefaultDevice = false → st.useAsDefaultDevice = true →
      (Window.changeSettings Platform.linux o st s).2.settings.outputs = [] ∧
      ∃ pre post pe1 pe2,
        (Window.changeSettings Platform.linux o st s).2.calls
          = s.calls ++ pre ++ Call.useAsDefault :: post ∧
        (Window.changeSettings Platform.linux o st s).2.errors
          = s.errors ++ pe1 ++
            (if o Call.useAsDefault (s.calls ++ pre).length then []
             else [ErrorCode.FailedToSetDefaultSource]) ++ pe2 ∧
        (∀ c ∈ pre ++ post, NoDefaultCall c) ∧ (∀ e ∈ pe1 ++ pe2, NoDefaultError e)) ∧
    (s.settings.useAsDefaultDevice = true → st.useAsDefaultDevice = false →
      ∃ pre post pe1 pe2,
        (Window.changeSettings Platform.linux o st s).2.calls
          = s.calls ++ pre ++ Call.revertDefault :: post ∧
        (Window.changeSettings Platform.linux o st s).2.errors
          = s.errors ++ pe1 ++
            (if o Call.revertDefault (s.calls ++ pre).length then []
             else [ErrorCode.FailedToRevertDefaultSource]) ++ pe2 ∧
        (∀ c ∈ pre ++ post, NoDefaultCall c) ∧ (∀ e ∈ pe1 ++ pe2, NoDefaultError e)) ∧
    (s.settings.useAsDefaultDevice = st.useAsDefaultDevice →
      Adds NoDefaultCall NoDefaultError s (Window.changeSettings Platform.linux o st s).2) := by
  rw [changeSettings_linux_eq, if_pos hb]
  have h2 := afterSwap_adds_default o st s
  have h3 := h2.andThen (reconcileMute_adds routine_default o s.settings st (afterSwap o st s))
  generalize Window.reconcileMute o s.settings st (afterSwap o st s) = s3 at h3 ⊢
  have h5 := fun x => reconcileOutputs_adds routine_default o s.settings st x
  have hset := fun x => (reconcileOutputs_core o s.settings st x).1
  refine ⟨rfl, ?_, ?_, ?_⟩
  · intro hf ht
    have e : Window.reconcileDefault o s.settings st s3
        = ((({ s3 with settings := { s3.settings with outputs := [] } } : State).guarded o
            Call.stopSoundInput ErrorCode.FailedToMoveBack).guarded o Call.useAsDefault
            ErrorCode.FailedToSetDefaultSource) := by
      simp [Window.reconcileDefault, hf, ht]
    rw [e]
    refine ⟨by simp [hset], ?_⟩
    have hs : Adds NoDefaultCall NoDefaultError s3
        (({ s3 with settings := { s3.settings with outputs := [] } } : State).guarded o
            Call.stopSoundInput ErrorCode.FailedToMoveBack) :=
      Adds.andThen (Adds.of_eq rfl rfl)
        (guarded_adds o _ _ _ (by simp [NoDefaultCall]) (by simp [NoDefaultError]))
    exact Adds.around
      (fun n => if o Call.useAsDefault n then [] else [ErrorCode.FailedToSetDefaultSource])
      (h3.andThen hs) (guarded_calls_eq o _ _ _)
      (guarded_errors_eq o Call.useAsDefault ErrorCode.FailedToSetDefaultSource _) (h5 _)
  · intro ht hf
    have e : Window.reconcileDefault o s.settings st s3
        = s3.guarded o Call.revertDefault ErrorCode.FailedToRevertDefaultSource := by
      simp [Window.reconcileDefault, hf, ht]
    rw [e]
    exact Adds.around
      (fun n => if o Call.revertDefault n then [] else [ErrorCode.FailedToRevertDefaultSource])
      h3 (guarded_calls_eq o _ _ _)
      (guarded_errors_eq o Call.revertDefault ErrorCode.FailedToRevertDefaultSource _) (h5 _)
  · intro he
    have e : Window.reconcileDefault o s.settings st s3 = s3 := by
      cases hx : st.useAsDefaultDevice <;> simp [Window.reconcileDefault, he, hx]
    rw [e]
    exact h3.andThen (h5 _)

/-- C16 on a run: in the sample state, with the output application `app` chosen, turning
`useAsDefaultDevice` on makes the calls `stopSoundInput`, `useAsDefault`, `stopSoundInput` and
leaves an empty `outputs` list. -/
theorem changeSettings_default_device_witness :
    (Window.changeSettings Platform.linux allOk
      { sampleSettings with outputs := ["app"], useAsDefaultDevice := true } sampleState).2.calls
      = [Call.stopSoundInput, Call.useAsDefault, Call.stopSoundInput] ∧
    (Window.changeSettings Platform.linux allOk
      { sampleSettings with outputs := ["app"], useAsDefaultDevice := true }
      sampleState).2.settings.outputs = [] :=
  ⟨by decide,
   ((changeSettings_default_device allOk
      { sampleSettings with outputs := ["app"], useAsDefaultDevice := true } sampleState
      (by decide)).2.1 rfl rfl).1⟩

/-! ### The swap of the backend -/

theorem reconcileDefault_playing (o : Oracle) (a b : Settings) (s : State) :
    (Window.reconcileDefault o a b s).playing = s.playing ∧
    (Window.reconcileDefault o a b s).groupedSounds = s.groupedSounds := by
  unfold Window.reconcileDefault
  split_ifs <;> simp

theorem reconcile_adds_swap (o : Oracle) (a b : Settings) (s : State) :
    Adds NoSwapCall (fun _ => True) s
      (Window.reconcileOutputs o a b (Window.reconcileDefault o a b
        (Window.reconcileMute o a b s))) ∧
    (Window.reconcileOutputs o a b (Window.reconcileDefault o a b
        (Window.reconcileMute o a b s))).playing = s.playing ∧
    (Window.reconcileOutputs o a b (Window.reconcileDefault o a b
        (Window.reconcileMute o a b s))).groupedSounds = s.groupedSounds := by
  refine ⟨?_, ?_, ?_⟩
  · exact ((reconcileMute_adds routine_swap o a b s).andThen
      (reconcileDefault_adds routine_swap (by simp [NoSwapCall]) (by simp [NoSwapCall])
        trivial trivial o a b _)).andThen (reconcileOutputs_adds routine_swap o a b _)
  · rw [(reconcileOutputs_core o a b _).2.2.2, (reconcileDefault_playing o a b _).1,
      (reconcileMute_core o a b _).2.2.2]
  · rw [(reconcileOutputs_core o a b _).2.2.1, (reconcileDefault_playing o a b _).2,
      (reconcileMute_core o a b _).2.2.1]

theorem afterSwap_changed (o : Oracle) (st : Settings) (s : State)
    (h : st.audioBackend ≠ s.settings.audioBackend) :
    (afterSwap o st s).playing = [] ∧ (afterSwap o st s).groupedSounds = ∅ ∧
    (afterSwap o st s).calls
      = (Window.stopSounds Platform.linux o true
          (Window.applyVolumes s.settings st { s with settings := st })).calls
        ++ (if s.backend then [Call.destroy] else [])
        ++ [Call.createInstance st.audioBackend, Call.setup] := by
  have hback : (Window.applyVolumes s.settings st { s with settings := st }).backend
      = s.backend := by
    unfold Window.applyVolumes
    split <;> rfl
  unfold afterSwap Window.swapBackend
  rw [if_pos h]
  dsimp only
  have hp := stopSounds_true_playing Platform.linux o
    (Window.applyVolumes s.settings st { s with settings := st })
  have hg := stopSounds_groupedSounds Platform.linux o true
    (Window.applyVolumes s.settings st { s with settings := st })
  have hb := stopSounds_backend Platform.linux o true
    (Window.applyVolumes s.settings st { s with settings := st })
  rw [hback] at hb
  generalize Window.stopSounds Platform.linux o true
    (Window.applyVolumes s.settings st { s with settings := st }) = a at hp hg hb ⊢
  rw [hb]
  cases s.backend <;> simp [hp, hg, invoke_calls_eq]

/-- C20: when the Linux `changeSettings` is called with another `audioBackend` selector,
`stopSounds(true)` runs first and returns with nothing playing and an empty registry; its
first call is `stopAll`; then come `destroy()` if there was a backend, the construction of
the backend for the new selector and the `setup` of the engine, in this order, and none of
these four calls is made again before or after; nothing plays and the registry is empty when
`changeSettings` returns.  With the same selector, on both variants, none of the four calls is
made. -/
theorem changeSettings_backend_swap (p : Platform) (o : Oracle) (st : Settings) (s : State) :
    (st.audioBackend ≠ s.settings.audioBackend →
      (Window.stopSounds Platform.linux o true
        (Window.applyVolumes s.settings st { s with settings := st })).playing = [] ∧
      (Window.stopSounds Platform.linux o true
        (Window.applyVolumes s.settings st { s with settings := st })).groupedSounds = ∅ ∧
      (∃ pre, (Window.stopSounds Platform.linux o true
          (Window.applyVolumes s.settings st { s with settings := st })).calls
            = s.calls ++ Call.stopAll :: pre ∧ ∀ c ∈ pre, NoSwapCall c) ∧
      (∃ post, (Window.changeSettings Platform.linux o st s).2.calls
          = (Window.stopSounds Platform.linux o true
              (Window.applyVolumes s.settings st { s with settings := st })).calls
            ++ (if s.backend then [Call.destroy] else [])
            ++ [Call.createInstance st.audioBackend, Call.setup] ++ post ∧
          ∀ c ∈ post, NoSwapCall c) ∧
      (Window.changeSettings Platform.linux o st s).2.playing = [] ∧
      (Window.changeSettings Platform.linux o st s).2.groupedSounds = ∅) ∧
    (st.audioBackend = s.settings.audioBackend →
      ∃ pc, (Window.changeSettings p o st s).2.calls = s.calls ++ pc ∧
        ∀ c ∈ pc, NoSwapCall c) := by
  have hv : (Window.applyVolumes s.settings st { s with settings := st }).calls = s.calls := by
    unfold Window.applyVolumes
    split <;> rfl
  refine ⟨fun h => ?_, fun h => ?_⟩
  · obtain ⟨a1, a2, a3⟩ := afterSwap_changed o st s h
    refine ⟨stopSounds_true_playing _ _ _, stopSounds_groupedSounds _ _ _ _, ?_, ?_⟩
    · obtain ⟨pc, _, c1, _, p1, _⟩ := stopSounds_tail_adds routine_swap Platform.linux o
        (Window.applyVolumes s.settings st { s with settings := st })
      refine ⟨pc, ?_, p1⟩
      rw [c1]
      simp [Audio.stopAll, hv]
    · rw [changeSettings_linux_eq]
      split
      · obtain ⟨⟨pc, _, c1, _, p1, _⟩, r2, r3⟩ :=
          reconcile_adds_swap o s.settings st (afterSwap o st s)
        exact ⟨⟨pc, by rw [c1, a3], p1⟩, by rw [r2, a1], by rw [r3, a2]⟩
      · exact ⟨⟨[], by simp [a3], by simp⟩, a1, a2⟩
  · have hs : afterSwap o st s = Window.applyVolumes s.settings st { s with settings := st } := by
      unfold afterSwap Window.swapBackend
      rw [if_neg (not_not.2 h)]
    cases p
    · rw [changeSettings_linux_eq]
      split
      · obtain ⟨⟨pc, _, c1, _, p1, _⟩, _, _⟩ :=
          reconcile_adds_swap o s.settings st (afterSwap o st s)
        exact ⟨pc, by rw [c1, hs, hv], p1⟩
      · exact ⟨[], by simp [hs, hv], by simp⟩
    · have e : (Window.changeSettings Platform.windows o st s).2 =
          Window.reconcileMic o s.settings st
            (Window.applyVolumes s.settings st { s with settings := st }) := rfl
      rw [e]
      unfold Window.reconcileMic
      split_ifs
      · exact ⟨[Call.micMute true], by rw [guarded_calls_eq, hv], by simp [NoSwapCall]⟩
      · exact ⟨[Call.micMute false], by rw [guarded_calls_eq, hv], by simp [NoSwapCall]⟩
      all_goals exact ⟨[], by simp [hv], by simp⟩

/-- C20 on a run: the sample state with the pair of instances 1 and 2 playing and another
selector.  The calls are `stopAll`, the release of the capture input and of the passthrough,
`destroy`, the construction for the selector 1 and `setup`; nothing plays afterwards. -/
theorem changeSettings_backend_swap_witness :
    (Window.changeSettings Platform.linux allOk { sampleSettings with audioBackend := 1 }
        pairedState).2.calls
      = [Call.stopAll, Call.stopSoundInput, Call.stopSoundInput, Call.stopAllPassthrough,
         Call.destroy, Call.createInstance 1, Call.setup] ∧
    (Window.changeSettings Platform.linux allOk { sampleSettings with audioBackend := 1 }
        pairedState).2.playing = [] :=
  ⟨by decide,
   ((changeSettings_backend_swap Platform.linux allOk { sampleSettings with audioBackend := 1 }
      pairedState).1 (by decide)).2.2.2.2.1⟩

/-! ### Two runs that differ in the answer to the mute -/

theorem Sim.start (s : State) : Sim [] [] s s :=
  ⟨s.errors, s.muted, rfl, rfl⟩

theorem Sim.fields {E1 E2 : List ErrorCode} {x y : State} (h : Sim E1 E2 x y) :
    y.sounds = x.sounds ∧ y.settings = x.settings ∧ y.playing = x.playing ∧
    y.groupedSounds = x.groupedSounds ∧ y.backend = x.backend ∧ y.calls = x.calls ∧
    y.passedThrough = x.passedThrough ∧ y.winMic = x.winMic ∧ y.nullSink = x.nullSink := by
  obtain ⟨_, _, _, rfl⟩ := h
  exact ⟨rfl, rfl, rfl, rfl, rfl, rfl, rfl, rfl, rfl⟩

theorem Sim.after_onError {E1 E2 : List ErrorCode} {x y : State} (h : Sim E1 E2 x y)
    (e : ErrorCode) : Sim E1 E2 (x.onError e) (y.onError e) := by
  obtain ⟨suf, m, hx, rfl⟩ := h
  exact ⟨suf ++ [e], m, by simp [State.onError, hx], by simp [State.onError]⟩

theorem Sim.after_invoke {E1 E2 : List ErrorCode} {x y : State} (h : Sim E1 E2 x y)
    {o1 o2 : Oracle} (c : Call) (hc : o1 c x.calls.length = o2 c x.calls.length) :
    Sim E1 E2 (x.invoke o1 c).2 (y.invoke o2 c).2 ∧ (y.invoke o2 c).1 = (x.invoke o1 c).1 := by
  obtain ⟨suf, m, hx, rfl⟩ := h
  refine ⟨⟨suf, ((State.invoke o2 c { x with muted := m, errors := E2 ++ suf }).2).muted,
    by simp [invoke_errors_eq, hx], ?_⟩, by simp [State.invoke, hc]⟩
  simp only [State.invoke, hc]
  cases o2 c x.calls.length <;> cases c <;> simp [State.effect]

theorem Sim.after_guarded {E1 E2 : List ErrorCode} {x y : State} (h : Sim E1 E2 x y)
    {o1 o2 : Oracle} (c : Call) (e : ErrorCode)
    (hc : o1 c x.calls.length = o2 c x.calls.length) :
    Sim E1 E2 (x.guarded o1 c e) (y.guarded o2 c e) := by
  obtain ⟨h1, h2⟩ := h.after_invoke c hc
  unfold State.guarded
  dsimp only
  rw [h2]
  split
  · exact h1
  · exact h1.after_onError e

theorem Sim.after_pressKeys {E1 E2 : List ErrorCode} {x y : State} (h : Sim E1 E2 x y)
    (k : List Int) : Sim E1 E2 (x.pressKeys k) (y.pressKeys k) := by
  obtain ⟨suf, m, hx, rfl⟩ := h
  exact ⟨suf, m, by simp [State.pressKeys, hx], by simp [State.pressKeys]⟩

theorem Sim.after_releaseKeys {E1 E2 : List ErrorCode} {x y : State} (h : Sim E1 E2 x y)
    (k : List Int) : Sim E1 E2 (x.releaseKeys k) (y.releaseKeys k) := by
  obtain ⟨suf, m, hx, rfl⟩ := h
  exact ⟨suf, m, by simp [State.releaseKeys, hx], by simp [State.releaseKeys]⟩

theorem Sim.after_insertGrouped {E1 E2 : List ErrorCode} {x y : State} (h : Sim E1 E2 x y)
    (l r : Nat) : Sim E1 E2 (x.insertGrouped l r) (y.insertGrouped l r) := by
  obtain ⟨suf, m, hx, rfl⟩ := h
  exact ⟨suf, m, by simp [State.insertGrouped, hx], by simp [State.insertGrouped]⟩

theorem Sim.after_eraseGrouped {E1 E2 : List ErrorCode} {x y : State} (h : Sim E1 E2 x y)
    (id : Nat) : Sim E1 E2 (x.eraseGrouped id) (y.eraseGrouped id) := by
  obtain ⟨suf, m, hx, rfl⟩ := h
  exact ⟨suf, m, by simp [State.eraseGrouped, hx], by simp [State.eraseGrouped]⟩

theorem Sim.after_clearGrouped {E1 E2 : List ErrorCode} {x y : State} (h : Sim E1 E2 x y) :
    Sim E1 E2 x.clearGrouped y.clearGrouped := by
  obtain ⟨suf, m, hx, rfl⟩ := h
  exact ⟨suf, m, by simp [State.clearGrouped, hx], by simp [State.clearGrouped]⟩

theorem Sim.after_stopAll {E1 E2 : List ErrorCode} {x y : State} (h : Sim E1 E2 x y) :
    Sim E1 E2 (Audio.stopAll x) (Audio.stopAll y) := by
  obtain ⟨suf, m, hx, rfl⟩ := h
  exact ⟨suf, m, by simp [Audio.stopAll, hx], by simp [Audio.stopAll]⟩

theorem Sim.after_stop {E1 E2 : List ErrorCode} {x y : State} (h : Sim E1 E2 x y) (id : Nat) :
    Sim E1 E2 (Audio.stop id x).2 (Audio.stop id y).2 ∧
    (Audio.stop id y).1 = (Audio.stop id x).1 := by
  obtain ⟨suf, m, hx, rfl⟩ := h
  unfold Audio.stop
  dsimp only
  split
  · exact ⟨⟨suf, m, hx, rfl⟩, rfl⟩
  · exact ⟨⟨suf, m, hx, rfl⟩, rfl⟩

theorem Sim.after_play {E1 E2 : List ErrorCode} {x y : State} (h : Sim E1 E2 x y)
    {o1 o2 : Oracle} (snd : Sound) (dev : Option AudioDevice)
    (hc : o1 (Call.play snd.id dev) x.calls.length = o2 (Call.play snd.id dev) x.calls.length) :
    Sim E1 E2 (Audio.play o1 snd dev x).2 (Audio.play o2 snd dev y).2 ∧
    (Audio.play o2 snd dev y).1 = (Audio.play o1 snd dev x).1 := by
  obtain ⟨suf, m, hx, rfl⟩ := h
  unfold Audio.play
  dsimp only
  rw [hc]
  split
  · exact ⟨⟨suf, m, hx, rfl⟩, rfl⟩
  · exact ⟨⟨suf, m, hx, rfl⟩, rfl⟩

theorem Sim.after_onAllSoundsFinished {E1 E2 : List ErrorCode} {x y : State} (h : Sim E1 E2 x y)
    {o1 o2 : Oracle} (hag : ∀ c n, c ≠ Call.muteInput true → o1 c n = o2 c n) (p : Platform) :
    Sim E1 E2 (Window.onAllSoundsFinished p o1 x) (Window.onAllSoundsFinished p o2 y) := by
  have h1 : Sim E1 E2
      (if !x.settings.pushToTalkKeys.isEmpty then x.releaseKeys x.settings.pushToTalkKeys else x)
      (if !y.settings.pushToTalkKeys.isEmpty then y.releaseKeys y.settings.pushToTalkKeys
       else y) := by
    rw [h.fields.2.1]
    split
    · exact h.after_releaseKeys _
    · exact h
  unfold Window.onAllSoundsFinished
  dsimp only
  generalize (if !x.settings.pushToTalkKeys.isEmpty then
    x.releaseKeys x.settings.pushToTalkKeys else x) = x1 at h1 ⊢
  generalize (if !y.settings.pushToTalkKeys.isEmpty then
    y.releaseKeys y.settings.pushToTalkKeys else y) = y1 at h1 ⊢
  cases p <;> dsimp only
  · rw [h1.fields.2.2.2.2.1]
    split
    · have h2 : Sim E1 E2
          (if x1.settings.muteDuringPlayback then
            x1.guarded o1 (Call.muteInput false) ErrorCode.FailedToMute else x1)
          (if y1.settings.muteDuringPlayback then
            y1.guarded o2 (Call.muteInput false) ErrorCode.FailedToMute else y1) := by
        rw [h1.fields.2.1]
        split
        · exact h1.after_guarded _ _ (hag _ _ (by simp))
        · exact h1
      generalize (if x1.settings.muteDuringPlayback then
        x1.guarded o1 (Call.muteInput false) ErrorCode.FailedToMute else x1) = x2 at h2 ⊢
      generalize (if y1.settings.muteDuringPlayback then
        y1.guarded o2 (Call.muteInput false) ErrorCode.FailedToMute else y1) = y2 at h2 ⊢
      rw [h2.fields.2.2.2.2.2.2.1]
      split
      · exact h2.after_guarded _ _ (hag _ _ (by simp))
      · exact h2
    · exact h1
  · rw [h1.fields.2.1, h1.fields.2.2.2.2.2.2.2.1]
    split
    · split
      · exact h1.after_guarded _ _ (hag _ _ (by simp))
      · exact h1
    · exact h1

theorem Sim.after_stopSound {E1 E2 : List ErrorCode} {x y : State} (h : Sim E1 E2 x y)
    {o1 o2 : Oracle} (hag : ∀ c n, c ≠ Call.muteInput true → o1 c n = o2 c n) (p : Platform)
    (id : Nat) :
    Sim E1 E2 (Window.stopSound p o1 id x).2 (Window.stopSound p o2 id y).2 ∧
    (Window.stopSound p o2 id y).1 = (Window.stopSound p o1 id x).1 := by
  unfold Window.stopSound
  rw [h.fields.2.1, h.fields.2.2.2.1]
  split
  · exact ⟨h, rfl⟩
  · dsimp only
    obtain ⟨h1, h2⟩ := h.after_stop id
    rw [h2]
    refine ⟨?_, rfl⟩
    generalize Audio.stop id x = rx at h1 ⊢
    generalize Audio.stop id y = ry at h1 ⊢
    have fin : ∀ x2 y2 : State, Sim E1 E2 x2 y2 →
        Sim E1 E2 (if x2.playing.isEmpty then Window.onAllSoundsFinished p o1 x2 else x2)
          (if y2.playing.isEmpty then Window.onAllSoundsFinished p o2 y2 else y2) := by
      intro x2 y2 h3
      rw [h3.fields.2.2.1]
      split
      · exact h3.after_onAllSoundsFinished hag p
      · exact h3
    generalize (if Window.dualOutput x.settings then findRemote id x.groupedSounds else none)
      = remote
    cases remote
    · exact fin _ _ h1
    · exact fin _ _ ((h1.after_stop _).1.after_eraseGrouped id)

theorem Sim.after_stopSounds {E1 E2 : List ErrorCode} {x y : State} (h : Sim E1 E2 x y)
    {o1 o2 : Oracle} (hag : ∀ c n, c ≠ Call.muteInput true → o1 c n = o2 c n) (p : Platform) :
    Sim E1 E2 (Window.stopSounds p o1 true x) (Window.stopSounds p o2 true y) := by
  unfold Window.stopSounds
  simp only [Bool.not_true, Bool.false_eq_true, if_false]
  have h1 := (h.after_stopAll.after_onAllSoundsFinished hag p).after_clearGrouped
  generalize (Window.onAllSoundsFinished p o1 (Audio.stopAll x)).clearGrouped = x3 at h1 ⊢
  generalize (Window.onAllSoundsFinished p o2 (Audio.stopAll y)).clearGrouped = y3 at h1 ⊢
  cases p <;> dsimp only
  · rw [h1.fields.2.2.2.2.1]
    split
    · have h2 := h1.after_guarded Call.stopSoundInput ErrorCode.FailedToMoveBack (hag _ _ (by simp))
      have e := h2.fields.2.2.2.2.2.1
      exact h2.after_guarded Call.stopAllPassthrough ErrorCode.FailedToMoveBackPassthrough
        (hag _ _ (by simp))
    · exact h1
  · exact h1

theorem Sim.after_moveOutputs {o1 o2 : Oracle}
    (hag : ∀ c n, c ≠ Call.muteInput true → o1 c n = o2 c n) (outputs : List String) :
    ∀ {E1 E2 : List ErrorCode} {x y : State} (_ : Sim E1 E2 x y) (b : Bool),
      Sim E1 E2 (Window.moveOutputs o1 outputs b x).2 (Window.moveOutputs o2 outputs b y).2 ∧
      (Window.moveOutputs o2 outputs b y).1 = (Window.moveOutputs o1 outputs b x).1 := by
  induction outputs with
  | nil =>
      intro E1 E2 x y h b
      exact ⟨h, rfl⟩
  | cons a rest ih =>
      intro E1 E2 x y h b
      obtain ⟨h1, h2⟩ := h.after_invoke (Call.inputSoundTo a) (hag _ _ (by simp))
      simp only [Window.moveOutputs]
      rw [h2]
      exact ih h1 _

theorem Sim.after_startLinux {E1 E2 : List ErrorCode} {x y : State} (h : Sim E1 E2 x y)
    {o1 o2 : Oracle} (hag : ∀ c n, c ≠ Call.muteInput true → o1 c n = o2 c n) (snd : Sound) :
    Sim E1 E2 (Window.startLinux o1 snd x).2 (Window.startLinux o2 snd y).2 ∧
    (Window.startLinux o2 snd y).1 = (Window.startLinux o1 snd x).1 := by
  unfold Window.startLinux
  dsimp only
  obtain ⟨p1, q1⟩ := h.after_play snd none (hag _ _ (by simp))
  generalize Audio.play o1 snd none x = r1x at p1 q1 ⊢
  generalize Audio.play o2 snd none y = r1y at p1 q1 ⊢
  rw [p1.fields.2.2.2.2.2.2.2.2]
  obtain ⟨p2, q2⟩ := p1.after_play snd (some r1x.2.nullSink) (hag _ _ (by simp))
  generalize Audio.play o1 snd (some r1x.2.nullSink) r1x.2 = r2x at p2 q2 ⊢
  generalize Audio.play o2 snd (some r1x.2.nullSink) r1y.2 = r2y at p2 q2 ⊢
  rw [q1, q2]
  rcases r1x with ⟨a, sx⟩
  rcases r2x with ⟨b, tx⟩
  cases a <;> cases b <;> dsimp only at p2 ⊢
  · exact ⟨p2.after_onError _, rfl⟩
  · exact ⟨p2.after_onError _, rfl⟩
  · exact ⟨p2.after_onError _, rfl⟩
  · rename_i l r
    have h4 := p2.after_insertGrouped l.id r.id
    generalize tx.insertGrouped l.id r.id = s4x at h4 ⊢
    generalize r2y.2.insertGrouped l.id r.id = s4y at h4 ⊢
    rw [h4.fields.2.1, h4.fields.2.2.2.2.1]
    split
    · exact ⟨h4, rfl⟩
    · split
      · obtain ⟨m1, m2⟩ := Sim.after_moveOutputs hag s4x.settings.outputs h4 false
        generalize Window.moveOutputs o1 s4x.settings.outputs false s4x = mx at m1 m2 ⊢
        generalize Window.moveOutputs o2 s4x.settings.outputs false s4y = my at m1 m2 ⊢
        rw [m2]
        split
        · exact ⟨(((m1.after_stopSound hag Platform.linux l.id).1.after_stopSound hag Platform.linux
            r.id).1).after_onError _, rfl⟩
        · exact ⟨m1, rfl⟩
      · exact ⟨h4.after_onError _, rfl⟩

theorem Sim.after_mute {x y : State} (h : Sim [] [] x y) (o1 o2 : Oracle) (b : Bool)
    (e : ErrorCode) :
    Sim (x.errors ++ (if o1 (Call.muteInput b) x.calls.length then [] else [e]))
        (x.errors ++ (if o2 (Call.muteInput b) x.calls.length then [] else [e]))
        (x.guarded o1 (Call.muteInput b) e) (y.guarded o2 (Call.muteInput b) e) := by
  obtain ⟨suf, m, hx, rfl⟩ := h
  refine ⟨[], ((State.guarded o2 (Call.muteInput b) e
      { x with muted := m, errors := [] ++ suf })).muted,
    by simp [guarded_errors_eq], ?_⟩
  simp only [State.guarded, State.invoke]
  simp only [List.nil_append] at hx
  cases o1 (Call.muteInput b) x.calls.length <;> cases o2 (Call.muteInput b) x.calls.length <;>
    simp [State.effect, State.onError, hx]

/-- C19: let two oracles give the same answers but to `muteInput(true)`, and let
`muteDuringPlayback` be on.  The two runs of the Linux `playSound(id)` return the same value,
make the same calls and end with the same playing list and the same registry: the state of the
second run is that of the first but for the mute of the capture source and for the error
codes.  The error codes of the two runs are the same before and after the mute step; at the
mute step each run emits `FailedToMute` exactly if the sound exists, a backend is present and
its own `muteInput(true)` fails. -/
theorem playSound_mute_failure (o1 o2 : Oracle) (id : Nat) (s : State)
    (hag : ∀ c n, c ≠ Call.muteInput true → o1 c n = o2 c n)
    (hm : s.settings.muteDuringPlayback = true) :
    (Window.playSoundLinux o2 id s).1 = (Window.playSoundLinux o1 id s).1 ∧
    (Window.playSoundLinux o2 id s).2.playing = (Window.playSoundLinux o1 id s).2.playing ∧
    (Window.playSoundLinux o2 id s).2.groupedSounds
      = (Window.playSoundLinux o1 id s).2.groupedSounds ∧
    (Window.playSoundLinux o2 id s).2.calls = (Window.playSoundLinux o1 id s).2.calls ∧
    ∃ pre suf m,
      (Window.playSoundLinux o1 id s).2.errors = pre ++ muteError o1 o1 id s ++ suf ∧
      (Window.playSoundLinux o2 id s).2
        = { (Window.playSoundLinux o1 id s).2 with
            muted := m, errors := pre ++ muteError o2 o1 id s ++ suf } := by
  have key : (Window.playSoundLinux o2 id s).1 = (Window.playSoundLinux o1 id s).1 ∧
      ∃ pre, Sim (pre ++ muteError o1 o1 id s) (pre ++ muteError o2 o1 id s)
        (Window.playSoundLinux o1 id s).2 (Window.playSoundLinux o2 id s).2 := by
    unfold Window.playSoundLinux
    cases hs : getSound id s with
    | none =>
        refine ⟨rfl, s.errors ++ [ErrorCode.SoundNotFound], ?_⟩
        simp only [muteError, hs, Option.isSome_none, Bool.false_and, Bool.false_eq_true,
          if_false, List.append_nil]
        exact ⟨[], s.muted, by simp [State.onError], by simp [State.onError]⟩
    | some sound =>
        dsimp only
        have h1 : Sim [] []
            (if !s.settings.allowOverlapping then Window.stopSounds Platform.linux o1 true s
             else s)
            (if !s.settings.allowOverlapping then Window.stopSounds Platform.linux o2 true s
             else s) := by
          split
          · exact (Sim.start s).after_stopSounds hag Platform.linux
          · exact Sim.start s
        have hset : (if !s.settings.allowOverlapping then
            Window.stopSounds Platform.linux o1 true s else s).settings = s.settings := by
          split <;> simp
        have hbk : (if !s.settings.allowOverlapping then
            Window.stopSounds Platform.linux o1 true s else s).backend = s.backend := by
          split <;> simp
        have hprep : ∀ o : Oracle, Window.preparePlay Platform.linux true o s =
            (let s1 := if !s.settings.allowOverlapping then
                Window.stopSounds Platform.linux o true s else s
             let s2 := if s1.settings.muteDuringPlayback then
                (if s1.backend then s1.guarded o (Call.muteInput true) ErrorCode.FailedToMute
                 else s1) else s1
             if !s2.settings.pushToTalkKeys.isEmpty then s2.pressKeys s2.settings.pushToTalkKeys
             else s2) := by
          intro o
          unfold Window.preparePlay
          split <;> rfl
        rw [hprep o1, hprep o2]
        dsimp only
        simp only [muteError, muteTime, hs, Option.isSome_some, Bool.true_and]
        generalize (if !s.settings.allowOverlapping then
            Window.stopSounds Platform.linux o1 true s else s) = x1 at h1 hset hbk ⊢
        generalize (if !s.settings.allowOverlapping then
            Window.stopSounds Platform.linux o2 true s else s) = y1 at h1 ⊢
        rw [h1.fields.2.1, h1.fields.2.2.2.2.1, hset, hbk, hm]
        simp only [if_true]
        have fin : ∀ (E1 E2 : List ErrorCode) (x2 y2 : State), Sim E1 E2 x2 y2 →
            Sim E1 E2
              (Window.startLinux o1 sound
                (if !x2.settings.pushToTalkKeys.isEmpty then
                  x2.pressKeys x2.settings.pushToTalkKeys else x2)).2
              (Window.startLinux o2 sound
                (if !y2.settings.pushToTalkKeys.isEmpty then
                  y2.pressKeys y2.settings.pushToTalkKeys else y2)).2 ∧
            (Window.startLinux o2 sound
                (if !y2.settings.pushToTalkKeys.isEmpty then
                  y2.pressKeys y2.settings.pushToTalkKeys else y2)).1
              = (Window.startLinux o1 sound
                (if !x2.settings.pushToTalkKeys.isEmpty then
                  x2.pressKeys x2.settings.pushToTalkKeys else x2)).1 := by
          intro E1 E2 x2 y2 h2
          rw [h2.fields.2.1]
          split
          · exact (h2.after_pressKeys _).after_startLinux hag sound
          · exact h2.after_startLinux hag sound
        cases hb : s.backend
        · simp only [Bool.false_eq_true, if_false, Bool.false_and, List.append_nil]
          obtain ⟨f1, f2⟩ := fin [] [] x1 y1 h1
          exact ⟨f2, [], f1⟩
        · simp only [if_true, Bool.true_and]
          have h2 := h1.after_mute o1 o2 true ErrorCode.FailedToMute
          obtain ⟨f1, f2⟩ := fin _ _ _ _ h2
          refine ⟨f2, x1.errors, ?_⟩
          have e : ∀ o : Oracle,
              (if (!o (Call.muteInput true) x1.calls.length) = true then
                [ErrorCode.FailedToMute] else [])
              = (if o (Call.muteInput true) x1.calls.length then []
                 else [ErrorCode.FailedToMute]) := by
            intro o
            cases o (Call.muteInput true) x1.calls.length <;> rfl
          rw [e o1, e o2]
          exact f1
  obtain ⟨k1, pre, k2⟩ := key
  obtain ⟨f1, f2, f3, f4, f5, f6, _⟩ := k2.fields
  refine ⟨k1, f3, f4, f6, ?_⟩
  obtain ⟨suf, m, hx, hy⟩ := k2
  exact ⟨pre, suf, m, hx, hy⟩

/-- C19 on a run: the sample state with `muteDuringPlayback` on, once with every call
succeeding and once with `muteInput(true)` failing.  The first run emits nothing, the second
emits `FailedToMute`, and both return the same instance. -/
theorem playSound_mute_failure_witness :
    (Window.playSoundLinux allOk 1
      { sampleState with settings := { sampleSettings with muteDuringPlayback := true } }).2.errors
      = [] ∧
    (Window.playSoundLinux muteFails 1
      { sampleState with settings := { sampleSettings with muteDuringPlayback := true } }).2.errors
      = [ErrorCode.FailedToMute] ∧
    (Window.playSoundLinux muteFails 1
      { sampleState with settings := { sampleSettings with muteDuringPlayback := true } }).1
      = (Window.playSoundLinux allOk 1
      { sampleState with settings := { sampleSettings with muteDuringPlayback := true } }).1 :=
  ⟨by decide, by decide,
   (playSound_mute_failure allOk muteFails 1
      { sampleState with settings := { sampleSettings with muteDuringPlayback := true } }
      (fun c n h => by simp [allOk, muteFails, h]) rfl).1⟩

/-! ### The end of a sound -/

theorem eraseGroup_of_not_mem (id : Nat) (m : Registry) (h : id ∉ m) : eraseGroup id m = m := by
  apply AList.ext
  simp only [eraseGroup, AList.erase]
  exact List.kerase_of_not_mem_keys h

theorem onSoundFinished_eq (p : Platform) (o : Oracle) (sound : PlayingSound) (s : State) :
    Window.onSoundFinished p o sound s =
      if s.playing.length = 1 then Window.onAllSoundsFinished p o (s.eraseGrouped sound.id)
      else s.eraseGrouped sound.id := by
  have e : (if (findRemote sound.id s.groupedSounds).isSome then s.eraseGrouped sound.id else s)
      = s.eraseGrouped sound.id := by
    split
    · rfl
    · rename_i h
      have hn : sound.id ∉ s.groupedSounds := by
        intro hm
        apply h
        simpa [findRemote] using AList.lookup_isSome.2 hm
      simp [State.eraseGrouped, eraseGroup_of_not_mem _ _ hn]
  unfold Window.onSoundFinished
  simp only [e]
  simp [State.eraseGrouped]

/-- C21: `onSoundFinished(sound)` erases the key `sound.id` from `groupedSounds`: the key is
absent afterwards, every other key keeps its value, and a registry without the key is left as
it is.  The playing list is not changed.  The all-finished sequence is run, once and after the
removal, exactly when `getPlayingSounds()` has one entry at the time of the call; with the
finished sound among the playing ones this is exactly when it is the only entry, and the
sequence is not run when an instance with another id is playing. -/
theorem onSoundFinished_effect (p : Platform) (o : Oracle) (sound : PlayingSound) (s : State) :
    (Window.onSoundFinished p o sound s).groupedSounds = eraseGroup sound.id s.groupedSounds ∧
    sound.id ∉ (Window.onSoundFinished p o sound s).groupedSounds ∧
    (∀ k, k ≠ sound.id →
      AList.lookup k (Window.onSoundFinished p o sound s).groupedSounds
        = AList.lookup k s.groupedSounds) ∧
    (sound.id ∉ s.groupedSounds →
      (Window.onSoundFinished p o sound s).groupedSounds = s.groupedSounds) ∧
    (Window.onSoundFinished p o sound s).playing = s.playing ∧
    (s.playing.length = 1 →
      Window.onSoundFinished p o sound s
        = Window.onAllSoundsFinished p o (s.eraseGrouped sound.id)) ∧
    (s.playing.length ≠ 1 → Window.onSoundFinished p o sound s = s.eraseGrouped sound.id) ∧
    ((∃ q ∈ s.playing, q.id = sound.id) →
      ((s.playing.length = 1 ↔ ∃ q, s.playing = [q] ∧ q.id = sound.id) ∧
       ((∃ r ∈ s.playing, r.id ≠ sound.id) →
          Window.onSoundFinished p o sound s = s.eraseGrouped sound.id))) := by
  have hg : (Window.onSoundFinished p o sound s).groupedSounds
      = eraseGroup sound.id s.groupedSounds := by
    rw [onSoundFinished_eq]
    split <;> simp [State.eraseGrouped]
  have hone : (∃ q ∈ s.playing, q.id = sound.id) →
      (s.playing.length = 1 ↔ ∃ q, s.playing = [q] ∧ q.id = sound.id) := by
    rintro ⟨q, hq, hid⟩
    constructor
    · intro hl
      obtain ⟨a, ha⟩ := List.length_eq_one.1 hl
      rw [ha] at hq
      simp only [List.mem_singleton] at hq
      exact ⟨a, ha, by rw [← hq]; exact hid⟩
    · rintro ⟨a, ha, _⟩
      rw [ha]
      rfl
  refine ⟨hg, ?_, ?_, ?_, ?_, ?_, ?_, ?_⟩
  · rw [hg]
    simp [eraseGroup]
  · intro k hk
    rw [hg]
    simp [eraseGroup, AList.lookup_erase_ne hk]
  · intro h
    rw [hg, eraseGroup_of_not_mem _ _ h]
  · rw [onSoundFinished_eq]
    split <;> simp
  · intro h
    rw [onSoundFinished_eq, if_pos h]
  · intro h
    rw [onSoundFinished_eq, if_neg h]
  · intro hmem
    refine ⟨hone hmem, ?_⟩
    rintro ⟨r, hr, hne⟩
    rw [onSoundFinished_eq, if_neg]
    intro hl
    obtain ⟨a, ha, hid⟩ := (hone hmem).1 hl
    rw [ha] at hr
    simp only [List.mem_singleton] at hr
    exact hne (by rw [hr]; exact hid)

/-- C21 on a run: in the sample state with the pair of instances 1 and 2 playing, the end of
the instance 1 removes the key 1, makes no call and leaves both instances in the list. -/
theorem onSoundFinished_effect_witness :
    Window.onSoundFinished Platform.linux allOk (sampleInstance 1 1 ⟨"default", true⟩) pairedState
      = pairedState.eraseGrouped 1 ∧
    (Window.onSoundFinished Platform.linux allOk (sampleInstance 1 1 ⟨"default", true⟩)
      pairedState).calls = [] :=
  ⟨((onSoundFinished_effect Platform.linux allOk (sampleInstance 1 1 ⟨"default", true⟩)
      pairedState).2.2.2.2.2.2.2 ⟨sampleInstance 1 1 ⟨"default", true⟩, by simp [pairedState],
        rfl⟩).2 ⟨sampleInstance 2 1 ⟨"soundux_sink", false⟩, by simp [pairedState],
        by decide⟩,
   by decide⟩

/-- C22: the Linux `onAllSoundsFinished` with a backend present makes, in this order, the call
`releaseKeys(pushToTalkKeys)` exactly if `pushToTalkKeys` is not empty, the call
`muteInput(false)` exactly if `muteDuringPlayback` is on, and the call `stopSoundInput()`
exactly if `currentlyPassedThrough()` is empty, and no other call.  It changes neither
`groupedSounds` nor the playing list. -/
theorem onAllSoundsFinished_calls (o : Oracle) (s : State) (hb : s.backend = true) :
    (Window.onAllSoundsFinished Platform.linux o s).calls
      = s.calls
        ++ (if s.settings.pushToTalkKeys.isEmpty then []
            else [Call.releaseKeys s.settings.pushToTalkKeys])
        ++ (if s.settings.muteDuringPlayback then [Call.muteInput false] else [])
        ++ (if s.passedThrough.isEmpty then [Call.stopSoundInput] else []) ∧
    (Window.onAllSoundsFinished Platform.linux o s).groupedSounds = s.groupedSounds ∧
    (Window.onAllSoundsFinished Platform.linux o s).playing = s.playing := by
  refine ⟨?_, by simp, by simp⟩
  have hp : ∀ (c : Call) (e : ErrorCode) (x : State),
      (∀ n, c ≠ Call.passthroughFrom n) → (∀ n, c ≠ Call.stopPassthrough n) →
      c ≠ Call.stopAllPassthrough → (x.guarded o c e).passedThrough = x.passedThrough := by
    intro c e x h1 h2 h3
    simp only [State.guarded, State.invoke]
    cases o c x.calls.length <;> cases c <;> simp_all [State.effect, State.onError]
  unfold Window.onAllSoundsFinished
  dsimp only
  cases hk : s.settings.pushToTalkKeys.isEmpty <;> cases hm : s.settings.muteDuringPlayback <;>
    cases ht : s.passedThrough.isEmpty <;>
    simp [hb, hk, hm, ht, State.releaseKeys, guarded_calls_eq, hp]

/-- C22 on a run: the sample state with a push-to-talk key and `muteDuringPlayback` on. -/
theorem onAllSoundsFinished_calls_witness :
    (Window.onAllSoundsFinished Platform.linux allOk
      { sampleState with
        settings := { sampleSettings with pushToTalkKeys := [7], muteDuringPlayback := true } }).calls
      = [Call.releaseKeys [7], Call.muteInput false, Call.stopSoundInput] :=
  ((onAllSoundsFinished_calls allOk
      { sampleState with
        settings := { sampleSettings with pushToTalkKeys := [7], muteDuringPlayback := true } }
      rfl).1).trans (by decide)

/-! ### Stopping in the driver -/

theorem stopLoop_eq_eraseP (deviceId : Nat) (l : List Playback.PlayingDevice) :
    Playback.stopLoop deviceId l = l.eraseP (fun e => e.id == deviceId) := by
  induction l with
  | nil => rfl
  | cons a l ih =>
      simp only [Playback.stopLoop, List.eraseP_cons, ih]
      cases h : (a.id == deviceId) <;> simp

/-- C23: `Playback::stop(deviceId)` removes from `currentlyPlayingDevices` the first entry
with the id `deviceId` and nothing else: the list splits into the entries before it, none of
which has the id, the entry, and the entries after it, and the result is the entries before
followed by the entries after.  Without such an entry the list is left as it is.  The counter
and the volumes are not touched.  `Playback::stopAllAudio` leaves the list empty. -/
theorem stop_removes_first (deviceId : Nat) (s : Playback.Driver) :
    (Playback.stop deviceId s).currentlyPlayingDevices
      = s.currentlyPlayingDevices.eraseP (fun e => e.id == deviceId) ∧
    ((∃ e ∈ s.currentlyPlayingDevices, e.id = deviceId) →
      ∃ before entry after,
        s.currentlyPlayingDevices = before ++ entry :: after ∧ entry.id = deviceId ∧
        (∀ e ∈ before, e.id ≠ deviceId) ∧
        (Playback.stop deviceId s).currentlyPlayingDevices = before ++ after) ∧
    ((∀ e ∈ s.currentlyPlayingDevices, e.id ≠ deviceId) →
      (Playback.stop deviceId s).currentlyPlayingDevices = s.currentlyPlayingDevices) ∧
    (Playback.stop deviceId s).counter = s.counter ∧
    (Playback.stop deviceId s).usedDevices = s.usedDevices ∧
    (Playback.stopAllAudio s).currentlyPlayingDevices = [] ∧
    (Playback.stopAllAudio s).counter = s.counter ∧
    (Playback.stopAllAudio s).usedDevices = s.usedDevices := by
  have h0 : (Playback.stop deviceId s).currentlyPlayingDevices
      = s.currentlyPlayingDevices.eraseP (fun e => e.id == deviceId) :=
    stopLoop_eq_eraseP deviceId _
  refine ⟨h0, ?_, ?_, rfl, rfl, rfl, rfl, rfl⟩
  · rintro ⟨e, he, hid⟩
    obtain ⟨a, l1, l2, h1, h2, h3, h4⟩ :=
      @List.exists_of_eraseP _ (fun e : Playback.PlayingDevice => e.id == deviceId) _ _ he
        (by simp [hid])
    refine ⟨l1, a, l2, h3, by simpa using h2, ?_, by rw [h0, h4]⟩
    intro x hx
    simpa using h1 x hx
  · intro h
    rw [h0]
    exact List.eraseP_of_forall_not (fun a ha => by simpa using h a ha)

/-- C23 on a run: of the entries with the ids 1, 2, 1 the call `stop(1)` removes the first. -/
theorem stop_removes_first_witness :
    (Playback.stop 1
      { counter := 3, usedDevices := [],
        currentlyPlayingDevices :=
          [⟨1, "a.mp3", "A", false⟩, ⟨2, "b.mp3", "A", false⟩, ⟨1, "c.mp3", "A", false⟩] }
      ).currentlyPlayingDevices
      = [⟨2, "b.mp3", "A", false⟩, ⟨1, "c.mp3", "A", false⟩] ∧
    ∃ before entry after,
      ([⟨1, "a.mp3", "A", false⟩, ⟨2, "b.mp3", "A", false⟩, ⟨1, "c.mp3", "A", false⟩] :
          List Playback.PlayingDevice) = before ++ entry :: after ∧ entry.id = 1 ∧
      (∀ e ∈ before, e.id ≠ 1) ∧
      (Playback.stop 1
        { counter := 3, usedDevices := [],
          currentlyPlayingDevices :=
            [⟨1, "a.mp3", "A", false⟩, ⟨2, "b.mp3", "A", false⟩, ⟨1, "c.mp3", "A", false⟩] }
        ).currentlyPlayingDevices = before ++ after :=
  ⟨by decide,
   (stop_removes_first 1
      { counter := 3, usedDevices := [],
        currentlyPlayingDevices :=
          [⟨1, "a.mp3", "A", false⟩, ⟨2, "b.mp3", "A", false⟩, ⟨1, "c.mp3", "A", false⟩] }).2.1
     ⟨⟨1, "a.mp3", "A", false⟩, by simp, rfl⟩⟩

/-! ### The content of a tab -/

theorem stringLess_asymm : ∀ a b : List Char,
    Window.stringLess a b = true → Window.stringLess b a = false
  | _, [] => by simp [Window.stringLess]
  | [], _ :: _ => by simp [Window.stringLess]
  | a :: first, b :: second => by
      have ih := stringLess_asymm first second
      simp only [Window.stringLess]
      split_ifs <;> first | omega | simp | exact ih

theorem stringLess_between : ∀ c a b : List Char,
    Window.stringLess c a = true → Window.stringLess c b = true ∨ Window.stringLess b a = true
  | _, [], _ => by simp [Window.stringLess]
  | [], _ :: _, [] => by simp [Window.stringLess]
  | [], _ :: _, _ :: _ => by simp [Window.stringLess]
  | _ :: _, _ :: _, [] => by simp [Window.stringLess]
  | x :: c, y :: a, z :: b => by
      have ih := stringLess_between c a b
      simp only [Window.stringLess]
      split_ifs <;> first | omega | simp | exact ih

theorem comesFirst_asymm (mode : SortMode) (a b : Sound)
    (h : Window.comesFirst mode a b = true) : Window.comesFirst mode b a = false := by
  cases mode <;> simp only [Window.comesFirst, decide_eq_true_eq, decide_eq_false_iff_not] at h ⊢
  · omega
  · omega
  · exact stringLess_asymm _ _ h
  · exact stringLess_asymm _ _ h

theorem comesFirst_between (mode : SortMode) (a b c : Sound)
    (h : Window.comesFirst mode c a = true) :
    Window.comesFirst mode c b = true ∨ Window.comesFirst mode b a = true := by
  cases mode <;> simp only [Window.comesFirst, decide_eq_true_eq] at h ⊢
  · omega
  · omega
  · exact (stringLess_between _ _ b.name.toList h).symm
  · exact stringLess_between _ _ b.name.toList h

theorem stdSort_perm (comp : Sound → Sound → Bool) (l : List Sound) :
    List.Perm (Window.stdSort comp l) l :=
  List.perm_insertionSort _ l

theorem stdSort_sorted (mode : SortMode) (l : List Sound) :
    List.Pairwise (fun a b => Window.comesFirst mode b a = false)
      (Window.stdSort (Window.comesFirst mode) l) := by
  haveI : IsTotal Sound (fun a b => Window.comesFirst mode b a = false) :=
    ⟨fun a b => by
      cases h : Window.comesFirst mode b a
      · exact Or.inl rfl
      · exact Or.inr (comesFirst_asymm mode b a h)⟩
  haveI : IsTrans Sound (fun a b => Window.comesFirst mode b a = false) :=
    ⟨fun a b c hab hbc => by
      cases h : Window.comesFirst mode c a
      · rfl
      · rcases comesFirst_between mode a b c h with h1 | h1
        · rw [h1] at hbc
          cases hbc
        · rw [h1] at hab
          cases hab⟩
  exact List.sorted_insertionSort (fun a b => Window.comesFirst mode b a = false) l

theorem describe_path (p : Platform) (fs : FileSystem) (blank : Sound) (file : String) :
    (Window.describe p fs blank file).path = Window.soundPath p file ∧
    (Window.describe p fs blank file).name = fs.stem file := by
  unfold Window.describe
  cases fs.lastWriteTime file <;> exact ⟨rfl, rfl⟩

theorem scanEntry_cases (p : Platform) (fs : FileSystem) (blank : Sound) (bits : Nat)
    (tab : Tab) (file : String) (acc : List Sound × Nat) :
    Window.scanEntry p fs blank bits tab file acc = acc ∨
    (Window.lowerExtension fs file ∈ [".mp3", ".wav", ".flac"] ∧
      ∃ z : Sound,
        z.path = Window.soundPath p file ∧ z.name = fs.stem file ∧
        ((∃ old, tab.sounds.find? (fun item => item.path == z.path) = some old ∧
            z.id = old.id ∧ z.hotkeys = old.hotkeys ∧ z.isFavorite = old.isFavorite ∧
            z.localVolume = old.localVolume ∧ z.remoteVolume = old.remoteVolume ∧
            Window.scanEntry p fs blank bits tab file acc = (acc.1 ++ [z], acc.2)) ∨
         (tab.sounds.find? (fun item => item.path == z.path) = none ∧
            z.id = (acc.2 + 1) % 2 ^ bits ∧
            Window.scanEntry p fs blank bits tab file acc
              = (acc.1 ++ [z], (acc.2 + 1) % 2 ^ bits)))) := by
  obtain ⟨hp, hn⟩ := describe_path p fs blank file
  unfold Window.scanEntry
  dsimp only
  generalize Window.describe p fs blank file = snd at hp hn ⊢
  generalize Window.lowerExtension fs file = ext
  split
  · exact Or.inl rfl
  · rename_i hx
    refine Or.inr ⟨?_, ?_⟩
    · simp only [Bool.and_eq_true, bne_iff_ne, ne_eq, not_and, Classical.not_imp,
        Decidable.not_not] at hx
      simp only [List.mem_cons, List.mem_singleton, List.not_mem_nil, or_false]
      by_cases h1 : ext = ".mp3"
      · exact Or.inl h1
      · by_cases h2 : ext = ".wav"
        · exact Or.inr (Or.inl h2)
        · exact Or.inr (Or.inr (hx ⟨h1, h2⟩))
    · cases hf : tab.sounds.find? (fun item => item.path == snd.path) with
      | some old =>
          exact ⟨{ snd with id := old.id, hotkeys := old.hotkeys, isFavorite := old.isFavorite,
                            localVolume := old.localVolume, remoteVolume := old.remoteVolume },
            hp, hn, Or.inl ⟨old, hf, rfl, rfl, rfl, rfl, rfl, rfl⟩⟩
      | none =>
          exact ⟨{ snd with id := (acc.2 + 1) % 2 ^ bits }, hp, hn, Or.inr ⟨hf, rfl, rfl⟩⟩

theorem Scanned.id_le {tab : Tab} {c : Nat} {acc : List Sound × Nat} (h : Scanned tab c acc)
    (hids : ∀ x ∈ tab.sounds, x.id ≤ c) : ∀ y ∈ acc.1, y.id ≤ acc.2 := by
  intro y hy
  obtain ⟨h1, h2⟩ := h
  obtain ⟨ho, hn⟩ := h2 y hy
  cases hf : tab.sounds.find? (fun item => item.path == y.path) with
  | some old =>
      have := hids old (List.mem_of_find?_eq_some hf)
      rw [(ho old hf).1]
      omega
  | none => exact (hn hf).2.1

theorem Scanned.scanEntry {tab : Tab} {c : Nat} {acc : List Sound × Nat} (h : Scanned tab c acc)
    (hids : ∀ x ∈ tab.sounds, x.id ≤ c) (p : Platform) (fs : FileSystem) (blank : Sound)
    (bits : Nat) (file : String) (hw : acc.2 + 1 < 2 ^ bits) :
    Scanned tab c (Window.scanEntry p fs blank bits tab file acc) ∧
    (Window.scanEntry p fs blank bits tab file acc).2 ≤ acc.2 + 1 := by
  have hle := h.id_le hids
  obtain ⟨h1, h2⟩ := h
  rcases scanEntry_cases p fs blank bits tab file acc with e | ⟨_, z, _, _, hz⟩
  · rw [e]
    exact ⟨⟨h1, h2⟩, by omega⟩
  · rcases hz with ⟨old, hf, hid, hh, hfav, hl, hr, e⟩ | ⟨hf, hid, e⟩
    · rw [e]
      have hold := hids old (List.mem_of_find?_eq_some hf)
      refine ⟨⟨h1, ?_⟩, by simp⟩
      intro y hy
      rcases List.mem_append.1 hy with hy | hy
      · obtain ⟨ho, hn⟩ := h2 y hy
        refine ⟨ho, fun hnone => ?_⟩
        obtain ⟨n1, n2, n3⟩ := hn hnone
        refine ⟨n1, n2, ?_⟩
        dsimp only at n3 ⊢
        rw [List.countP_append, n3]
        have : z.id ≠ y.id := by omega
        simp [List.countP_cons, this]
      · simp only [List.mem_singleton] at hy
        subst hy
        refine ⟨fun old2 hf2 => ?_, fun hnone => ?_⟩
        · rw [hf] at hf2
          cases hf2
          exact ⟨hid, hh, hfav, hl, hr⟩
        · rw [hf] at hnone
          cases hnone
    · rw [e]
      have hk : (acc.2 + 1) % 2 ^ bits = acc.2 + 1 := Nat.mod_eq_of_lt hw
      rw [hk] at hid ⊢
      refine ⟨⟨by dsimp only; omega, ?_⟩, by simp⟩
      intro y hy
      rcases List.mem_append.1 hy with hy | hy
      · obtain ⟨ho, hn⟩ := h2 y hy
        refine ⟨ho, fun hnone => ?_⟩
        obtain ⟨n1, n2, n3⟩ := hn hnone
        refine ⟨n1, by dsimp only; omega, ?_⟩
        dsimp only at n3 ⊢
        rw [List.countP_append, n3]
        have : z.id ≠ y.id := by omega
        simp [List.countP_cons, this]
      · simp only [List.mem_singleton] at hy
        subst hy
        refine ⟨fun old2 hf2 => ?_, fun _ => ⟨by omega, by dsimp only; omega, ?_⟩⟩
        · rw [hf] at hf2
          cases hf2
        · dsimp only
          rw [List.countP_append]
          have h0 : List.countP (fun x => x.id == y.id) acc.1 = 0 := by
            rw [List.countP_eq_zero]
            intro a ha
            have := hle a ha
            simp only [beq_iff_eq]
            omega
          simp [h0, List.countP_cons]

theorem Scanned.scanEntries {tab : Tab} {c : Nat} (hids : ∀ x ∈ tab.sounds, x.id ≤ c)
    (p : Platform) (fs : FileSystem) (blank : Sound) (bits : Nat) (es : List String) :
    ∀ acc : List Sound × Nat, Scanned tab c acc → acc.2 + es.length < 2 ^ bits →
      ∀ rtn, (Window.scanEntries p fs blank bits tab es acc).1 = some rtn →
        Scanned tab c (rtn, (Window.scanEntries p fs blank bits tab es acc).2) := by
  induction es with
  | nil =>
      intro acc h _ rtn hr
      simp only [Window.scanEntries, Option.some.injEq] at hr ⊢
      rw [← hr]
      exact h
  | cons e es ih =>
      intro acc h hw rtn hr
      simp only [List.length_cons] at hw
      simp only [Window.scanEntries] at hr ⊢
      cases hres : Window.resolveEntry fs tab.path e with
      | none =>
          rw [hres] at hr
          cases hr
      | some file =>
          rw [hres] at hr
          dsimp only at hr ⊢
          obtain ⟨h1, h2⟩ := h.scanEntry hids p fs blank bits file (by omega)
          exact ih _ h1 (by omega) rtn hr

theorem scanEntries_source (p : Platform) (fs : FileSystem) (blank : Sound) (bits : Nat)
    (tab : Tab) (es : List String) :
    ∀ (acc : List Sound × Nat) (rtn : List Sound),
      (Window.scanEntries p fs blank bits tab es acc).1 = some rtn → ∀ y ∈ rtn,
      y ∈ acc.1 ∨ ∃ e ∈ es, ∃ file, Window.resolveEntry fs tab.path e = some file ∧
        Window.lowerExtension fs file ∈ [".mp3", ".wav", ".flac"] ∧
        y.path = Window.soundPath p file ∧ y.name = fs.stem file := by
  induction es with
  | nil =>
      intro acc rtn hr y hy
      simp only [Window.scanEntries, Option.some.injEq] at hr
      rw [← hr] at hy
      exact Or.inl hy
  | cons e es ih =>
      intro acc rtn hr y hy
      simp only [Window.scanEntries] at hr
      cases hres : Window.resolveEntry fs tab.path e with
      | none =>
          rw [hres] at hr
          cases hr
      | some file =>
          rw [hres] at hr
          dsimp only at hr
          rcases ih _ rtn hr y hy with h | ⟨e2, he2, h⟩
          · rcases scanEntry_cases p fs blank bits tab file acc with eq | ⟨hx, z, hp, hn, hz⟩
            · rw [eq] at h
              exact Or.inl h
            · have hacc : (Window.scanEntry p fs blank bits tab file acc).1 = acc.1 ++ [z] := by
                rcases hz with ⟨_, _, _, _, _, _, _, eq⟩ | ⟨_, _, eq⟩ <;> rw [eq]
              rw [hacc] at h
              rcases List.mem_append.1 h with h | h
              · exact Or.inl h
              · simp only [List.mem_singleton] at h
                subst h
                exact Or.inr ⟨e, List.mem_cons_self _ _, file, hres, hx, hp, hn⟩
          · exact Or.inr ⟨e2, List.mem_cons_of_mem _ he2, h⟩

theorem scanEntries_isSome (p : Platform) (fs : FileSystem) (blank : Sound) (bits : Nat)
    (tab : Tab) (es : List String) :
    ∀ acc : List Sound × Nat,
      (Window.scanEntries p fs blank bits tab es acc).1.isSome = true ↔
        ∀ e ∈ es, (Window.resolveEntry fs tab.path e).isSome = true := by
  induction es with
  | nil =>
      intro acc
      simp [Window.scanEntries]
  | cons e es ih =>
      intro acc
      simp only [Window.scanEntries, List.mem_cons, forall_eq_or_imp]
      cases hres : Window.resolveEntry fs tab.path e with
      | none => simp
      | some file =>
          dsimp only
          rw [ih]
          simp

/-- C24 fails as stated, at three places.  First: the directory `clips` holds `b.mp3` and a
link to it, so its first scan returns two sounds with the path `clips/b.mp3`, with the ids 1
and 3; the scan of the tab that holds these sounds gives both the id 1, and the sound of the
tab with the id 3 is not carried over.  Second: a tab whose sound has the id 5, above the
counter 4, makes the new sound `A.WAV` share the id 5.  Third: at the counter `2 ^ 32 - 1` of a
counter of 32 bits the new sounds get the ids 0, 1 and 2, none above the counter. -/
theorem getTabContent_rescan_loses_identity :
    ((Window.getTabContent Platform.linux sampleFiles blankSound 32 sampleTab 0).1.map
        (List.map (fun s => (s.id, s.path)))
      = some [(2, "clips/A.WAV"), (1, "clips/b.mp3"), (3, "clips/b.mp3")] ∧
     (Window.getTabContent Platform.linux sampleFiles blankSound 32
        { sampleTab with
          sounds := ((Window.getTabContent Platform.linux sampleFiles blankSound 32
            sampleTab 0).1).getD [] } 3).1.map (List.map (fun s => (s.id, s.path)))
      = some [(2, "clips/A.WAV"), (1, "clips/b.mp3"), (1, "clips/b.mp3")]) ∧
    (Window.getTabContent Platform.linux sampleFiles blankSound 32
        { sampleTab with sounds := [{ blankSound with id := 5, path := "clips/b.mp3" }] }
        4).1.map (List.map (fun s => (s.id, s.path)))
      = some [(5, "clips/A.WAV"), (5, "clips/b.mp3"), (5, "clips/b.mp3")] ∧
    (Window.getTabContent Platform.linux sampleFiles blankSound 32 sampleTab
        4294967295).1.map (List.map (fun s => (s.id, s.path)))
      = some [(1, "clips/A.WAV"), (0, "clips/b.mp3"), (2, "clips/b.mp3")] := by
  refine ⟨⟨by decide, by decide⟩, by decide, by decide⟩

/-- C24, amended: let the directory of the tab be listed, let every sound of the tab have an id
of at most `soundIdCounter`, and let the counter not wrap over the entries of the directory.
`getTabContent` returns a list exactly if `canonical` throws for no entry.  Every sound of the
list comes from an entry whose file has the lower-cased extension `.mp3`, `.wav` or `.flac`,
and has the path and the stem of that file.  If its path is the path of a sound of the tab, it
carries the id, hotkeys, favourite flag and both volumes of the first such sound.  If no sound
of the tab has its path, its id is above the previous counter, at most the new one, and is the
id of no other sound of the list.  The list is ordered by the sort mode of the tab: no sound
comes strictly before one that precedes it. -/
theorem getTabContent_identity (p : Platform) (fs : FileSystem) (blank : Sound) (bits : Nat)
    (tab : Tab) (c : Nat) (es : List String)
    (hes : fs.entries tab.path = DirAnswer.listing es)
    (hids : ∀ x ∈ tab.sounds, x.id ≤ c)
    (hwrap : c + es.length < 2 ^ bits) :
    ((Window.getTabContent p fs blank bits tab c).1.isSome = true ↔
      ∀ e ∈ es, (Window.resolveEntry fs tab.path e).isSome = true) ∧
    ∀ rtn, (Window.getTabContent p fs blank bits tab c).1 = some rtn →
      (∀ y ∈ rtn,
        (∃ e ∈ es, ∃ file, Window.resolveEntry fs tab.path e = some file ∧
          Window.lowerExtension fs file ∈ [".mp3", ".wav", ".flac"] ∧
          y.path = Window.soundPath p file ∧ y.name = fs.stem file) ∧
        (∀ old, tab.sounds.find? (fun item => item.path == y.path) = some old →
          y.id = old.id ∧ y.hotkeys = old.hotkeys ∧ y.isFavorite = old.isFavorite ∧
          y.localVolume = old.localVolume ∧ y.remoteVolume = old.remoteVolume) ∧
        ((∀ old ∈ tab.sounds, old.path ≠ y.path) →
          c < y.id ∧ y.id ≤ (Window.getTabContent p fs blank bits tab c).2 ∧
          rtn.countP (fun z => z.id == y.id) = 1)) ∧
      List.Pairwise (fun a b => Window.comesFirst tab.sortMode b a = false) rtn := by
  have hinit : Scanned tab c ([], c) := ⟨Nat.le_refl c, fun y hy => by cases hy⟩
  have hsc := Scanned.scanEntries hids p fs blank bits es ([], c) hinit hwrap
  have hsrc := scanEntries_source p fs blank bits tab es ([], c)
  have hsome := scanEntries_isSome p fs blank bits tab es ([], c)
  have e : Window.getTabContent p fs blank bits tab c
      = ((Window.scanEntries p fs blank bits tab es ([], c)).1.map
          (Window.stdSort (Window.comesFirst tab.sortMode)),
         (Window.scanEntries p fs blank bits tab es ([], c)).2) := by
    simp only [Window.getTabContent, hes]
  rw [e]
  generalize Window.scanEntries p fs blank bits tab es ([], c) = r at hsc hsrc hsome
  refine ⟨by rw [← hsome]; simp, fun rtn hr => ?_⟩
  cases h1 : r.1 with
  | none =>
      rw [h1] at hr
      cases hr
  | some raw =>
      rw [h1] at hr
      simp only [Option.map_some', Option.some.injEq] at hr
      subst hr
      have hperm := stdSort_perm (Window.comesFirst tab.sortMode) raw
      have hsc1 := hsc raw h1
      refine ⟨fun y hy => ?_, stdSort_sorted tab.sortMode raw⟩
      have hy0 : y ∈ raw := hperm.mem_iff.1 hy
      obtain ⟨ho, hn⟩ := hsc1.2 y hy0
      refine ⟨?_, ho, fun hnew => ?_⟩
      · rcases hsrc raw h1 y hy0 with h | h
        · cases h
        · exact h
      · have hnone : tab.sounds.find? (fun item => item.path == y.path) = none := by
          rw [List.find?_eq_none]
          intro x hx
          simpa using hnew x hx
        obtain ⟨n1, n2, n3⟩ := hn hnone
        exact ⟨n1, n2, by rw [hperm.countP_eq]; exact n3⟩

/-- C24, amended, on a run: the scan of the directory `clips` for the tab that knows `A.WAV`
under the id 2, at the counter 2.  The list is returned; its sound of `A.WAV` carries the id 2,
the hotkey, the favourite flag and the local volume of the tab, and the two sounds of `b.mp3`
get the new ids 3 and 4. -/
theorem getTabContent_identity_witness :
    (Window.getTabContent Platform.linux sampleFiles blankSound 32 knownTab 2).1.isSome = true ∧
    (Window.getTabContent Platform.linux sampleFiles blankSound 32 knownTab 2).1
      = some knownScan ∧
    knownScan.map (fun s => (s.id, s.path))
      = [(2, "clips/A.WAV"), (3, "clips/b.mp3"), (4, "clips/b.mp3")] ∧
    ∃ y ∈ knownScan, y.path = "clips/A.WAV" ∧
      y.id = 2 ∧ y.hotkeys = [7] ∧ y.isFavorite = true ∧ y.localVolume = some 30 :=
  ⟨(getTabContent_identity Platform.linux sampleFiles blankSound 32 knownTab 2
      ["clips/b.mp3", "clips/notes.txt", "clips/A.WAV", "clips/l.mp3"] rfl
      (by decide) (by decide)).1.2 (by decide),
   by decide, by decide,
   { knownSound with modifiedDate := 20 }, by decide, rfl,
   (fun h => ⟨h.1, h.2.1, h.2.2.1, h.2.2.2.1⟩)
    ((((getTabContent_identity Platform.linux sampleFiles blankSound 32 knownTab 2
      ["clips/b.mp3", "clips/notes.txt", "clips/A.WAV", "clips/l.mp3"] rfl
      (by decide) (by decide)).2 knownScan (by decide)).1
        { knownSound with modifiedDate := 20 } (by decide)).2.1 knownSound (by decide))⟩

end Soundux
